import Mathlib

/-!
# Scheduler, device state machine and weather refresh of `main/application.cc`,
tool registry of `main/mcp_server.cc`

A shallow embedding of the `Application` class of the firmware and of the
tool list, the paged listing and the tool call of `McpServer`.

Conventions of the embedding.

* The object state is split in two records.  `St` holds the fields that the
  member functions read and write directly; `App` adds the callback queue
  `main_tasks_` and the FreeRTOS event group `event_group_`.
* A scheduled callback (`std::function<void()>`) is a `Callback`: a function
  from `St` to the new `St` together with the callbacks it passed to `Schedule`
  while it ran, in call order.
* Every call into a collaborator (display, LED, audio service, transport,
  FreeRTOS task creation, HTTP client) is appended to the trace `St.log`.
  Diagnostic `ESP_LOGx` output is not traced.
* The answers of the collaborators are read from an `Env`; each answer may
  depend on the whole trace so far, so successive calls may be answered
  differently.
* Dereferencing the null `protocol_` pointer ends the process: `St.crashed`
  is set and nothing after it runs.  The same marker is set by `esp_restart`,
  after which the trace ends with `Effect.esp_restart`.
* Other threads are seen at `vTaskDelay`: while the caller sleeps another
  thread may force the device state to `Idle`.
* Time points are signed tick counts in nanoseconds; `time_point{}` is `0`.
* A `float`/`double` is carried as its bit pattern and never computed with.
-/

namespace Application

/-! ## Enumerations (`device_state.h`, `protocol.h`, `application.h`) -/

/-- Device states, in the order of `STATE_STRINGS`. -/
inductive DeviceState where
  | kDeviceStateUnknown
  | kDeviceStateStarting
  | kDeviceStateWifiConfiguring
  | kDeviceStateIdle
  | kDeviceStateConnecting
  | kDeviceStateListening
  | kDeviceStateSpeaking
  | kDeviceStateUpgrading
  | kDeviceStateActivating
  | kDeviceStateAudioTesting
  | kDeviceStateFatalError
  deriving DecidableEq, Repr

/-- Listening modes passed to `SetListeningMode`. -/
inductive ListeningMode where
  | kListeningModeAutoStop
  | kListeningModeManualStop
  | kListeningModeRealtime
  deriving DecidableEq, Repr

/-- Echo-cancellation modes. -/
inductive AecMode where
  | kAecOff
  | kAecOnDeviceSide
  | kAecOnServerSide
  deriving DecidableEq, Repr

/-- Reasons handed to `SendAbortSpeaking`. -/
inductive AbortReason where
  | kAbortReasonNone
  | kAbortReasonWakeWordDetected
  deriving DecidableEq, Repr

/-! ## Numbers and time -/

/-- An IEEE `double`, carried as its 64-bit pattern. -/
structure double where
  bits : Nat
  deriving DecidableEq, Repr

/-- An IEEE `float`, carried as its 32-bit pattern (`0.0f` is pattern `0`). -/
structure float where
  bits : Nat
  deriving DecidableEq, Repr

/-- Ticks of `std::chrono::minutes{n}` in the nanosecond period of the clocks. -/
def minutes (n : Int) : Int := n * 60000000000

/-- Ticks of `std::chrono::seconds{n}` in the nanosecond period of the clocks. -/
def seconds (n : Int) : Int := n * 1000000000

/-- Mirrors `static constexpr std::chrono::minutes kWeatherSuccessTtl{30}`. -/
def kWeatherSuccessTtl : Int := minutes 30

/-- Mirrors `static constexpr std::chrono::minutes kWeatherRetryInterval{5}`. -/
def kWeatherRetryInterval : Int := minutes 5

/-! ## Weather snapshot and the cJSON tree -/

/-- The `WeatherInfo` record; the field list is the one used by
`FetchWeatherData` and `UpdateIdleDisplay`. -/
structure WeatherInfo where
  city : String
  temperature_c : float
  feels_like_c : float
  humidity : Int
  wind_speed : float
  wind_deg : Int
  pressure : Int
  temp_min_c : float
  temp_max_c : float
  sunrise : Int
  sunset : Int
  description : String
  icon : String
  fetched_at : Int
  uvi : float
  deriving DecidableEq, Repr

/-- A parsed cJSON item.  A `cJSON*` is an `Option cJSON`, `NULL` being `none`. -/
inductive cJSON where
  | Null
  | False
  | True
  | Number (valuedouble : double) (valueint : Int)
  | String (valuestring : String)
  | Array (items : List cJSON)
  | Object (members : List (String × cJSON))

/-- The byte-wise `tolower` comparison cJSON uses for member names. -/
def case_insensitive_eq (a b : String) : Bool :=
  a.data.map Char.toLower == b.data.map Char.toLower

/-- First member whose name matches, as `get_object_item` walks the children. -/
def cJSON_lookup (key : String) : List (String × cJSON) → Option cJSON
  | [] => none
  | (k, v) :: rest => if case_insensitive_eq key k then some v else cJSON_lookup key rest

/-- The library call `cJSON_GetObjectItem` (case-insensitive; `NULL` for a null
object, for an item without named children and for a missing member). -/
def cJSON_GetObjectItem (object : Option cJSON) (key : String) : Option cJSON :=
  match object with
  | some (cJSON.Object members) => cJSON_lookup key members
  | _ => none

/-- The library predicate `cJSON_IsString`. -/
def cJSON_IsString : Option cJSON → Bool
  | some (cJSON.String _) => true
  | _ => false

/-- The library predicate `cJSON_IsNumber`. -/
def cJSON_IsNumber : Option cJSON → Bool
  | some (cJSON.Number _ _) => true
  | _ => false

/-- The library predicate `cJSON_IsObject`. -/
def cJSON_IsObject : Option cJSON → Bool
  | some (cJSON.Object _) => true
  | _ => false

/-- The library predicate `cJSON_IsArray`. -/
def cJSON_IsArray : Option cJSON → Bool
  | some (cJSON.Array _) => true
  | _ => false

/-- The library call `cJSON_GetArraySize`. -/
def cJSON_GetArraySize : Option cJSON → Nat
  | some (cJSON.Array items) => items.length
  | some (cJSON.Object members) => members.length
  | _ => 0

/-- The library call `cJSON_GetArrayItem`. -/
def cJSON_GetArrayItem (array : Option cJSON) (index : Nat) : Option cJSON :=
  match array with
  | some (cJSON.Array items) => items.get? index
  | some (cJSON.Object members) => (members.get? index).map Prod.snd
  | _ => none

/-- Field `valuestring` of an item known to be a string (empty otherwise). -/
def cJSON_valuestring : Option cJSON → String
  | some (cJSON.String s) => s
  | _ => ""

/-- Field `valueint` of an item known to be a number. -/
def cJSON_valueint : Option cJSON → Int
  | some (cJSON.Number _ i) => i
  | _ => 0

/-- Field `valuedouble` of an item known to be a number. -/
def cJSON_valuedouble : Option cJSON → double
  | some (cJSON.Number d _) => d
  | _ => ⟨0⟩

/-- The C-locale `isspace`. -/
def isspace (c : Char) : Bool :=
  c == ' ' || c == '\t' || c == '\n' || c == '\x0b' || c == '\x0c' || c == '\r'

/-- Loop of `CapitalizeWords`: `new_word` is the flag carried across characters. -/
def CapitalizeWords.go : Bool → List Char → List Char
  | _, [] => []
  | new_word, ch :: rest =>
    if isspace ch then ch :: CapitalizeWords.go true rest
    else if new_word then ch.toUpper :: CapitalizeWords.go false rest
    else ch.toLower :: CapitalizeWords.go false rest

/-- Mirrors the static helper `CapitalizeWords`. -/
def CapitalizeWords (text : String) : String :=
  String.mk (CapitalizeWords.go true text.data)

/-! ## Trace of collaborator calls -/

/-- An encoded audio packet; only its identity matters here. -/
structure AudioStreamPacket where
  id : Nat
  deriving DecidableEq, Repr

/-- One call into a collaborator, in the order the calls are made. -/
inductive Effect where
  | PostStateChangeEvent (previous_state state : DeviceState)
  | led_OnStateChanged
  | display_SetStatus (status : String)
  | display_SetEmotion (emotion : String)
  | display_SetChatMessage (role content : String)
  | display_HideIdleCard
  | display_ShowIdleCard (snapshot : Option WeatherInfo)
  | display_UpdateStatusBar
  | audio_EnableVoiceProcessing (enable : Bool)
  | audio_EnableWakeWordDetection (enable : Bool)
  | audio_IsAudioProcessorRunning
  | audio_IsAfeWakeWord
  | audio_ResetDecoder
  | audio_PlaySound (sound : String)
  | audio_EncodeWakeWord
  | audio_GetLastWakeWord
  | audio_PopPacketFromSendQueue (packet : AudioStreamPacket)
  | audio_PopWakeWordPacket (packet : AudioStreamPacket)
  | protocol_IsAudioChannelOpened
  | protocol_OpenAudioChannel
  | protocol_SendStartListening (mode : ListeningMode)
  | protocol_SendAudio (packet : AudioStreamPacket)
  | protocol_SendWakeWordDetected (wake_word : String)
  | protocol_SendAbortSpeaking (reason : AbortReason)
  | xTaskCreate (name : String)
  | http_SetHeader (key value : String)
  | http_Open (method : String)
  | http_Close
  | callback_marker (tag : Nat)
  | vTaskDelay (ms : Nat)
  | ota_CheckVersion
  | ota_MarkCurrentVersionValid
  | ota_Activate
  | ota_StartUpgradeFromUrl (url : String)
  | board_SetPowerSaveMode (enabled : Bool)
  | audio_Stop
  | audio_Start
  | audio_EnableAudioTesting (enable : Bool)
  | protocol_CloseAudioChannel
  | protocol_SendStopListening
  | esp_restart
  | mcp_ParseMessage
  | audio_PushPacketToDecodeQueue (packet : AudioStreamPacket)
  | protocol_SendMcpMessage (payload : String)
  | mcp_tool_Call (name : String)
  deriving DecidableEq, Repr

/-- Return codes of `Ota::Activate` as `CheckNewVersion` tells them apart:
`ESP_OK`, `ESP_ERR_TIMEOUT`, and any other code. -/
inductive esp_err_t where
  | ESP_OK
  | ESP_ERR_TIMEOUT
  | ESP_FAIL
  deriving DecidableEq, Repr

/-- What the HTTP client reports for one exchange. -/
structure HttpResponse where
  open_ok : Bool
  status_code : Int
  body : String
  deriving DecidableEq, Repr

/-- Declarations of headers that are not part of the sources, and the answers
of the collaborators.  Each answer is a function of the trace so far. -/
structure Env where
  STANDBY : String
  CONNECTING : String
  LISTENING : String
  SPEAKING : String
  ERROR : String
  OGG_EXCLAMATION : String
  OGG_POPUP : String
  CONFIG_SEND_WAKE_WORD_DATA : Bool
  WeatherInfo_default : WeatherInfo
  static_cast_float : double → float
  steady_clock_now : List Effect → Int
  system_clock_now : List Effect → Int
  xTaskCreate_pdPASS : List Effect → Bool
  IsAudioProcessorRunning : List Effect → Bool
  IsAfeWakeWord : List Effect → Bool
  IsAudioChannelOpened : List Effect → Bool
  OpenAudioChannel : List Effect → Bool
  SendAudio : List Effect → AudioStreamPacket → Bool
  send_queue : List Effect → List AudioStreamPacket
  wake_word_packets : List Effect → List AudioStreamPacket
  GetLastWakeWord : List Effect → String
  http : List Effect → HttpResponse
  cJSON_Parse : String → Option cJSON
  CHECKING_NEW_VERSION : String
  ACTIVATION : String
  OTA_UPGRADE : String
  UPGRADING : String
  NEW_VERSION : String
  UPGRADE_FAILED : String
  OGG_UPGRADE : String
  OGG_ACTIVATION : String
  OGG_VIBRATION : String
  OGG_DIGIT : Nat → String
  CONFIG_RECEIVE_CUSTOM_MESSAGE : Bool
  snprintf_CHECK_NEW_VERSION_FAILED : Nat → String → String
  cJSON_PrintUnformatted : cJSON → String
  forced_idle : List Effect → Bool
  CheckVersion : List Effect → Bool
  GetCheckVersionUrl : List Effect → String
  HasNewVersion : List Effect → Bool
  HasActivationCode : List Effect → Bool
  HasActivationChallenge : List Effect → Bool
  GetActivationCode : List Effect → String
  GetActivationMessage : List Effect → String
  GetFirmwareUrl : List Effect → String
  GetFirmwareVersion : List Effect → String
  Activate : List Effect → esp_err_t
  StartUpgradeFromUrl : List Effect → String → Bool

/-! ## Object state -/

/-- Fields of `Application` that member functions read and write, the trace,
the crash marker, and the number of live `weather_fetch` tasks. -/
structure St where
  device_state_ : DeviceState
  listening_mode_ : ListeningMode
  aec_mode_ : AecMode
  aborted_ : Bool
  clock_ticks_ : Nat
  protocol_ : Bool
  last_error_message_ : String
  weather_fetch_in_progress_ : Bool
  weather_last_request_ : Int
  weather_last_success_ : Int
  weather_available_ : Bool
  weather_info_ : WeatherInfo
  weather_fetch_tasks : Nat
  log : List Effect
  crashed : Bool

/-- A queued `std::function<void()>`: the new state and the callbacks it
handed to `Schedule`, in call order. -/
inductive Callback where
  | mk (run : St → St × List Callback) : Callback

/-- Body of a callback. -/
def Callback.run : Callback → St → St × List Callback
  | Callback.mk f => f

/-- The bits of `event_group_` (the `MAIN_EVENT_*` macros are independent bits). -/
structure EventBits where
  MAIN_EVENT_SCHEDULE : Bool
  MAIN_EVENT_SEND_AUDIO : Bool
  MAIN_EVENT_WAKE_WORD_DETECTED : Bool
  MAIN_EVENT_VAD_CHANGE : Bool
  MAIN_EVENT_ERROR : Bool
  MAIN_EVENT_CHECK_NEW_VERSION_DONE : Bool
  MAIN_EVENT_CLOCK_TICK : Bool
  deriving DecidableEq, Repr

/-- The whole object: state, callback queue and event group. -/
structure App where
  st : St
  main_tasks_ : List Callback
  event_group_ : EventBits

/-- Appends one collaborator call to the trace. -/
def emit (e : Effect) (s : St) : St :=
  { s with log := s.log ++ [e] }

/-- Applies a member function that touches neither the queue nor the event group. -/
def App.onSt (f : St → St) (a : App) : App :=
  { a with st := f a.st }

/-! ## Alerts, weather refresh, idle card -/

/-- Mirrors `Application::Alert`. -/
def Alert (status message emotion sound : String) (s : St) : St :=
  let s := emit (Effect.display_SetStatus status) s
  let s := emit (Effect.display_SetEmotion emotion) s
  let s := emit (Effect.display_SetChatMessage "system" message) s
  if sound.isEmpty then s else emit (Effect.audio_PlaySound sound) s

/-- Mirrors `Application::RequestWeatherUpdate`.  The new task is recorded by
the `xTaskCreate` call in the trace and by `weather_fetch_tasks`; its body,
`FetchWeatherTask`, runs later as a step of its own. -/
def RequestWeatherUpdate (env : Env) (force : Bool) (s : St) : St :=
  let now := env.steady_clock_now s.log
  if s.weather_fetch_in_progress_ then s
  else if !force && (decide (s.weather_last_request_ ≠ 0) &&
      decide (now - s.weather_last_request_ < kWeatherRetryInterval)) then s
  else if !force && (s.weather_available_ && decide (s.weather_last_success_ ≠ 0) &&
      decide (now - s.weather_last_success_ < kWeatherSuccessTtl)) then s
  else
    let s := { s with weather_fetch_in_progress_ := true, weather_last_request_ := now }
    let created := env.xTaskCreate_pdPASS s.log
    let s := emit (Effect.xTaskCreate "weather_fetch") s
    if created then { s with weather_fetch_tasks := s.weather_fetch_tasks + 1 }
    else { s with weather_fetch_in_progress_ := false }

/-- Mirrors `Application::UpdateIdleDisplay`.  The card text (clock time,
rounded numbers) is not rendered; the call records the snapshot it is built
from, `none` when no weather is available. -/
def UpdateIdleDisplay (s : St) : St :=
  if s.device_state_ ≠ DeviceState.kDeviceStateIdle then emit Effect.display_HideIdleCard s
  else emit (Effect.display_ShowIdleCard
    (if s.weather_available_ then some s.weather_info_ else none)) s

/-- The table `dirs` of the lambda `format_wind_dir`. -/
def UpdateIdleDisplay.dirs : List String := ["N", "NE", "E", "SE", "S", "SW", "W", "NW"]

/-- The lambda `format_wind_dir` of `UpdateIdleDisplay`.  `%` and `/` on `int`
truncate toward zero; `none` stands for a read outside the table. -/
def UpdateIdleDisplay.format_wind_dir (deg : Int) : Option String :=
  if deg < 0 then some ""
  else
    let normalized := ((deg.tmod 360) + 360).tmod 360
    let index := (normalized + 22).tdiv 45
    let index := index.tmod 8
    if 0 ≤ index then UpdateIdleDisplay.dirs.get? index.toNat else none

/-! ## Device state machine -/

/-- Mirrors `Application::SetDeviceState`. -/
def SetDeviceState (env : Env) (state : DeviceState) (s : St) : St :=
  if s.device_state_ = state then s
  else
    let previous_state := s.device_state_
    let s := { s with clock_ticks_ := 0, device_state_ := state }
    let s := emit (Effect.PostStateChangeEvent previous_state state) s
    let s := emit Effect.led_OnStateChanged s
    let s := if state ≠ DeviceState.kDeviceStateIdle then emit Effect.display_HideIdleCard s else s
    match state with
    | DeviceState.kDeviceStateUnknown
    | DeviceState.kDeviceStateIdle =>
      let s := emit (Effect.display_SetStatus env.STANDBY) s
      let s := emit (Effect.display_SetEmotion "neutral") s
      let s := emit (Effect.audio_EnableVoiceProcessing false) s
      let s := emit (Effect.audio_EnableWakeWordDetection true) s
      let s := RequestWeatherUpdate env false s
      UpdateIdleDisplay s
    | DeviceState.kDeviceStateConnecting =>
      let s := emit (Effect.display_SetStatus env.CONNECTING) s
      let s := emit (Effect.display_SetEmotion "neutral") s
      emit (Effect.display_SetChatMessage "system" "") s
    | DeviceState.kDeviceStateListening =>
      let s := emit (Effect.display_SetStatus env.LISTENING) s
      let s := emit (Effect.display_SetEmotion "neutral") s
      let running := env.IsAudioProcessorRunning s.log
      let s := emit Effect.audio_IsAudioProcessorRunning s
      if running then s
      else if s.protocol_ then
        let s := emit (Effect.protocol_SendStartListening s.listening_mode_) s
        let s := emit (Effect.audio_EnableVoiceProcessing true) s
        emit (Effect.audio_EnableWakeWordDetection false) s
      else { s with crashed := true }
    | DeviceState.kDeviceStateSpeaking =>
      let s := emit (Effect.display_SetStatus env.SPEAKING) s
      let s :=
        if s.listening_mode_ ≠ ListeningMode.kListeningModeRealtime then
          let s := emit (Effect.audio_EnableVoiceProcessing false) s
          let afe := env.IsAfeWakeWord s.log
          let s := emit Effect.audio_IsAfeWakeWord s
          emit (Effect.audio_EnableWakeWordDetection afe) s
        else s
      emit Effect.audio_ResetDecoder s
    | _ => s

/-- Mirrors `Application::SetListeningMode`. -/
def SetListeningMode (env : Env) (mode : ListeningMode) (s : St) : St :=
  SetDeviceState env DeviceState.kDeviceStateListening { s with listening_mode_ := mode }

/-- Mirrors `Application::AbortSpeaking`. -/
def AbortSpeaking (reason : AbortReason) (s : St) : St :=
  let s := { s with aborted_ := true }
  if s.protocol_ then emit (Effect.protocol_SendAbortSpeaking reason) s else s

/-- The loop `while (auto packet = PopWakeWordPacket()) SendAudio(packet)` over
the packets the audio service holds. -/
def OnWakeWordDetected.sendPackets : List AudioStreamPacket → St → St
  | [], s => s
  | p :: ps, s =>
    OnWakeWordDetected.sendPackets ps
      (emit (Effect.protocol_SendAudio p) (emit (Effect.audio_PopWakeWordPacket p) s))

/-- Mirrors `Application::OnWakeWordDetected`; `AutoStop` is chosen when
`aec_mode_ == kAecOff`, `Realtime` otherwise. -/
def OnWakeWordDetected (env : Env) (s : St) : St :=
  if !s.protocol_ then s
  else if s.device_state_ = DeviceState.kDeviceStateIdle then
    let s := emit Effect.audio_EncodeWakeWord s
    let opened := env.IsAudioChannelOpened s.log
    let s := emit Effect.protocol_IsAudioChannelOpened s
    let mode := if s.aec_mode_ = AecMode.kAecOff then ListeningMode.kListeningModeAutoStop
      else ListeningMode.kListeningModeRealtime
    let continue_ (s : St) : St :=
      let wake_word := env.GetLastWakeWord s.log
      let s := emit Effect.audio_GetLastWakeWord s
      if env.CONFIG_SEND_WAKE_WORD_DATA then
        let s := OnWakeWordDetected.sendPackets (env.wake_word_packets s.log) s
        let s := emit (Effect.protocol_SendWakeWordDetected wake_word) s
        SetListeningMode env mode s
      else
        let s := SetListeningMode env mode s
        if s.crashed then s else emit (Effect.audio_PlaySound env.OGG_POPUP) s
    if opened then continue_ s
    else
      let s := SetDeviceState env DeviceState.kDeviceStateConnecting s
      let ok := env.OpenAudioChannel s.log
      let s := emit Effect.protocol_OpenAudioChannel s
      if ok then continue_ s
      else emit (Effect.audio_EnableWakeWordDetection true) s
  else if s.device_state_ = DeviceState.kDeviceStateSpeaking then
    AbortSpeaking AbortReason.kAbortReasonWakeWordDetected s
  else if s.device_state_ = DeviceState.kDeviceStateActivating then
    SetDeviceState env DeviceState.kDeviceStateIdle s
  else s

/-! ## Weather fetch (worker task) -/

/-- The `do { ... } while (false)` block of `FetchWeatherData`: `(success, info)`.
`now` is the value of `std::chrono::system_clock::now()`. -/
def FetchWeatherData.parse (env : Env) (now : Int) (root : cJSON) (info : WeatherInfo) :
    Bool × WeatherInfo :=
  let name := cJSON_GetObjectItem (some root) "name"
  if !cJSON_IsString name then (false, info)
  else
    let main_obj := cJSON_GetObjectItem (some root) "main"
    if !cJSON_IsObject main_obj then (false, info)
    else
      let temp := cJSON_GetObjectItem main_obj "temp"
      if !cJSON_IsNumber temp then (false, info)
      else
        let humidity := cJSON_GetObjectItem main_obj "humidity"
        let feels_like := cJSON_GetObjectItem main_obj "feels_like"
        let pressure := cJSON_GetObjectItem main_obj "pressure"
        let temp_min := cJSON_GetObjectItem main_obj "temp_min"
        let temp_max := cJSON_GetObjectItem main_obj "temp_max"
        let wind_obj := cJSON_GetObjectItem (some root) "wind"
        let wind_speed := if cJSON_IsObject wind_obj then cJSON_GetObjectItem wind_obj "speed" else none
        let wind_deg := if cJSON_IsObject wind_obj then cJSON_GetObjectItem wind_obj "deg" else none
        let sys_obj := cJSON_GetObjectItem (some root) "sys"
        let sunrise := if cJSON_IsObject sys_obj then cJSON_GetObjectItem sys_obj "sunrise" else none
        let sunset := if cJSON_IsObject sys_obj then cJSON_GetObjectItem sys_obj "sunset" else none
        let weather_array := cJSON_GetObjectItem (some root) "weather"
        if !cJSON_IsArray weather_array || cJSON_GetArraySize weather_array == 0 then (false, info)
        else
          let weather0 := cJSON_GetArrayItem weather_array 0
          if !cJSON_IsObject weather0 then (false, info)
          else
            let description := cJSON_GetObjectItem weather0 "description"
            let icon := cJSON_GetObjectItem weather0 "icon"
            let temperature_c := env.static_cast_float (cJSON_valuedouble temp)
            (true,
              { info with
                city := cJSON_valuestring name
                temperature_c := temperature_c
                feels_like_c :=
                  if cJSON_IsNumber feels_like then env.static_cast_float (cJSON_valuedouble feels_like)
                  else temperature_c
                humidity := if cJSON_IsNumber humidity then cJSON_valueint humidity else 0
                wind_speed :=
                  if cJSON_IsNumber wind_speed then env.static_cast_float (cJSON_valuedouble wind_speed)
                  else ⟨0⟩
                wind_deg := if cJSON_IsNumber wind_deg then cJSON_valueint wind_deg else -1
                pressure := if cJSON_IsNumber pressure then cJSON_valueint pressure else 0
                temp_min_c :=
                  if cJSON_IsNumber temp_min then env.static_cast_float (cJSON_valuedouble temp_min)
                  else temperature_c
                temp_max_c :=
                  if cJSON_IsNumber temp_max then env.static_cast_float (cJSON_valuedouble temp_max)
                  else temperature_c
                sunrise := if cJSON_IsNumber sunrise then seconds (cJSON_valueint sunrise) else 0
                sunset := if cJSON_IsNumber sunset then seconds (cJSON_valueint sunset) else 0
                description :=
                  if cJSON_IsString description then CapitalizeWords (cJSON_valuestring description)
                  else ""
                icon := if cJSON_IsString icon then cJSON_valuestring icon else ""
                fetched_at := now })

/-- Result of `FetchWeatherData`: the returned flag, the `info` reference
after the call, and the trace after the call. -/
structure FetchResult where
  success : Bool
  info : WeatherInfo
  log : List Effect

/-- Mirrors `Application::FetchWeatherData`.  The request (settings lookup and
URL) is not modelled; the response is the one the environment gives. -/
def FetchWeatherData (env : Env) (log : List Effect) (info : WeatherInfo) : FetchResult :=
  let log := log ++ [Effect.http_SetHeader "Accept" "application/json",
    Effect.http_SetHeader "User-Agent" "xiaozhi-weather/1.0"]
  let response := env.http log
  let log := log ++ [Effect.http_Open "GET"]
  if !response.open_ok then { success := false, info := info, log := log }
  else
    let log := log ++ [Effect.http_Close]
    if response.status_code ≠ 200 then { success := false, info := info, log := log }
    else
      match env.cJSON_Parse response.body with
      | none => { success := false, info := info, log := log }
      | some root =>
        let r := FetchWeatherData.parse env (env.system_clock_now log) root info
        { success := r.1, info := r.2, log := log }

/-! ## Scheduler -/

/-- Mirrors `Application::Schedule`. -/
def Schedule (callback : Callback) (a : App) : App :=
  { a with
    main_tasks_ := a.main_tasks_ ++ [callback]
    event_group_ := { a.event_group_ with MAIN_EVENT_SCHEDULE := true } }

/-- Calls a queued callback: its body runs on the state, and each `Schedule`
call it made is applied in order. -/
def Callback.invoke (cb : Callback) (a : App) : App :=
  (cb.run a.st).2.foldl (fun acc f => Schedule f acc) { a with st := (cb.run a.st).1 }

/-- The lambda `FetchWeatherTask` schedules after a success. -/
def FetchWeatherTask.refresh : Callback :=
  Callback.mk fun s =>
    (if s.device_state_ = DeviceState.kDeviceStateIdle then UpdateIdleDisplay s else s, [])

/-- Mirrors `Application::FetchWeatherTask`, run to its end (the task then
deletes itself). -/
def FetchWeatherTask (env : Env) (a : App) : App :=
  let r := FetchWeatherData env a.st.log env.WeatherInfo_default
  let s := { a.st with log := r.log, weather_fetch_in_progress_ := false }
  let s :=
    if r.success then
      { s with
        weather_info_ := r.info
        weather_available_ := true
        weather_last_success_ := env.steady_clock_now s.log }
    else s
  let a := { a with st := s }
  let a := if r.success then Schedule FetchWeatherTask.refresh a else a
  { a with st := { a.st with weather_fetch_tasks := a.st.weather_fetch_tasks - 1 } }

/-- The lambda registered with `protocol_->OnNetworkError` in `Start`. -/
def OnNetworkError (message : String) (a : App) : App :=
  { a with
    st := { a.st with last_error_message_ := message }
    event_group_ := { a.event_group_ with MAIN_EVENT_ERROR := true } }

/-- The `MAIN_EVENT_SEND_AUDIO` loop over the packets the send queue holds. -/
def MainEventLoop.sendAudio (env : Env) : List AudioStreamPacket → St → St
  | [], s => s
  | p :: ps, s =>
    let s := emit (Effect.audio_PopPacketFromSendQueue p) s
    if s.protocol_ then
      let ok := env.SendAudio s.log p
      let s := emit (Effect.protocol_SendAudio p) s
      if ok then MainEventLoop.sendAudio env ps s else s
    else MainEventLoop.sendAudio env ps s

/-- The loop `for (auto& task : tasks) task();` of the `MAIN_EVENT_SCHEDULE`
block; a crash ends the process, so nothing runs after it. -/
def MainEventLoop.runTasks : List Callback → App → App
  | [], a => a
  | task :: tasks, a =>
    MainEventLoop.runTasks tasks (if a.st.crashed then a else task.invoke a)

/-- The `MAIN_EVENT_SCHEDULE` block: `main_tasks_` is moved into the local
`tasks` (leaving the member empty) and the moved callbacks are called. -/
def MainEventLoop.drain (a : App) : App :=
  let tasks := a.main_tasks_
  MainEventLoop.runTasks tasks { a with main_tasks_ := [] }

/-- The value `xEventGroupWaitBits` leaves in the group: the six bits waited
for are cleared on exit (`pdTRUE`), the version-check bit is kept. -/
def EventBits.clearOnExit (bits : EventBits) : EventBits :=
  { MAIN_EVENT_SCHEDULE := false
    MAIN_EVENT_SEND_AUDIO := false
    MAIN_EVENT_WAKE_WORD_DETECTED := false
    MAIN_EVENT_VAD_CHANGE := false
    MAIN_EVENT_ERROR := false
    MAIN_EVENT_CHECK_NEW_VERSION_DONE := bits.MAIN_EVENT_CHECK_NEW_VERSION_DONE
    MAIN_EVENT_CLOCK_TICK := false }

/-- One iteration of the `while (true)` of `Application::MainEventLoop`, from
the return of `xEventGroupWaitBits` to the end of the body.  With none of the
six bits set the real call blocks; the iteration is then the identity. -/
def MainEventLoop_pass (env : Env) (a : App) : App :=
  let bits := a.event_group_
  let a := { a with event_group_ := bits.clearOnExit }
  let a :=
    if bits.MAIN_EVENT_ERROR && !a.st.crashed then
      a.onSt fun s =>
        Alert env.ERROR s.last_error_message_ "circle_xmark" env.OGG_EXCLAMATION
          (SetDeviceState env DeviceState.kDeviceStateIdle s)
    else a
  let a :=
    if bits.MAIN_EVENT_SEND_AUDIO && !a.st.crashed then
      a.onSt fun s => MainEventLoop.sendAudio env (env.send_queue s.log) s
    else a
  let a :=
    if bits.MAIN_EVENT_WAKE_WORD_DETECTED && !a.st.crashed then
      a.onSt (OnWakeWordDetected env)
    else a
  let a :=
    if bits.MAIN_EVENT_VAD_CHANGE && !a.st.crashed then
      a.onSt fun s =>
        if s.device_state_ = DeviceState.kDeviceStateListening then emit Effect.led_OnStateChanged s
        else s
    else a
  let a :=
    if bits.MAIN_EVENT_SCHEDULE && !a.st.crashed then
      MainEventLoop.drain a
    else a
  let a :=
    if bits.MAIN_EVENT_CLOCK_TICK && !a.st.crashed then
      a.onSt fun s =>
        let s := { s with clock_ticks_ := s.clock_ticks_ + 1 }
        let s := UpdateIdleDisplay s
        let s := emit Effect.display_UpdateStatusBar s
        if s.clock_ticks_ % 60 = 0 then RequestWeatherUpdate env false s else s
    else a
  a

/-- The scheduler thread alone: `n` iterations of the loop body. -/
def MainEventLoop (env : Env) : Nat → App → App
  | 0, a => a
  | n + 1, a => MainEventLoop env n (MainEventLoop_pass env a)

/-! ## Delays, reboot, firmware upgrade -/

/-- The call `vTaskDelay(pdMS_TO_TICKS(ms))`.  While the caller sleeps another
thread (a button handler, the wake-word handler) may call
`SetDeviceState(kDeviceStateIdle)`; the environment says whether one does. -/
def vTaskDelay (env : Env) (ms : Nat) (s : St) : St :=
  let s := emit (Effect.vTaskDelay ms) s
  if env.forced_idle s.log then SetDeviceState env DeviceState.kDeviceStateIdle s else s

/-- The statement `if (protocol_ && protocol_->IsAudioChannelOpened())
protocol_->CloseAudioChannel();` shared by `Reboot` and `UpgradeFirmware`. -/
def closeChannelIfOpened (env : Env) (s : St) : St :=
  if s.protocol_ then
    let opened := env.IsAudioChannelOpened s.log
    let s := emit Effect.protocol_IsAudioChannelOpened s
    if opened then emit Effect.protocol_CloseAudioChannel s else s
  else s

/-- Mirrors `Application::Reboot`; `esp_restart` ends the process. -/
def Reboot (env : Env) (s : St) : St :=
  let s := closeChannelIfOpened env s
  let s := { s with protocol_ := false }
  let s := emit Effect.audio_Stop s
  let s := vTaskDelay env 1000 s
  let s := emit Effect.esp_restart s
  { s with crashed := true }

/-- Mirrors `Application::UpgradeFirmware(ota, url)`: the returned flag and the
state after the call.  The progress texts, written from detached threads
during the download, are not traced. -/
def UpgradeFirmware (env : Env) (url : String) (s : St) : Bool × St :=
  let upgrade_url := if url.isEmpty then env.GetFirmwareUrl s.log else url
  let version_info := if url.isEmpty then env.GetFirmwareVersion s.log else "(Manual upgrade)"
  let s := closeChannelIfOpened env s
  let s := Alert env.OTA_UPGRADE env.UPGRADING "download" env.OGG_UPGRADE s
  let s := vTaskDelay env 3000 s
  let s := SetDeviceState env DeviceState.kDeviceStateUpgrading s
  let s := emit (Effect.display_SetChatMessage "system" (env.NEW_VERSION ++ version_info)) s
  let s := emit (Effect.board_SetPowerSaveMode false) s
  let s := emit Effect.audio_Stop s
  let s := vTaskDelay env 1000 s
  let upgrade_success := env.StartUpgradeFromUrl s.log upgrade_url
  let s := emit (Effect.ota_StartUpgradeFromUrl upgrade_url) s
  if !upgrade_success then
    let s := emit Effect.audio_Start s
    let s := emit (Effect.board_SetPowerSaveMode true) s
    let s := Alert env.ERROR env.UPGRADE_FAILED "circle_xmark" env.OGG_EXCLAMATION s
    let s := vTaskDelay env 3000 s
    (false, s)
  else
    let s := emit (Effect.display_SetChatMessage "system" "Upgrade successful, rebooting...") s
    let s := vTaskDelay env 1000 s
    let s := Reboot env s
    (true, s)

/-! ## Version check and activation -/

/-- Mirrors `Application::ShowActivationCode`: the alert, then the sound of
each character of `code` that is one of `'0'` to `'9'`. -/
def ShowActivationCode (env : Env) (code message : String) (s : St) : St :=
  let s := Alert env.ACTIVATION message "link" env.OGG_ACTIVATION s
  code.data.foldl
    (fun s digit =>
      if digit.isDigit then emit (Effect.audio_PlaySound (env.OGG_DIGIT (digit.toNat - 48))) s
      else s)
    s

/-- Mirrors `const int MAX_RETRY = 10`. -/
def MAX_RETRY : Nat := 10

/-- The loop `for (int i = 0; i < retry_delay; i++) { vTaskDelay(1000); if
(device_state_ == kDeviceStateIdle) break; }`; the first argument is the number
of iterations left. -/
def CheckNewVersion.wait (env : Env) : Nat → St → St
  | 0, s => s
  | n + 1, s =>
    let s := vTaskDelay env 1000 s
    if s.device_state_ = DeviceState.kDeviceStateIdle then s else CheckNewVersion.wait env n s

/-- The loop `for (int i = 0; i < 10; ++i)` around `ota.Activate()`; the first
argument is the number of iterations left. -/
def CheckNewVersion.activate (env : Env) : Nat → App → App
  | 0, a => a
  | n + 1, a =>
    let err := env.Activate a.st.log
    let a := a.onSt (emit Effect.ota_Activate)
    match err with
    | esp_err_t.ESP_OK =>
      { a with event_group_ := { a.event_group_ with MAIN_EVENT_CHECK_NEW_VERSION_DONE := true } }
    | esp_err_t.ESP_ERR_TIMEOUT =>
      let a := a.onSt (vTaskDelay env 3000)
      if a.st.device_state_ = DeviceState.kDeviceStateIdle then a
      else CheckNewVersion.activate env n a
    | esp_err_t.ESP_FAIL =>
      let a := a.onSt (vTaskDelay env 10000)
      if a.st.device_state_ = DeviceState.kDeviceStateIdle then a
      else CheckNewVersion.activate env n a

/-- How one iteration of the `while (true)` of `CheckNewVersion` ends: the
function returns (`return` or `break`), or the loop goes round again with the
given `retry_count` and `retry_delay`. -/
inductive LoopStep where
  | returned (a : App)
  | again (retry_count retry_delay : Nat) (a : App)

/-- One iteration of the `while (true)` of `Application::CheckNewVersion`,
entered with the given `retry_count` and `retry_delay`. -/
def CheckNewVersion.body (env : Env) (retry_count retry_delay : Nat) (a : App) : LoopStep :=
  let s := SetDeviceState env DeviceState.kDeviceStateActivating a.st
  let s := emit (Effect.display_SetStatus env.CHECKING_NEW_VERSION) s
  let ok := env.CheckVersion s.log
  let s := emit Effect.ota_CheckVersion s
  if !ok then
    let retry_count := retry_count + 1
    if retry_count ≥ MAX_RETRY then LoopStep.returned { a with st := s }
    else
      let buffer := env.snprintf_CHECK_NEW_VERSION_FAILED retry_delay (env.GetCheckVersionUrl s.log)
      let s := Alert env.ERROR buffer "cloud_slash" env.OGG_EXCLAMATION s
      let s := CheckNewVersion.wait env retry_delay s
      LoopStep.again retry_count (retry_delay * 2) { a with st := s }
  else
    let upgraded := if env.HasNewVersion s.log then UpgradeFirmware env "" s else (false, s)
    if upgraded.1 then LoopStep.returned { a with st := upgraded.2 }
    else
      let s := emit Effect.ota_MarkCurrentVersionValid upgraded.2
      if !env.HasActivationCode s.log && !env.HasActivationChallenge s.log then
        LoopStep.returned
          { a with
            st := s
            event_group_ := { a.event_group_ with MAIN_EVENT_CHECK_NEW_VERSION_DONE := true } }
      else
        let s := emit (Effect.display_SetStatus env.ACTIVATION) s
        let s :=
          if env.HasActivationCode s.log then
            ShowActivationCode env (env.GetActivationCode s.log) (env.GetActivationMessage s.log) s
          else s
        LoopStep.again 0 10 (CheckNewVersion.activate env 10 { a with st := s })

/-- The `while (true)` of `Application::CheckNewVersion` run for at most `fuel`
iterations: `none` when the loop is still running after them. -/
def CheckNewVersion.loop (env : Env) : Nat → Nat → Nat → App → Option App
  | 0, _, _, _ => none
  | fuel + 1, retry_count, retry_delay, a =>
    match CheckNewVersion.body env retry_count retry_delay a with
    | LoopStep.returned a => some a
    | LoopStep.again retry_count retry_delay a => CheckNewVersion.loop env fuel retry_count retry_delay a

/-- Mirrors `Application::CheckNewVersion`: `retry_count = 0`,
`retry_delay = 10`, then the loop. -/
def CheckNewVersion (env : Env) (fuel : Nat) (a : App) : Option App :=
  CheckNewVersion.loop env fuel 0 10 a

/-! ## User actions -/

/-- The lambda `ToggleChatState` and `StartListening` schedule in `Idle`;
`mode` is the listening mode the caller asks for. -/
def startListeningTask (env : Env) (mode : St → ListeningMode) : Callback :=
  Callback.mk fun s =>
    if !s.protocol_ then ({ s with crashed := true }, [])
    else
      let opened := env.IsAudioChannelOpened s.log
      let s := emit Effect.protocol_IsAudioChannelOpened s
      if opened then (SetListeningMode env (mode s) s, [])
      else
        let s := SetDeviceState env DeviceState.kDeviceStateConnecting s
        let ok := env.OpenAudioChannel s.log
        let s := emit Effect.protocol_OpenAudioChannel s
        if ok then (SetListeningMode env (mode s) s, []) else (s, [])

/-- The mode `aec_mode_ == kAecOff ? kListeningModeAutoStop : kListeningModeRealtime`. -/
def modeForAec (s : St) : ListeningMode :=
  if s.aec_mode_ = AecMode.kAecOff then ListeningMode.kListeningModeAutoStop
  else ListeningMode.kListeningModeRealtime

/-- The lambda `[this]() { AbortSpeaking(kAbortReasonNone); }`. -/
def abortSpeakingTask : Callback :=
  Callback.mk fun s => (AbortSpeaking AbortReason.kAbortReasonNone s, [])

/-- The lambda `[this]() { protocol_->CloseAudioChannel(); }`. -/
def closeAudioChannelTask : Callback :=
  Callback.mk fun s =>
    if s.protocol_ then (emit Effect.protocol_CloseAudioChannel s, [])
    else ({ s with crashed := true }, [])

/-- Mirrors `Application::ToggleChatState`. -/
def ToggleChatState (env : Env) (a : App) : App :=
  if a.st.device_state_ = DeviceState.kDeviceStateActivating then
    a.onSt (SetDeviceState env DeviceState.kDeviceStateIdle)
  else if a.st.device_state_ = DeviceState.kDeviceStateWifiConfiguring then
    a.onSt fun s =>
      SetDeviceState env DeviceState.kDeviceStateAudioTesting
        (emit (Effect.audio_EnableAudioTesting true) s)
  else if a.st.device_state_ = DeviceState.kDeviceStateAudioTesting then
    a.onSt fun s =>
      SetDeviceState env DeviceState.kDeviceStateWifiConfiguring
        (emit (Effect.audio_EnableAudioTesting false) s)
  else if !a.st.protocol_ then a
  else if a.st.device_state_ = DeviceState.kDeviceStateIdle then
    Schedule (startListeningTask env modeForAec) a
  else if a.st.device_state_ = DeviceState.kDeviceStateSpeaking then
    Schedule abortSpeakingTask a
  else if a.st.device_state_ = DeviceState.kDeviceStateListening then
    Schedule closeAudioChannelTask a
  else a

/-- The lambda `StartListening` schedules in `Speaking`. -/
def abortAndListenTask (env : Env) : Callback :=
  Callback.mk fun s =>
    (SetListeningMode env ListeningMode.kListeningModeManualStop
      (AbortSpeaking AbortReason.kAbortReasonNone s), [])

/-- Mirrors `Application::StartListening`. -/
def StartListening (env : Env) (a : App) : App :=
  if a.st.device_state_ = DeviceState.kDeviceStateActivating then
    a.onSt (SetDeviceState env DeviceState.kDeviceStateIdle)
  else if a.st.device_state_ = DeviceState.kDeviceStateWifiConfiguring then
    a.onSt fun s =>
      SetDeviceState env DeviceState.kDeviceStateAudioTesting
        (emit (Effect.audio_EnableAudioTesting true) s)
  else if !a.st.protocol_ then a
  else if a.st.device_state_ = DeviceState.kDeviceStateIdle then
    Schedule (startListeningTask env fun _ => ListeningMode.kListeningModeManualStop) a
  else if a.st.device_state_ = DeviceState.kDeviceStateSpeaking then
    Schedule (abortAndListenTask env) a
  else a

/-! ## Incoming structured messages -/

/-- The member `valuestring` read through an item pointer: the text of a string
item; `none` when the item is not a string (its `valuestring` is `NULL`) or
the pointer itself is `NULL`, so that there is nothing `strcmp` can read. -/
def cJSON_valuestring_ptr : Option cJSON → Option String
  | some (cJSON.String s) => some s
  | _ => none

/-- The lambda scheduled for `tts` / `start`. -/
def OnIncomingJson.tts_start (env : Env) : Callback :=
  Callback.mk fun s =>
    let s := { s with aborted_ := false }
    if s.device_state_ = DeviceState.kDeviceStateIdle ∨
        s.device_state_ = DeviceState.kDeviceStateListening then
      (SetDeviceState env DeviceState.kDeviceStateSpeaking s, [])
    else (s, [])

/-- The lambda scheduled for `tts` / `stop`. -/
def OnIncomingJson.tts_stop (env : Env) : Callback :=
  Callback.mk fun s =>
    if s.device_state_ = DeviceState.kDeviceStateSpeaking then
      if s.listening_mode_ = ListeningMode.kListeningModeManualStop then
        (SetDeviceState env DeviceState.kDeviceStateIdle s, [])
      else (SetDeviceState env DeviceState.kDeviceStateListening s, [])
    else (s, [])

/-- The lambdas that show a chat message: `display->SetChatMessage(role, message)`. -/
def OnIncomingJson.chat (role message : String) : Callback :=
  Callback.mk fun s => (emit (Effect.display_SetChatMessage role message) s, [])

/-- The lambda scheduled for `llm`: `display->SetEmotion(emotion_str)`. -/
def OnIncomingJson.emotion (emotion_str : String) : Callback :=
  Callback.mk fun s => (emit (Effect.display_SetEmotion emotion_str) s, [])

/-- The lambda scheduled for `system` / `reboot`. -/
def OnIncomingJson.reboot (env : Env) : Callback :=
  Callback.mk fun s => (Reboot env s, [])

/-- The lambda registered with `protocol_->OnIncomingJson` in `Start`, called
on the transport's thread with the parsed message.  `strcmp` on a null
`valuestring`, and reading `valuestring` through a null item, end the process. -/
def OnIncomingJson (env : Env) (root : cJSON) (a : App) : App :=
  let type := cJSON_GetObjectItem (some root) "type"
  match cJSON_valuestring_ptr type with
  | none => a.onSt fun s => { s with crashed := true }
  | some type_str =>
    if type_str = "tts" then
      let state := cJSON_GetObjectItem (some root) "state"
      match cJSON_valuestring_ptr state with
      | none => a.onSt fun s => { s with crashed := true }
      | some state_str =>
        if state_str = "start" then Schedule (OnIncomingJson.tts_start env) a
        else if state_str = "stop" then Schedule (OnIncomingJson.tts_stop env) a
        else if state_str = "sentence_start" then
          let text := cJSON_GetObjectItem (some root) "text"
          if cJSON_IsString text then
            Schedule (OnIncomingJson.chat "assistant" (cJSON_valuestring text)) a
          else a
        else a
    else if type_str = "stt" then
      let text := cJSON_GetObjectItem (some root) "text"
      if cJSON_IsString text then Schedule (OnIncomingJson.chat "user" (cJSON_valuestring text)) a
      else a
    else if type_str = "llm" then
      let emotion := cJSON_GetObjectItem (some root) "emotion"
      if cJSON_IsString emotion then Schedule (OnIncomingJson.emotion (cJSON_valuestring emotion)) a
      else a
    else if type_str = "mcp" then
      let payload := cJSON_GetObjectItem (some root) "payload"
      if cJSON_IsObject payload then a.onSt (emit Effect.mcp_ParseMessage) else a
    else if type_str = "system" then
      let command := cJSON_GetObjectItem (some root) "command"
      if cJSON_IsString command then
        if cJSON_valuestring command = "reboot" then Schedule (OnIncomingJson.reboot env) a
        else a
      else a
    else if type_str = "alert" then
      let status := cJSON_GetObjectItem (some root) "status"
      let message := cJSON_GetObjectItem (some root) "message"
      let emotion := cJSON_GetObjectItem (some root) "emotion"
      if cJSON_IsString status && cJSON_IsString message && cJSON_IsString emotion then
        a.onSt
          (Alert (cJSON_valuestring status) (cJSON_valuestring message) (cJSON_valuestring emotion)
            env.OGG_VIBRATION)
      else a
    else if env.CONFIG_RECEIVE_CUSTOM_MESSAGE && type_str = "custom" then
      match cJSON_GetObjectItem (some root) "payload" with
      | some (cJSON.Object members) =>
        Schedule
          (OnIncomingJson.chat "system" (env.cJSON_PrintUnformatted (cJSON.Object members))) a
      | _ => a
    else a

/-! ## Protocol callbacks registered in `Start` -/

/-- Mirrors `Application::DismissAlert`. -/
def DismissAlert (env : Env) (s : St) : St :=
  if s.device_state_ = DeviceState.kDeviceStateIdle then
    let s := emit (Effect.display_SetStatus env.STANDBY) s
    let s := emit (Effect.display_SetEmotion "neutral") s
    emit (Effect.display_SetChatMessage "system" "") s
  else s

/-- The lambda registered with `protocol_->OnConnected`. -/
def OnConnected (env : Env) (a : App) : App :=
  a.onSt (DismissAlert env)

/-- The lambda registered with `protocol_->OnIncomingAudio`. -/
def OnIncomingAudio (packet : AudioStreamPacket) (a : App) : App :=
  a.onSt fun s =>
    if s.device_state_ = DeviceState.kDeviceStateSpeaking then
      emit (Effect.audio_PushPacketToDecodeQueue packet) s
    else s

/-- The lambda registered with `protocol_->OnAudioChannelOpened`; the warning
about the sample rates is diagnostic output. -/
def OnAudioChannelOpened (a : App) : App :=
  a.onSt (emit (Effect.board_SetPowerSaveMode false))

/-- The lambda `OnAudioChannelClosed` schedules. -/
def OnAudioChannelClosed.task (env : Env) : Callback :=
  Callback.mk fun s =>
    let s := emit (Effect.display_SetChatMessage "system" "") s
    (SetDeviceState env DeviceState.kDeviceStateIdle s, [])

/-- The lambda registered with `protocol_->OnAudioChannelClosed`. -/
def OnAudioChannelClosed (env : Env) (a : App) : App :=
  Schedule (OnAudioChannelClosed.task env) (a.onSt (emit (Effect.board_SetPowerSaveMode true)))

/-! ## Tool server (`mcp_server.cc`)

The classes `Property`, `PropertyList` and `McpTool` are declared in
`mcp_server.h`, which is not part of the sources.  A `Property` is the record
of its constructor arguments; what `has_default_value()`, `set_value()` and
`to_json()` answer is read from an `McpEnv`.  A `char` of a `std::string` is a
`Char`, so `length()` is `String.length`. -/

/-- The enumeration `PropertyType`. -/
inductive PropertyType where
  | kPropertyTypeBoolean
  | kPropertyTypeInteger
  | kPropertyTypeString
  deriving DecidableEq, Repr

/-- A value a property can hold: `bool`, `int` or `std::string`. -/
inductive PropertyValue where
  | boolean (b : Bool)
  | integer (i : Int)
  | string (s : String)
  deriving DecidableEq, Repr

/-- A `Property` as its constructor is called in `mcp_server.cc`: name, type,
and the default value and the bounds when they are given; `value` is what
`set_value` stored last. -/
structure Property where
  name : String
  type : PropertyType
  default_value : Option PropertyValue
  min_value : Option Int
  max_value : Option Int
  value : Option PropertyValue
  deriving DecidableEq, Repr

/-- The call `Property(name, type)`. -/
def Property.plain (name : String) (type : PropertyType) : Property :=
  { name := name, type := type, default_value := none, min_value := none, max_value := none,
    value := none }

/-- The call `Property(name, type, default_value)`. -/
def Property.with_default (name : String) (type : PropertyType) (default_value : PropertyValue) :
    Property :=
  { name := name, type := type, default_value := some default_value, min_value := none,
    max_value := none, value := some default_value }

/-- The call `Property(name, type, min_value, max_value)`. -/
def Property.ranged (name : String) (type : PropertyType) (min_value max_value : Int) : Property :=
  { name := name, type := type, default_value := none, min_value := some min_value,
    max_value := some max_value, value := none }

/-- The call `Property(name, type, default_value, min_value, max_value)`. -/
def Property.ranged_with_default (name : String) (type : PropertyType)
    (default_value min_value max_value : Int) : Property :=
  { name := name, type := type, default_value := some (PropertyValue.integer default_value),
    min_value := some min_value, max_value := some max_value,
    value := some (PropertyValue.integer default_value) }

/-- What a tool's callback does when `McpTool::Call` runs it on the scheduler
thread: the new state, the callbacks it passed to `Schedule`, and the text of
its return value or the message of the exception it threw. -/
abbrev ToolCallback := List Property → St → St × List Callback × Except String String

/-- An `McpTool`: the constructor arguments and the `user_only` flag. -/
structure McpTool where
  name : String
  description : String
  properties : List Property
  callback : ToolCallback
  user_only : Bool

/-- What the board, the build configuration and `mcp_server.h` decide. -/
structure McpEnv where
  backlight : Bool
  HAVE_LVGL : Bool
  display_has_theme : Bool
  camera : Bool
  lvgl_display : Bool
  CONFIG_LV_USE_SNAPSHOT : Bool
  assets_partition_valid : Bool
  callback : String → ToolCallback
  to_json : McpTool → String
  has_default_value : Property → Bool
  set_value : Property → PropertyValue → Except String Property

/-- Mirrors `McpServer::AddTool(McpTool* tool)` on the member `tools_`. -/
def McpServer.AddTool (tool : McpTool) (tools_ : List McpTool) : List McpTool :=
  if tools_.any fun t => t.name == tool.name then tools_ else tools_ ++ [tool]

/-- Mirrors `McpServer::AddTool(name, description, properties, callback)`. -/
def McpServer.AddTool_new (name description : String) (properties : List Property)
    (callback : ToolCallback) (tools_ : List McpTool) : List McpTool :=
  McpServer.AddTool
    { name := name, description := description, properties := properties, callback := callback,
      user_only := false }
    tools_

/-- Mirrors `McpServer::AddUserOnlyTool`. -/
def McpServer.AddUserOnlyTool (name description : String) (properties : List Property)
    (callback : ToolCallback) (tools_ : List McpTool) : List McpTool :=
  McpServer.AddTool
    { name := name, description := description, properties := properties, callback := callback,
      user_only := true }
    tools_

/-- Mirrors `McpServer::AddCommonTools`: the list is moved away, the common
tools are added to the empty list, and the moved list is inserted at the end. -/
def McpServer.AddCommonTools (menv : McpEnv) (tools_ : List McpTool) : List McpTool :=
  let original_tools := tools_
  let tools_ : List McpTool := []
  let tools_ :=
    McpServer.AddTool_new "self.get_device_status"
      ("Provides the real-time information of the device, including the current status of the audio speaker, screen, battery, network, etc.\n" ++
        "Use this tool for: \n" ++
        "1. Answering questions about current condition (e.g. what is the current volume of the audio speaker?)\n" ++
        "2. As the first step to control the device (e.g. turn up / down the volume of the audio speaker, etc.)")
      [] (menv.callback "self.get_device_status") tools_
  let tools_ :=
    McpServer.AddTool_new "self.audio_speaker.set_volume"
      "Set the volume of the audio speaker. If the current volume is unknown, you must call `self.get_device_status` tool first and then call this tool."
      [Property.ranged "volume" PropertyType.kPropertyTypeInteger 0 100]
      (menv.callback "self.audio_speaker.set_volume") tools_
  let tools_ :=
    if menv.backlight then
      McpServer.AddTool_new "self.screen.set_brightness" "Set the brightness of the screen."
        [Property.ranged "brightness" PropertyType.kPropertyTypeInteger 0 100]
        (menv.callback "self.screen.set_brightness") tools_
    else tools_
  let tools_ :=
    if menv.HAVE_LVGL && menv.display_has_theme then
      McpServer.AddTool_new "self.screen.set_theme"
        "Set the theme of the screen. The theme can be `light` or `dark`."
        [Property.plain "theme" PropertyType.kPropertyTypeString]
        (menv.callback "self.screen.set_theme") tools_
    else tools_
  let tools_ :=
    if menv.HAVE_LVGL && menv.camera then
      McpServer.AddTool_new "self.camera.take_photo"
        ("Take a photo and explain it. Use this tool after the user asks you to see something.\n" ++
          "Args:\n" ++
          "  `question`: The question that you want to ask about the photo.\n" ++
          "Return:\n" ++
          "  A JSON object that provides the photo information.")
        [Property.plain "question" PropertyType.kPropertyTypeString]
        (menv.callback "self.camera.take_photo") tools_
    else tools_
  tools_ ++ original_tools

/-- Mirrors `McpServer::AddUserOnlyTools`. -/
def McpServer.AddUserOnlyTools (menv : McpEnv) (tools_ : List McpTool) : List McpTool :=
  let tools_ :=
    McpServer.AddUserOnlyTool "self.get_system_info" "Get the system information" []
      (menv.callback "self.get_system_info") tools_
  let tools_ :=
    McpServer.AddUserOnlyTool "self.reboot" "Reboot the system" [] (menv.callback "self.reboot")
      tools_
  let tools_ :=
    McpServer.AddUserOnlyTool "self.upgrade_firmware"
      "Upgrade firmware from a specific URL. This will download and install the firmware, then reboot the device."
      [Property.with_default "url" PropertyType.kPropertyTypeString
        (PropertyValue.string "The URL of the firmware binary file to download and install")]
      (menv.callback "self.upgrade_firmware") tools_
  let tools_ :=
    if menv.HAVE_LVGL && menv.lvgl_display then
      let tools_ :=
        McpServer.AddUserOnlyTool "self.screen.get_info"
          "Information about the screen, including width, height, etc." []
          (menv.callback "self.screen.get_info") tools_
      if menv.CONFIG_LV_USE_SNAPSHOT then
        let tools_ :=
          McpServer.AddUserOnlyTool "self.screen.snapshot"
            "Snapshot the screen and upload it to a specific URL"
            [Property.plain "url" PropertyType.kPropertyTypeString,
              Property.ranged_with_default "quality" PropertyType.kPropertyTypeInteger 80 1 100]
            (menv.callback "self.screen.snapshot") tools_
        McpServer.AddUserOnlyTool "self.screen.preview_image" "Preview an image on the screen"
          [Property.plain "url" PropertyType.kPropertyTypeString]
          (menv.callback "self.screen.preview_image") tools_
      else tools_
    else tools_
  let tools_ :=
    if menv.assets_partition_valid then
      McpServer.AddUserOnlyTool "self.assets.set_download_url"
        "Set the download url for the assets"
        [Property.plain "url" PropertyType.kPropertyTypeString]
        (menv.callback "self.assets.set_download_url") tools_
    else tools_
  let tools_ :=
    McpServer.AddTool_new "self.audio_player.list_tracks"
      "List audio tracks (OGG/Opus) found on the SD card." []
      (menv.callback "self.audio_player.list_tracks") tools_
  let tools_ :=
    McpServer.AddTool_new "self.audio_player.play_track"
      "Play a converted audio track from the SD card."
      [Property.plain "path" PropertyType.kPropertyTypeString]
      (menv.callback "self.audio_player.play_track") tools_
  let tools_ :=
    McpServer.AddTool_new "self.audio_player.stop"
      "Stop the current audio playback and hide the player overlay." []
      (menv.callback "self.audio_player.stop") tools_
  let tools_ :=
    McpServer.AddTool_new "self.sdcard.get_usage"
      "Get SD card capacity and free space information." []
      (menv.callback "self.sdcard.get_usage") tools_
  let tools_ :=
    McpServer.AddTool_new "external.vnexpress.latest"
      "Fetch the latest headlines from VNExpress RSS feed."
      [Property.ranged_with_default "limit" PropertyType.kPropertyTypeInteger 5 1 20]
      (menv.callback "external.vnexpress.latest") tools_
  let tools_ :=
    McpServer.AddTool_new "external.duckduckgo.search"
      "Search DuckDuckGo for the given query and return quick results."
      [Property.plain "query" PropertyType.kPropertyTypeString,
        Property.ranged_with_default "limit" PropertyType.kPropertyTypeInteger 5 1 10]
      (menv.callback "external.duckduckgo.search") tools_
  McpServer.AddTool_new "external.vietcombank.usd_rate"
    "Fetch the latest Vietcombank USD exchange rate (buy/transfer/sell)." []
    (menv.callback "external.vietcombank.usd_rate") tools_

/-- A reply of the server: the arguments of `ReplyResult` or of `ReplyError`. -/
inductive Reply where
  | ReplyResult (id : Int) (result : String)
  | ReplyError (id : Int) (message : String)
  deriving DecidableEq, Repr

/-- The payload `ReplyResult` and `ReplyError` build. -/
def Reply.payload : Reply → String
  | Reply.ReplyResult id result =>
    "\x7b\"jsonrpc\":\"2.0\",\"id\":" ++ (toString id ++ ",\"result\":") ++ result ++ "\x7d"
  | Reply.ReplyError id message =>
    "\x7b\"jsonrpc\":\"2.0\",\"id\":" ++ toString id ++ ",\"error\":\x7b\"message\":\"" ++ message ++
      "\"\x7d\x7d"

/-- The lambda `Application::SendMcpMessage` schedules when it is not called on
the scheduler thread. -/
def SendMcpMessage.task (payload : String) : Callback :=
  Callback.mk fun s =>
    if s.protocol_ then (emit (Effect.protocol_SendMcpMessage payload) s, [])
    else ({ s with crashed := true }, [])

/-- Mirrors `Application::SendMcpMessage`; `on_main_thread` is the outcome of
`xTaskGetCurrentTaskHandle() == main_event_loop_task_handle_`. -/
def SendMcpMessage (on_main_thread : Bool) (payload : String) (a : App) : App :=
  if !a.st.protocol_ then a
  else if on_main_thread then a.onSt (emit (Effect.protocol_SendMcpMessage payload))
  else Schedule (SendMcpMessage.task payload) a

/-- Mirrors `McpServer::ReplyResult` and `McpServer::ReplyError`. -/
def Reply.send (on_main_thread : Bool) (reply : Reply) (a : App) : App :=
  SendMcpMessage on_main_thread reply.payload a

/-- Mirrors `const int max_payload_size = 8000`. -/
def max_payload_size : Nat := 8000

/-- The call `json.back()`, `none` on an empty string. -/
def std_back (s : String) : Option Char := s.data.getLast?

/-- The call `json.pop_back()`. -/
def std_pop_back (s : String) : String := String.mk s.data.dropLast

/-- The `while (it != tools_.end())` of `GetToolsList`, from the iterator
position given by the list: the final `json` and `next_cursor`. -/
def McpServer.GetToolsList.loop (to_json : McpTool → String) (cursor : String)
    (list_user_only_tools : Bool) : List McpTool → Bool → String → String × String
  | [], _, json => (json, "")
  | it :: rest, found_cursor, json =>
    if !found_cursor && it.name != cursor then
      McpServer.GetToolsList.loop to_json cursor list_user_only_tools rest false json
    else if !list_user_only_tools && it.user_only then
      McpServer.GetToolsList.loop to_json cursor list_user_only_tools rest true json
    else
      let tool_json := to_json it ++ ","
      if json.length + tool_json.length + 30 > max_payload_size then (json, it.name)
      else
        McpServer.GetToolsList.loop to_json cursor list_user_only_tools rest true
          (json ++ tool_json)

/-- The reply `GetToolsList` ends with. -/
def McpServer.GetToolsList.reply (to_json : McpTool → String) (tools_ : List McpTool) (id : Int)
    (cursor : String) (list_user_only_tools : Bool) : Reply :=
  let r := McpServer.GetToolsList.loop to_json cursor list_user_only_tools tools_ cursor.isEmpty
    "\x7b\"tools\":["
  let json := r.1
  let next_cursor := r.2
  let json := if std_back json = some ',' then std_pop_back json else json
  if std_back json = some '[' && !tools_.isEmpty then
    Reply.ReplyError id ("Failed to add tool " ++ next_cursor ++ " because of payload size limit")
  else if next_cursor.isEmpty then Reply.ReplyResult id (json ++ "]\x7d")
  else Reply.ReplyResult id (json ++ "],\"nextCursor\":\"" ++ next_cursor ++ "\"\x7d")

/-- Mirrors `McpServer::GetToolsList`. -/
def McpServer.GetToolsList (menv : McpEnv) (on_main_thread : Bool) (tools_ : List McpTool)
    (id : Int) (cursor : String) (list_user_only_tools : Bool) (a : App) : App :=
  (McpServer.GetToolsList.reply menv.to_json tools_ id cursor list_user_only_tools).send
    on_main_thread a

/-- The library predicate `cJSON_IsBool`. -/
def cJSON_IsBool : Option cJSON → Bool
  | some cJSON.True => true
  | some cJSON.False => true
  | _ => false

/-- The member `valueint` of a boolean item as the parser sets it: `1` for
`true` and `0` for `false`. -/
def cJSON_valueint_bool : Option cJSON → Int
  | some cJSON.True => 1
  | _ => 0

/-- The body of `for (auto& argument : arguments)` in `DoToolCall` for one
argument: the argument after `set_value` and the flag `found`, or the message
of the exception `set_value` threw. -/
def McpServer.DoToolCall.read (menv : McpEnv) (tool_arguments : Option cJSON)
    (argument : Property) : Except String (Property × Bool) :=
  if cJSON_IsObject tool_arguments then
    let value := cJSON_GetObjectItem tool_arguments argument.name
    if argument.type = PropertyType.kPropertyTypeBoolean && cJSON_IsBool value then
      (menv.set_value argument (PropertyValue.boolean (cJSON_valueint_bool value == 1))).map
        fun argument => (argument, true)
    else if argument.type = PropertyType.kPropertyTypeInteger && cJSON_IsNumber value then
      (menv.set_value argument (PropertyValue.integer (cJSON_valueint value))).map
        fun argument => (argument, true)
    else if argument.type = PropertyType.kPropertyTypeString && cJSON_IsString value then
      (menv.set_value argument (PropertyValue.string (cJSON_valuestring value))).map
        fun argument => (argument, true)
    else Except.ok (argument, false)
  else Except.ok (argument, false)

/-- The `try` block of `DoToolCall`: the arguments with their values, or the
message of the error reply that ends the call. -/
def McpServer.DoToolCall.bind (menv : McpEnv) (tool_arguments : Option cJSON) :
    List Property → Except String (List Property)
  | [] => Except.ok []
  | argument :: rest =>
    match McpServer.DoToolCall.read menv tool_arguments argument with
    | Except.error what => Except.error what
    | Except.ok (argument, found) =>
      if !menv.has_default_value argument && !found then
        Except.error ("Missing valid argument: " ++ argument.name)
      else
        match McpServer.DoToolCall.bind menv tool_arguments rest with
        | Except.error what => Except.error what
        | Except.ok arguments => Except.ok (argument :: arguments)

/-- The lambda `DoToolCall` schedules: the tool is called and its result, or
the message of its exception, is sent from the scheduler thread. -/
def McpServer.DoToolCall.task (tool : McpTool) (id : Int) (arguments : List Property) : Callback :=
  Callback.mk fun s =>
    let s := emit (Effect.mcp_tool_Call tool.name) s
    let r := tool.callback arguments s
    let reply :=
      match r.2.2 with
      | Except.ok result => Reply.ReplyResult id result
      | Except.error what => Reply.ReplyError id what
    (if !r.1.protocol_ then r.1 else emit (Effect.protocol_SendMcpMessage reply.payload) r.1,
      r.2.1)

/-- Mirrors `McpServer::DoToolCall`. -/
def McpServer.DoToolCall (menv : McpEnv) (on_main_thread : Bool) (tools_ : List McpTool)
    (id : Int) (tool_name : String) (tool_arguments : Option cJSON) (a : App) : App :=
  match tools_.find? fun tool => tool.name == tool_name with
  | none => (Reply.ReplyError id ("Unknown tool: " ++ tool_name)).send on_main_thread a
  | some tool =>
    match McpServer.DoToolCall.bind menv tool_arguments tool.properties with
    | Except.error message => (Reply.ReplyError id message).send on_main_thread a
    | Except.ok arguments => Schedule (McpServer.DoToolCall.task tool id arguments) a

/-! ## Specification-side definitions -/

/-- The wake reasons the loop waits for. -/
inductive MainEvent where
  | error
  | send_audio
  | wake_word
  | vad_change
  | schedule
  | clock_tick
  deriving DecidableEq, Repr

/-- The priority order the specification gives: network error, audio send,
wake word, voice activity, queued callbacks, periodic tick. -/
def priority_order : List MainEvent :=
  [MainEvent.error, MainEvent.send_audio, MainEvent.wake_word, MainEvent.vad_change,
    MainEvent.schedule, MainEvent.clock_tick]

/-- Whether the bit of a wake reason is set. -/
def MainEvent.pending (bits : EventBits) : MainEvent → Bool
  | MainEvent.error => bits.MAIN_EVENT_ERROR
  | MainEvent.send_audio => bits.MAIN_EVENT_SEND_AUDIO
  | MainEvent.wake_word => bits.MAIN_EVENT_WAKE_WORD_DETECTED
  | MainEvent.vad_change => bits.MAIN_EVENT_VAD_CHANGE
  | MainEvent.schedule => bits.MAIN_EVENT_SCHEDULE
  | MainEvent.clock_tick => bits.MAIN_EVENT_CLOCK_TICK

/-- The handler of each wake reason, as the specification describes it. -/
def MainEvent.handler (env : Env) : MainEvent → App → App
  | MainEvent.error => App.onSt fun s =>
      Alert env.ERROR s.last_error_message_ "circle_xmark" env.OGG_EXCLAMATION
        (SetDeviceState env DeviceState.kDeviceStateIdle s)
  | MainEvent.send_audio => App.onSt fun s => MainEventLoop.sendAudio env (env.send_queue s.log) s
  | MainEvent.wake_word => App.onSt (OnWakeWordDetected env)
  | MainEvent.vad_change => App.onSt fun s =>
      if s.device_state_ = DeviceState.kDeviceStateListening then emit Effect.led_OnStateChanged s
      else s
  | MainEvent.schedule => MainEventLoop.drain
  | MainEvent.clock_tick => App.onSt fun s =>
      let s := { s with clock_ticks_ := s.clock_ticks_ + 1 }
      let s := UpdateIdleDisplay s
      let s := emit Effect.display_UpdateStatusBar s
      if s.clock_ticks_ % 60 = 0 then RequestWeatherUpdate env false s else s

/-- Services, in the order of `order`, the reasons whose bit is in `bits`. -/
def service_in_order (env : Env) (bits : EventBits) (order : List MainEvent) (a : App) : App :=
  order.foldl (fun acc e => if e.pending bits && !acc.st.crashed then e.handler env acc else acc) a

/-- First-in-first-out drain as the specification words it: each callback of
the list runs once, in order; what the callbacks schedule is collected, in
order, and not run. -/
def drain_fifo : List Callback → St → St × List Callback
  | [], s => (s, [])
  | t :: ts, s =>
    if s.crashed then (s, [])
    else ((drain_fifo ts (t.run s).1).1, (t.run s).2 ++ (drain_fifo ts (t.run s).1).2)

/-- A callback whose only action is to leave `tag` in the trace. -/
def marker (tag : Nat) : Callback :=
  Callback.mk fun s => (emit (Effect.callback_marker tag) s, [])

/-- A callback that leaves `tag` in the trace and schedules `next`. -/
def marker_then (tag : Nat) (next : Callback) : Callback :=
  Callback.mk fun s => (emit (Effect.callback_marker tag) s, [next])

/-- Whether only the `MAIN_EVENT_SCHEDULE` bit of the six waited for is set. -/
def EventBits.only_schedule (bits : EventBits) : Bool :=
  bits.MAIN_EVENT_SCHEDULE && !bits.MAIN_EVENT_SEND_AUDIO && !bits.MAIN_EVENT_WAKE_WORD_DETECTED &&
    !bits.MAIN_EVENT_VAD_CHANGE && !bits.MAIN_EVENT_ERROR && !bits.MAIN_EVENT_CLOCK_TICK

/-- Whether none of the six bits waited for is set. -/
def EventBits.none_pending (bits : EventBits) : Bool :=
  !bits.MAIN_EVENT_SCHEDULE && !bits.MAIN_EVENT_SEND_AUDIO && !bits.MAIN_EVENT_WAKE_WORD_DETECTED &&
    !bits.MAIN_EVENT_VAD_CHANGE && !bits.MAIN_EVENT_ERROR && !bits.MAIN_EVENT_CLOCK_TICK

/-- Whether an effect is a state-change event. -/
def Effect.isStateChange : Effect → Bool
  | Effect.PostStateChangeEvent _ _ => true
  | _ => false

/-- The weather part of the state. -/
structure WeatherState where
  fetch_in_progress : Bool
  last_request : Int
  last_success : Int
  available : Bool
  info : WeatherInfo
  deriving DecidableEq

/-- Projection of the five weather members. -/
def St.weather (s : St) : WeatherState :=
  { fetch_in_progress := s.weather_fetch_in_progress_
    last_request := s.weather_last_request_
    last_success := s.weather_last_success_
    available := s.weather_available_
    info := s.weather_info_ }

/-- Single flight: a `weather_fetch` task is alive exactly while
`weather_fetch_in_progress_` is set, and then there is one. -/
def single_flight (s : St) : Prop :=
  s.weather_fetch_tasks = if s.weather_fetch_in_progress_ then 1 else 0

/-- Operations that touch the weather refresh. -/
inductive WeatherOp where
  | request (force : Bool)
  | task_finishes
  | set_device_state (state : DeviceState)

/-- Effect of one weather operation on the object. -/
def WeatherOp.apply (env : Env) : WeatherOp → App → App
  | WeatherOp.request force => App.onSt (RequestWeatherUpdate env force)
  | WeatherOp.task_finishes => FetchWeatherTask env
  | WeatherOp.set_device_state state => App.onSt (SetDeviceState env state)

/-- Runs a sequence of weather operations, first to last. -/
def WeatherOp.run (env : Env) (ops : List WeatherOp) (a : App) : App :=
  ops.foldl (fun acc op => op.apply env acc) a

/-- The minimum fields of a weather response: a string `name` and a numeric
`main.temp`. -/
def required_fields_present (root : cJSON) : Bool :=
  cJSON_IsString (cJSON_GetObjectItem (some root) "name") &&
    cJSON_IsNumber (cJSON_GetObjectItem (cJSON_GetObjectItem (some root) "main") "temp")

/-- The state `t` was reached from `s` without touching `device_state_` or
`clock_ticks_` and by appending to the trace only calls that are not
state-change events. -/
def quiet_since (s t : St) : Prop :=
  t.device_state_ = s.device_state_ ∧ t.clock_ticks_ = s.clock_ticks_ ∧
    ∃ rest, t.log = s.log ++ rest ∧ ∀ e ∈ rest, Effect.isStateChange e = false

/-- The `weather` member is a non-empty array whose first item is an object. -/
def weather_entry_present (root : cJSON) : Bool :=
  cJSON_IsArray (cJSON_GetObjectItem (some root) "weather") &&
    cJSON_GetArraySize (cJSON_GetObjectItem (some root) "weather") != 0 &&
    cJSON_IsObject (cJSON_GetArrayItem (cJSON_GetObjectItem (some root) "weather") 0)

/-- The calls `Alert` makes, in order. -/
def alert_trace (status message emotion sound : String) : List Effect :=
  [Effect.display_SetStatus status, Effect.display_SetEmotion emotion,
    Effect.display_SetChatMessage "system" message] ++
    (if sound.isEmpty then [] else [Effect.audio_PlaySound sound])

/-- The calls of one failed round of the version check that is followed by a
retry: the check, the alert announcing `delay` seconds, and `delay` waits of
one second. -/
def failed_round_trace (env : Env) (url : String) (delay : Nat) : List Effect :=
  [Effect.display_SetStatus env.CHECKING_NEW_VERSION, Effect.ota_CheckVersion] ++
    alert_trace env.ERROR (env.snprintf_CHECK_NEW_VERSION_FAILED delay url) "cloud_slash"
      env.OGG_EXCLAMATION ++
    List.replicate delay (Effect.vTaskDelay 1000)

/-- The calls of `rounds` failed rounds in a row, the first announcing `delay`
seconds and each next one twice the delay before it. -/
def backoff_trace (env : Env) (url : String) : Nat → Nat → List Effect
  | 0, _ => []
  | rounds + 1, delay => failed_round_trace env url delay ++ backoff_trace env url rounds (delay * 2)

/-- The `retry_count` and `retry_delay` of the next iteration, when there is one. -/
def LoopStep.next : LoopStep → Option (Nat × Nat)
  | LoopStep.returned _ => none
  | LoopStep.again retry_count retry_delay _ => some (retry_count, retry_delay)

/-- The object an iteration leaves. -/
def LoopStep.app : LoopStep → App
  | LoopStep.returned a => a
  | LoopStep.again _ _ a => a

/-- Calls that report a wake word: a played sound, a forwarded packet, the
wake-word message. -/
def Effect.isWakeReport : Effect → Bool
  | Effect.audio_PlaySound _ => true
  | Effect.audio_PopWakeWordPacket _ => true
  | Effect.protocol_SendAudio _ => true
  | Effect.protocol_SendWakeWordDetected _ => true
  | _ => false

/-- The calls of the loop that forwards the wake-word packets. -/
def forwarded_packets : List AudioStreamPacket → List Effect
  | [] => []
  | p :: ps => Effect.audio_PopWakeWordPacket p :: Effect.protocol_SendAudio p :: forwarded_packets ps

/-- The session members that `SetDeviceState` does not write: `t` has the
`aborted_`, `listening_mode_`, `aec_mode_` and `protocol_` of `s`. -/
def same_session (s t : St) : Prop :=
  t.aborted_ = s.aborted_ ∧ t.listening_mode_ = s.listening_mode_ ∧
    t.aec_mode_ = s.aec_mode_ ∧ t.protocol_ = s.protocol_

/-- Whether only the `MAIN_EVENT_ERROR` bit of the six waited for is set. -/
def EventBits.only_error (bits : EventBits) : Bool :=
  bits.MAIN_EVENT_ERROR && !bits.MAIN_EVENT_SCHEDULE && !bits.MAIN_EVENT_SEND_AUDIO &&
    !bits.MAIN_EVENT_WAKE_WORD_DETECTED && !bits.MAIN_EVENT_VAD_CHANGE && !bits.MAIN_EVENT_CLOCK_TICK

/-- The part of `OnWakeWordDetected` that runs in `Idle` once the audio channel
is open: from `GetLastWakeWord()` to the end of the branch, with `mode` the
listening mode chosen from `aec_mode_`. -/
def OnWakeWordDetected.listen (env : Env) (mode : ListeningMode) (s : St) : St :=
  let wake_word := env.GetLastWakeWord s.log
  let s := emit Effect.audio_GetLastWakeWord s
  if env.CONFIG_SEND_WAKE_WORD_DATA then
    let s := OnWakeWordDetected.sendPackets (env.wake_word_packets s.log) s
    let s := emit (Effect.protocol_SendWakeWordDetected wake_word) s
    SetListeningMode env mode s
  else
    let s := SetListeningMode env mode s
    if s.crashed then s else emit (Effect.audio_PlaySound env.OGG_POPUP) s

/-! ## Sample data for the concrete checks -/

/-- An object assembled from its three parts. -/
def sample_app (s : St) (tasks : List Callback) (bits : EventBits) : App :=
  { st := s, main_tasks_ := tasks, event_group_ := bits }

/-- A snapshot with every field zero or empty. -/
def sample_info : WeatherInfo :=
  { city := "", temperature_c := ⟨0⟩, feels_like_c := ⟨0⟩, humidity := 0, wind_speed := ⟨0⟩,
    wind_deg := 0, pressure := 0, temp_min_c := ⟨0⟩, temp_max_c := ⟨0⟩, sunrise := 0, sunset := 0,
    description := "", icon := "", fetched_at := 0, uvi := ⟨0⟩ }

/-- An environment in which the steady clock reads `now`, task creation
gives `created`, the HTTP exchange gives `response` parsed as `root`. -/
def sample_env (now : Int) (created : Bool) (response : HttpResponse) (root : Option cJSON) : Env :=
  { STANDBY := "STANDBY", CONNECTING := "CONNECTING", LISTENING := "LISTENING",
    SPEAKING := "SPEAKING", ERROR := "ERROR", OGG_EXCLAMATION := "exclamation.ogg",
    OGG_POPUP := "popup.ogg", CONFIG_SEND_WAKE_WORD_DATA := false,
    WeatherInfo_default := sample_info,
    static_cast_float := fun d => ⟨d.bits⟩,
    steady_clock_now := fun _ => now, system_clock_now := fun _ => now,
    xTaskCreate_pdPASS := fun _ => created,
    IsAudioProcessorRunning := fun _ => false, IsAfeWakeWord := fun _ => false,
    IsAudioChannelOpened := fun _ => false, OpenAudioChannel := fun _ => true,
    SendAudio := fun _ _ => true, send_queue := fun _ => [], wake_word_packets := fun _ => [],
    GetLastWakeWord := fun _ => "", http := fun _ => response, cJSON_Parse := fun _ => root,
    CHECKING_NEW_VERSION := "CHECKING_NEW_VERSION", ACTIVATION := "ACTIVATION",
    OTA_UPGRADE := "OTA_UPGRADE", UPGRADING := "UPGRADING", NEW_VERSION := "NEW_VERSION ",
    UPGRADE_FAILED := "UPGRADE_FAILED", OGG_UPGRADE := "upgrade.ogg",
    OGG_ACTIVATION := "activation.ogg", OGG_VIBRATION := "vibration.ogg",
    OGG_DIGIT := fun d => String.mk [Char.ofNat (48 + d), '.', 'o', 'g', 'g'],
    CONFIG_RECEIVE_CUSTOM_MESSAGE := false,
    snprintf_CHECK_NEW_VERSION_FAILED := fun delay url =>
      String.mk (Nat.toDigits 10 delay) ++ " " ++ url,
    cJSON_PrintUnformatted := fun _ => "",
    forced_idle := fun _ => false, CheckVersion := fun _ => false,
    GetCheckVersionUrl := fun _ => "ota", HasNewVersion := fun _ => false,
    HasActivationCode := fun _ => false, HasActivationChallenge := fun _ => false,
    GetActivationCode := fun _ => "", GetActivationMessage := fun _ => "",
    GetFirmwareUrl := fun _ => "fw", GetFirmwareVersion := fun _ => "2.0",
    Activate := fun _ => esp_err_t.ESP_OK, StartUpgradeFromUrl := fun _ _ => false }

/-- A state in `state` with an empty trace and the given weather members. -/
def sample_st (state : DeviceState) (w : WeatherState) : St :=
  { device_state_ := state, listening_mode_ := ListeningMode.kListeningModeAutoStop,
    aec_mode_ := AecMode.kAecOff, aborted_ := false, clock_ticks_ := 7, protocol_ := true,
    last_error_message_ := "", weather_fetch_in_progress_ := w.fetch_in_progress,
    weather_last_request_ := w.last_request, weather_last_success_ := w.last_success,
    weather_available_ := w.available, weather_info_ := w.info,
    weather_fetch_tasks := if w.fetch_in_progress then 1 else 0, log := [], crashed := false }

/-- No bit set. -/
def no_bits : EventBits :=
  { MAIN_EVENT_SCHEDULE := false, MAIN_EVENT_SEND_AUDIO := false,
    MAIN_EVENT_WAKE_WORD_DETECTED := false, MAIN_EVENT_VAD_CHANGE := false,
    MAIN_EVENT_ERROR := false, MAIN_EVENT_CHECK_NEW_VERSION_DONE := false,
    MAIN_EVENT_CLOCK_TICK := false }

/-- A failed HTTP exchange. -/
def no_response : HttpResponse := { open_ok := false, status_code := 0, body := "" }

/-- Weather members after a success at tick `t` requested at tick `r`. -/
def fetched_at (r t : Int) : WeatherState :=
  { fetch_in_progress := false, last_request := r, last_success := t, available := true,
    info := sample_info }

/-- A response with HTTP status 200. -/
def ok_response : HttpResponse := { open_ok := true, status_code := 200, body := "weather document" }

/-- A complete weather document: name, main.temp and one weather entry. -/
def sample_root : cJSON :=
  cJSON.Object
    [("name", cJSON.String "Hanoi"),
      ("main", cJSON.Object [("temp", cJSON.Number ⟨25⟩ 25)]),
      ("weather", cJSON.Array
        [cJSON.Object [("description", cJSON.String "clear sky"), ("icon", cJSON.String "01d")]])]

/-- A weather document whose temperature is a string. -/
def sample_root_no_temp : cJSON :=
  cJSON.Object
    [("name", cJSON.String "Hanoi"),
      ("main", cJSON.Object [("temp", cJSON.String "25")]),
      ("weather", cJSON.Array
        [cJSON.Object [("description", cJSON.String "clear sky"), ("icon", cJSON.String "01d")]])]

/-- An older snapshot, to tell a replaced snapshot from a kept one. -/
def old_info : WeatherInfo :=
  { sample_info with city := "Hue", humidity := 80, description := "Rain", uvi := ⟨7⟩ }

/-- A weather document with `name` and `main.temp` and nothing else. -/
def sample_root_no_weather : cJSON :=
  cJSON.Object
    [("name", cJSON.String "Hanoi"),
      ("main", cJSON.Object [("temp", cJSON.Number ⟨25⟩ 25)])]

/-- The sample environment with the audio channel refusing to open. -/
def env_open_fails : Env :=
  { sample_env 0 true no_response none with OpenAudioChannel := fun _ => false }

/-- The sample environment with wake-word forwarding compiled in and two
encoded packets waiting. -/
def env_forwarding : Env :=
  { sample_env 0 true no_response none with
    CONFIG_SEND_WAKE_WORD_DATA := true
    wake_word_packets := fun _ => [⟨1⟩, ⟨2⟩]
    GetLastWakeWord := fun _ => "hi" }

/-- The message `{"type":"tts","state":"unknown_value"}`. -/
def msg_tts_unknown : cJSON :=
  cJSON.Object [("type", cJSON.String "tts"), ("state", cJSON.String "unknown_value")]

/-- The message `{"type":"tts","state":"stop"}`. -/
def msg_tts_stop : cJSON :=
  cJSON.Object [("type", cJSON.String "tts"), ("state", cJSON.String "stop")]

/-- The message `{"type":"tts","state":"start"}`. -/
def msg_tts_start : cJSON :=
  cJSON.Object [("type", cJSON.String "tts"), ("state", cJSON.String "start")]

/-- The message `{"type":"tts"}`, without a `state` member. -/
def msg_tts_no_state : cJSON :=
  cJSON.Object [("type", cJSON.String "tts")]

/-- The message `{"text":"hello"}`, without a `type` member. -/
def msg_no_type : cJSON :=
  cJSON.Object [("text", cJSON.String "hello")]

/-- The message `{"type":7}`, whose `type` is a number. -/
def msg_type_number : cJSON :=
  cJSON.Object [("type", cJSON.Number ⟨7⟩ 7)]

/-! ## Specification-side definitions: state entry, wind direction -/

/-- The effects the specification calls generic: the state-change event, the
LED notification and, for a target other than `Idle`, hiding the idle card. -/
def generic_effects (previous_state state : DeviceState) : List Effect :=
  [Effect.PostStateChangeEvent previous_state state, Effect.led_OnStateChanged] ++
    (if state ≠ DeviceState.kDeviceStateIdle then [Effect.display_HideIdleCard] else [])

/-- The target states that have no `case` label of their own or shared in the
`switch` of `SetDeviceState`. -/
def states_without_entry_effects : List DeviceState :=
  [DeviceState.kDeviceStateStarting, DeviceState.kDeviceStateWifiConfiguring,
    DeviceState.kDeviceStateUpgrading, DeviceState.kDeviceStateActivating,
    DeviceState.kDeviceStateAudioTesting, DeviceState.kDeviceStateFatalError]

/-- Whether a call goes to the display text, to the audio service or to task
creation: what a state-specific entry effect is made of. -/
def Effect.isEntryEffect : Effect → Bool
  | Effect.display_SetStatus _ => true
  | Effect.display_SetEmotion _ => true
  | Effect.display_SetChatMessage _ _ => true
  | Effect.audio_EnableVoiceProcessing _ => true
  | Effect.audio_EnableWakeWordDetection _ => true
  | Effect.audio_ResetDecoder => true
  | Effect.xTaskCreate _ => true
  | _ => false

/-- Distance on the compass circle between two bearings in degrees. -/
def compass_distance (a b : Int) : Int := min ((a - b) % 360) ((b - a) % 360)

/-- Name of the compass sector whose centre is `45 * k` degrees. -/
def compass_sector : Nat → String
  | 0 => "N"
  | 1 => "NE"
  | 2 => "E"
  | 3 => "SE"
  | 4 => "S"
  | 5 => "SW"
  | 6 => "W"
  | 7 => "NW"
  | _ => ""

/-! ## Specification-side definitions: what runs on the transport's thread -/

/-- Whether a call goes to the display, the LED, the audio service or the
state-change observers: the subsystems the scheduler thread owns. -/
def Effect.onSharedSubsystem : Effect → Bool
  | Effect.PostStateChangeEvent _ _ => true
  | Effect.led_OnStateChanged => true
  | Effect.display_SetStatus _ => true
  | Effect.display_SetEmotion _ => true
  | Effect.display_SetChatMessage _ _ => true
  | Effect.display_HideIdleCard => true
  | Effect.display_ShowIdleCard _ => true
  | Effect.display_UpdateStatusBar => true
  | Effect.audio_EnableVoiceProcessing _ => true
  | Effect.audio_EnableWakeWordDetection _ => true
  | Effect.audio_IsAudioProcessorRunning => true
  | Effect.audio_IsAfeWakeWord => true
  | Effect.audio_ResetDecoder => true
  | Effect.audio_PlaySound _ => true
  | Effect.audio_EncodeWakeWord => true
  | Effect.audio_GetLastWakeWord => true
  | Effect.audio_PopPacketFromSendQueue _ => true
  | Effect.audio_PopWakeWordPacket _ => true
  | Effect.audio_Stop => true
  | Effect.audio_Start => true
  | Effect.audio_EnableAudioTesting _ => true
  | Effect.audio_PushPacketToDecodeQueue _ => true
  | _ => false

/-- A reaction that leaves the shared subsystems to the scheduler thread: the
same for every object it is called on, it may make calls that are not to a
shared subsystem, end the process, store an error message and raise the error
flag, and pass callbacks to `Schedule`; it neither reads nor writes
`device_state_`. -/
def deferred_to_scheduler (f : App → App) : Prop :=
  ∃ (direct : List Effect) (crash : Bool) (message : Option String) (raise_error : Bool)
    (callbacks : List Callback),
    (∀ e ∈ direct, Effect.onSharedSubsystem e = false) ∧
    ∀ a, f a =
      { st :=
          { a.st with
            log := a.st.log ++ direct
            crashed := a.st.crashed || crash
            last_error_message_ := message.getD a.st.last_error_message_ }
        main_tasks_ := a.main_tasks_ ++ callbacks
        event_group_ :=
          { a.event_group_ with
            MAIN_EVENT_SCHEDULE := a.event_group_.MAIN_EVENT_SCHEDULE || !callbacks.isEmpty
            MAIN_EVENT_ERROR := a.event_group_.MAIN_EVENT_ERROR || raise_error } }

/-- What a callback of the transport does on the transport's thread when it
leaves the shared subsystems alone. -/
inductive Reaction where
  | nothing
  | schedule (callback : Callback)
  | crash
  | call (e : Effect)

/-- The reaction applied to the object. -/
def Reaction.apply : Reaction → App → App
  | Reaction.nothing, a => a
  | Reaction.schedule callback, a => Schedule callback a
  | Reaction.crash, a => a.onSt fun s => { s with crashed := true }
  | Reaction.call e, a => a.onSt (emit e)

/-- Whether the reaction makes no call to a shared subsystem. -/
def Reaction.safe : Reaction → Bool
  | Reaction.call e => !Effect.onSharedSubsystem e
  | _ => true

/-- The `type` string of a message, when it has one. -/
def message_type (root : cJSON) : Option String :=
  cJSON_valuestring_ptr (cJSON_GetObjectItem (some root) "type")

/-- The message `{"type":"alert","status":"S","message":"M","emotion":"E"}`. -/
def msg_alert : cJSON :=
  cJSON.Object
    [("type", cJSON.String "alert"), ("status", cJSON.String "S"),
      ("message", cJSON.String "M"), ("emotion", cJSON.String "E")]

/-- The message `{"type":"stt","text":"hello"}`. -/
def msg_stt : cJSON :=
  cJSON.Object [("type", cJSON.String "stt"), ("text", cJSON.String "hello")]

/-! ## Specification-side definitions: waiting between version checks -/

/-- The state in which `ota.CheckVersion()` has just been called: `Activating`
entered, the checking status shown, the call made. -/
def CheckNewVersion.checked (env : Env) (s : St) : St :=
  emit Effect.ota_CheckVersion
    (emit (Effect.display_SetStatus env.CHECKING_NEW_VERSION)
      (SetDeviceState env DeviceState.kDeviceStateActivating s))

/-- The answer of `ota.CheckVersion()` in the iteration entered in `s`. -/
def CheckNewVersion.check_ok (env : Env) (s : St) : Bool :=
  env.CheckVersion
    (emit (Effect.display_SetStatus env.CHECKING_NEW_VERSION)
      (SetDeviceState env DeviceState.kDeviceStateActivating s)).log

/-- The state after the alert that announces a retry in `retry_delay` seconds. -/
def CheckNewVersion.alerted (env : Env) (retry_delay : Nat) (s : St) : St :=
  Alert env.ERROR
    (env.snprintf_CHECK_NEW_VERSION_FAILED retry_delay
      (env.GetCheckVersionUrl (CheckNewVersion.checked env s).log))
    "cloud_slash" env.OGG_EXCLAMATION (CheckNewVersion.checked env s)

/-- The state after `k` delays of one second in a row. -/
def one_second_waits (env : Env) : Nat → St → St
  | 0, s => s
  | k + 1, s => one_second_waits env k (vTaskDelay env 1000 s)

/-- Whether a call is a delay of one second. -/
def Effect.isOneSecondWait : Effect → Bool
  | Effect.vTaskDelay ms => ms == 1000
  | _ => false

/-- The seconds waited so far: the one-second delays in the trace. -/
def seconds_waited (s : St) : Nat :=
  s.log.countP Effect.isOneSecondWait

/-- The state `t` was reached from `s` by calls none of which is a delay of one
second. -/
def same_wait (s t : St) : Prop :=
  seconds_waited t = seconds_waited s

/-- The sample environment in which another thread forces `Idle` during the
third second of waiting. -/
def env_idle_at_third_second : Env :=
  { sample_env 0 true no_response none with
    forced_idle := fun l => l.countP Effect.isOneSecondWait == 3 }

/-! ## Specification-side definitions: how an iteration of the version check ends -/

/-- The outcome of the upgrade attempt of an iteration whose check succeeded:
the flag `UpgradeFirmware` returned, `false` when no new version is offered,
and the state after it. -/
def CheckNewVersion.upgraded (env : Env) (s : St) : Bool × St :=
  if env.HasNewVersion (CheckNewVersion.checked env s).log then
    UpgradeFirmware env "" (CheckNewVersion.checked env s)
  else (false, CheckNewVersion.checked env s)

/-- The state after `ota.MarkCurrentVersionValid()`. -/
def CheckNewVersion.marked (env : Env) (s : St) : St :=
  emit Effect.ota_MarkCurrentVersionValid (CheckNewVersion.upgraded env s).2

/-- Whether the server reports an activation code or an activation challenge. -/
def CheckNewVersion.activation_pending (env : Env) (s : St) : Bool :=
  env.HasActivationCode (CheckNewVersion.marked env s).log ||
    env.HasActivationChallenge (CheckNewVersion.marked env s).log

/-- The state in which the activation polls start: the activation status is
shown and, when there is a code, it has been announced. -/
def CheckNewVersion.announced (env : Env) (s : St) : St :=
  let s := emit (Effect.display_SetStatus env.ACTIVATION) (CheckNewVersion.marked env s)
  if env.HasActivationCode s.log then
    ShowActivationCode env (env.GetActivationCode s.log) (env.GetActivationMessage s.log) s
  else s

/-- The trace of `t` continues the trace of `s`. -/
def trace_grows (s t : St) : Prop :=
  ∃ rest, t.log = s.log ++ rest

/-- The sample environment with every check succeeding, no new version, and an
activation code reported each time. -/
def env_activation_code : Env :=
  { sample_env 0 true no_response none with
    CheckVersion := fun _ => true
    HasActivationCode := fun _ => true
    GetActivationCode := fun _ => "12" }

/-! ## Specification-side definitions: the tool list and its pages -/

/-- Whether a tool is listed: every tool when user tools are asked for, the
tools that are not user-only otherwise. -/
def eligible (list_user_only_tools : Bool) (t : McpTool) : Bool :=
  list_user_only_tools || !t.user_only

/-- The tool's JSON fits in one page: it can be placed in an empty page. -/
def fits_in_page (to_json : McpTool → String) (t : McpTool) : Prop :=
  10 + ((to_json t).length + 1) + 30 ≤ max_payload_size

/-- The tools from the cursor onward: all of them for the empty cursor, those
from the first tool of that name otherwise. -/
def from_cursor (cursor : String) (tools : List McpTool) : List McpTool :=
  if cursor.isEmpty then tools else tools.dropWhile fun t => t.name != cursor

/-- The page that starts at the head of the list when the text so far has
`len` characters: the tools placed in it, and the rest of the list from the
first listed tool that did not fit. -/
def split_page (to_json : McpTool → String) (list_user_only_tools : Bool) :
    Nat → List McpTool → List McpTool × List McpTool
  | _, [] => ([], [])
  | len, t :: rest =>
    if !eligible list_user_only_tools t then split_page to_json list_user_only_tools len rest
    else if len + ((to_json t).length + 1) + 30 > max_payload_size then ([], t :: rest)
    else
      ((t :: (split_page to_json list_user_only_tools (len + ((to_json t).length + 1)) rest).1),
        (split_page to_json list_user_only_tools (len + ((to_json t).length + 1)) rest).2)

/-- The JSON of the tools, each followed by a comma. -/
def tools_joined (to_json : McpTool → String) : List McpTool → String
  | [] => ""
  | t :: rest => to_json t ++ "," ++ tools_joined to_json rest

/-- The texts separated by commas. -/
def comma_separated : List String → String
  | [] => ""
  | [x] => x
  | x :: y :: rest => x ++ "," ++ comma_separated (y :: rest)

/-- The name of the first tool of the list, empty for the empty list. -/
def next_cursor_of : List McpTool → String
  | [] => ""
  | t :: _ => t.name

/-- The result text of a page: the tools array and, for a non-empty cursor,
the `nextCursor` member. -/
def tools_result (to_json : McpTool → String) (page : List McpTool) (next_cursor : String) : String :=
  "\x7b\"tools\":[" ++ comma_separated (page.map to_json) ++
    (if next_cursor.isEmpty then "]\x7d" else "],\"nextCursor\":\"" ++ next_cursor ++ "\"\x7d")

/-- A client that lists the tools: it starts with the given cursor and calls
again with the `nextCursor` of each result until a reply has none; `none` when
`fuel` calls were not enough. -/
def tools_list_client (to_json : McpTool → String) (tools_ : List McpTool) (id : Int)
    (list_user_only_tools : Bool) : Nat → String → Option (List Reply)
  | 0, _ => none
  | fuel + 1, cursor =>
    match McpServer.GetToolsList.reply to_json tools_ id cursor list_user_only_tools with
    | Reply.ReplyError id message => some [Reply.ReplyError id message]
    | Reply.ReplyResult id result =>
      let next_cursor :=
        (McpServer.GetToolsList.loop to_json cursor list_user_only_tools tools_ cursor.isEmpty
          "\x7b\"tools\":[").2
      if next_cursor.isEmpty then some [Reply.ReplyResult id result]
      else
        (tools_list_client to_json tools_ id list_user_only_tools fuel next_cursor).map
          fun replies => Reply.ReplyResult id result :: replies

/-- The value `DoToolCall` reads for a property: the member of that name when
the arguments are an object and the member has the property's type. -/
def argument_value (tool_arguments : Option cJSON) (p : Property) : Option PropertyValue :=
  match p.type, cJSON_GetObjectItem tool_arguments p.name with
  | PropertyType.kPropertyTypeBoolean, some cJSON.True => some (PropertyValue.boolean true)
  | PropertyType.kPropertyTypeBoolean, some cJSON.False => some (PropertyValue.boolean false)
  | PropertyType.kPropertyTypeInteger, some (cJSON.Number _ i) => some (PropertyValue.integer i)
  | PropertyType.kPropertyTypeString, some (cJSON.String s) => some (PropertyValue.string s)
  | _, _ => none

/-- A property is satisfied by the arguments: the value given for it is
accepted by `set_value`, or none is given and the property has a default. -/
def argument_ok (menv : McpEnv) (tool_arguments : Option cJSON) (p : Property) : Bool :=
  match argument_value tool_arguments p with
  | some v =>
    match menv.set_value p v with
    | Except.ok _ => true
    | Except.error _ => false
  | none => menv.has_default_value p

/-- What the claim asks of a property: one without a default is given a value
that `set_value` accepts. -/
def required_argument_ok (menv : McpEnv) (tool_arguments : Option cJSON) (p : Property) : Bool :=
  menv.has_default_value p ||
    match argument_value tool_arguments p with
    | some v =>
      match menv.set_value p v with
      | Except.ok _ => true
      | Except.error _ => false
    | none => false

/-! ## Sample data for the tool server -/

/-- A serialisation with the name and the description of the tool. -/
def sample_to_json (t : McpTool) : String :=
  "\x7b\"name\":\"" ++ t.name ++ "\",\"description\":\"" ++ t.description ++ "\"\x7d"

/-- A callback that returns `true` and does nothing else. -/
def sample_callback : ToolCallback :=
  fun _ s => (s, [], Except.ok "true")

/-- The range check of an integer property: the message of the exception for
a value outside the bounds. -/
def sample_set_value (p : Property) (v : PropertyValue) : Except String Property :=
  match v, p.min_value, p.max_value with
  | PropertyValue.integer i, some lo, some hi =>
    if i < lo then Except.error ("Value is below minimum allowed: " ++ toString lo)
    else if i > hi then Except.error ("Value exceeds maximum allowed: " ++ toString hi)
    else Except.ok { p with value := some v }
  | _, _, _ => Except.ok { p with value := some v }

/-- A board with a backlight and an LVGL display, without camera. -/
def sample_menv : McpEnv :=
  { backlight := true, HAVE_LVGL := true, display_has_theme := true, camera := false,
    lvgl_display := true, CONFIG_LV_USE_SNAPSHOT := false, assets_partition_valid := true,
    callback := fun _ => sample_callback, to_json := sample_to_json,
    has_default_value := fun p => p.default_value.isSome, set_value := sample_set_value }

/-- A tool without properties. -/
def sample_tool (name description : String) (user_only : Bool) : McpTool :=
  { name := name, description := description, properties := [], callback := sample_callback,
    user_only := user_only }

/-- A tool whose JSON has 7959 characters: it fills a page to the last character. -/
def tool_fills_page : McpTool :=
  sample_tool "a" (String.mk (List.replicate 7930 'x')) false

/-- A tool with a name of 29 characters. -/
def tool_long_name : McpTool :=
  sample_tool "self.audio_speaker.set_volume" "Set the volume of the audio speaker." false

/-- A tool registered under the empty name. -/
def tool_without_name : McpTool :=
  sample_tool "" "A tool registered under the empty name." false

/-- A user-only tool. -/
def tool_for_user : McpTool :=
  sample_tool "self.reboot" "Reboot the system" true

/-- A tool a board registers under the name of a common tool. -/
def tool_of_board : McpTool :=
  sample_tool "self.get_device_status" "Status of the board." false

/-- The tool `external.vnexpress.latest` as `AddUserOnlyTools` registers it. -/
def tool_latest_news : McpTool :=
  { name := "external.vnexpress.latest"
    description := "Fetch the latest headlines from VNExpress RSS feed."
    properties := [Property.ranged_with_default "limit" PropertyType.kPropertyTypeInteger 5 1 20]
    callback := sample_callback
    user_only := false }

/-- The arguments object with `limit` set to 500. -/
def arguments_limit_500 : cJSON :=
  cJSON.Object [("limit", cJSON.Number ⟨500⟩ 500)]

/-- The arguments object with `limit` set to 3. -/
def arguments_limit_3 : cJSON :=
  cJSON.Object [("limit", cJSON.Number ⟨3⟩ 3)]

/-! ## Lemmas -/

theorem quiet_since_refl (s : St) : quiet_since s s :=
  ⟨rfl, rfl, [], by simp, by simp⟩

theorem quiet_since_emit {s t : St} (e : Effect) (he : Effect.isStateChange e = false)
    (h : quiet_since s t) : quiet_since s (emit e t) := by
  obtain ⟨h1, h2, rest, h3, h4⟩ := h
  refine ⟨h1, h2, rest ++ [e], ?_, ?_⟩
  · simp [emit, h3]
  · intro x hx
    rcases List.mem_append.mp hx with hx | hx
    · exact h4 x hx
    · simp at hx; subst hx; exact he

theorem quiet_since_crash {s t : St} (h : quiet_since s t) :
    quiet_since s { t with crashed := true } := h

theorem quiet_since_RequestWeatherUpdate {s t : St} (env : Env) (force : Bool)
    (h : quiet_since s t) : quiet_since s (RequestWeatherUpdate env force t) := by
  unfold RequestWeatherUpdate
  simp only []
  split_ifs
  · exact h
  · exact h
  · exact h
  · exact quiet_since_emit (t := { t with weather_fetch_in_progress_ := true, weather_last_request_ := env.steady_clock_now t.log }) _ rfl h
  · exact quiet_since_emit (t := { t with weather_fetch_in_progress_ := true, weather_last_request_ := env.steady_clock_now t.log }) _ rfl h

theorem quiet_since_UpdateIdleDisplay {s t : St} (h : quiet_since s t) :
    quiet_since s (UpdateIdleDisplay t) := by
  unfold UpdateIdleDisplay
  split_ifs <;> exact quiet_since_emit _ rfl h

theorem SetDeviceState_quiet_tail (env : Env) (B : DeviceState) (s : St)
    (hne : ¬ s.device_state_ = B) :
    quiet_since
      (emit (Effect.PostStateChangeEvent s.device_state_ B)
        { s with clock_ticks_ := 0, device_state_ := B })
      (SetDeviceState env B s) := by
  unfold SetDeviceState
  rw [if_neg hne]
  cases B <;>
    simp only [ne_eq, reduceCtorEq, not_false_eq_true, not_true_eq_false, if_true, if_false] <;>
    (try split_ifs) <;>
    repeat (first
      | with_reducible exact quiet_since_refl _
      | ((with_reducible apply quiet_since_emit); (exact rfl))
      | with_reducible apply quiet_since_RequestWeatherUpdate
      | with_reducible apply quiet_since_UpdateIdleDisplay
      | with_reducible apply quiet_since_crash)

theorem foldl_Schedule (fs : List Callback) (a : App) :
    fs.foldl (fun acc f => Schedule f acc) a =
      { st := a.st
        main_tasks_ := a.main_tasks_ ++ fs
        event_group_ :=
          if fs.isEmpty then a.event_group_
          else { a.event_group_ with MAIN_EVENT_SCHEDULE := true } } := by
  induction fs generalizing a with
  | nil => simp
  | cons f fs ih =>
    rw [List.foldl_cons, ih]
    cases fs <;> simp [Schedule]

theorem Callback.invoke_eq (cb : Callback) (a : App) :
    cb.invoke a =
      { st := (cb.run a.st).1
        main_tasks_ := a.main_tasks_ ++ (cb.run a.st).2
        event_group_ :=
          if (cb.run a.st).2.isEmpty then a.event_group_
          else { a.event_group_ with MAIN_EVENT_SCHEDULE := true } } := by
  unfold Callback.invoke
  rw [foldl_Schedule]

theorem runTasks_crashed (ts : List Callback) (a : App) (h : a.st.crashed = true) :
    MainEventLoop.runTasks ts a = a := by
  induction ts with
  | nil => rfl
  | cons t ts ih => simp [MainEventLoop.runTasks, h, ih]

theorem drain_fifo_crashed (ts : List Callback) (s : St) (h : s.crashed = true) :
    drain_fifo ts s = (s, []) := by
  cases ts <;> simp [drain_fifo, h]

theorem runTasks_eq (ts : List Callback) (a : App) :
    MainEventLoop.runTasks ts a =
      { st := (drain_fifo ts a.st).1
        main_tasks_ := a.main_tasks_ ++ (drain_fifo ts a.st).2
        event_group_ :=
          if (drain_fifo ts a.st).2.isEmpty then a.event_group_
          else { a.event_group_ with MAIN_EVENT_SCHEDULE := true } } := by
  induction ts generalizing a with
  | nil => simp [MainEventLoop.runTasks, drain_fifo]
  | cons t ts ih =>
    by_cases hc : a.st.crashed = true
    · rw [runTasks_crashed _ _ hc, drain_fifo_crashed _ _ hc]
      simp
    · rw [MainEventLoop.runTasks, if_neg hc, ih, Callback.invoke_eq]
      simp only [drain_fifo, if_neg hc]
      cases h1 : (t.run a.st).2 <;> cases h2 : (drain_fifo ts (t.run a.st).1).2 <;>
        simp [h1, h2]

theorem drain_eq (a : App) :
    MainEventLoop.drain a =
      { st := (drain_fifo a.main_tasks_ a.st).1
        main_tasks_ := (drain_fifo a.main_tasks_ a.st).2
        event_group_ :=
          if (drain_fifo a.main_tasks_ a.st).2.isEmpty then a.event_group_
          else { a.event_group_ with MAIN_EVENT_SCHEDULE := true } } := by
  unfold MainEventLoop.drain
  rw [runTasks_eq]
  simp

theorem pass_only_schedule (env : Env) (a : App)
    (hbits : a.event_group_.only_schedule = true) (hc : a.st.crashed = false) :
    MainEventLoop_pass env a =
      { st := (drain_fifo a.main_tasks_ a.st).1
        main_tasks_ := (drain_fifo a.main_tasks_ a.st).2
        event_group_ :=
          if (drain_fifo a.main_tasks_ a.st).2.isEmpty then a.event_group_.clearOnExit
          else { a.event_group_.clearOnExit with MAIN_EVENT_SCHEDULE := true } } := by
  simp only [EventBits.only_schedule, Bool.and_eq_true, Bool.not_eq_true'] at hbits
  obtain ⟨⟨⟨⟨⟨h1, h2⟩, h3⟩, h4⟩, h5⟩, h6⟩ := hbits
  unfold MainEventLoop_pass
  simp [h1, h2, h3, h4, h5, h6, hc, drain_eq]

theorem pass_none_pending (env : Env) (a : App)
    (hbits : a.event_group_.none_pending = true) :
    MainEventLoop_pass env a = { a with event_group_ := a.event_group_.clearOnExit } := by
  simp only [EventBits.none_pending, Bool.and_eq_true, Bool.not_eq_true'] at hbits
  obtain ⟨⟨⟨⟨⟨h1, h2⟩, h3⟩, h4⟩, h5⟩, h6⟩ := hbits
  unfold MainEventLoop_pass
  simp [h1, h2, h3, h4, h5, h6]

theorem pass_crashed (env : Env) (a : App) (hc : a.st.crashed = true) :
    (MainEventLoop_pass env a).st = a.st := by
  unfold MainEventLoop_pass
  simp [hc]

theorem RequestWeatherUpdate_crashed (env : Env) (force : Bool) (s : St) :
    (RequestWeatherUpdate env force s).crashed = s.crashed := by
  unfold RequestWeatherUpdate
  simp only []
  split_ifs <;> rfl

theorem UpdateIdleDisplay_crashed (s : St) : (UpdateIdleDisplay s).crashed = s.crashed := by
  unfold UpdateIdleDisplay
  split_ifs <;> rfl

theorem Alert_crashed (status message emotion sound : String) (s : St) :
    (Alert status message emotion sound s).crashed = s.crashed := by
  unfold Alert
  simp only []
  split_ifs <;> rfl

theorem SetDeviceState_Idle_crashed (env : Env) (s : St) :
    (SetDeviceState env DeviceState.kDeviceStateIdle s).crashed = s.crashed := by
  unfold SetDeviceState
  by_cases h : s.device_state_ = DeviceState.kDeviceStateIdle
  · rw [if_pos h]
  · rw [if_neg h]
    simp only [ne_eq, not_true_eq_false, if_false, UpdateIdleDisplay_crashed,
      RequestWeatherUpdate_crashed]
    rfl

theorem RequestWeatherUpdate_keeps_single_flight (env : Env) (force : Bool) (s : St)
    (h : single_flight s) : single_flight (RequestWeatherUpdate env force s) := by
  unfold single_flight at h ⊢
  unfold RequestWeatherUpdate
  simp only []
  split_ifs at h ⊢ <;> simp_all [emit]

theorem UpdateIdleDisplay_single_flight (s : St) (h : single_flight s) :
    single_flight (UpdateIdleDisplay s) := by
  unfold single_flight at h ⊢
  unfold UpdateIdleDisplay
  split_ifs at h ⊢ <;> simp_all [emit]

theorem emit_single_flight (e : Effect) (s : St) (h : single_flight s) :
    single_flight (emit e s) := h

theorem crash_single_flight (s : St) (h : single_flight s) :
    single_flight { s with crashed := true } := h

theorem SetDeviceState_single_flight (env : Env) (state : DeviceState) (s : St)
    (h : single_flight s) : single_flight (SetDeviceState env state s) := by
  have h0 : single_flight { s with clock_ticks_ := 0, device_state_ := state } := h
  unfold SetDeviceState
  by_cases hs : s.device_state_ = state
  · rw [if_pos hs]
    exact h
  · rw [if_neg hs]
    cases state <;>
      simp only [ne_eq, reduceCtorEq, not_false_eq_true, not_true_eq_false, if_true, if_false] <;>
      (try split_ifs) <;>
      repeat (first
        | with_reducible exact h0
        | with_reducible apply emit_single_flight
        | with_reducible apply RequestWeatherUpdate_keeps_single_flight
        | with_reducible apply UpdateIdleDisplay_single_flight
        | with_reducible apply crash_single_flight)

theorem FetchWeatherTask_single_flight (env : Env) (a : App) (h : single_flight a.st) :
    single_flight (FetchWeatherTask env a).st := by
  unfold single_flight at h ⊢
  unfold FetchWeatherTask
  simp only []
  split_ifs at h ⊢ <;> simp_all [Schedule]

theorem WeatherOp_run_single_flight (env : Env) (ops : List WeatherOp) (a : App)
    (h : single_flight a.st) : single_flight (WeatherOp.run env ops a).st := by
  unfold WeatherOp.run
  induction ops generalizing a with
  | nil => exact h
  | cons op ops ih =>
    rw [List.foldl_cons]
    apply ih
    cases op with
    | request force => exact RequestWeatherUpdate_keeps_single_flight env force a.st h
    | task_finishes => exact FetchWeatherTask_single_flight env a h
    | set_device_state state => exact SetDeviceState_single_flight env state a.st h


theorem parse_success_required (env : Env) (now : Int) (root : cJSON) (info : WeatherInfo)
    (h : (FetchWeatherData.parse env now root info).1 = true) :
    required_fields_present root = true := by
  unfold FetchWeatherData.parse at h
  unfold required_fields_present
  by_cases h1 : cJSON_IsString (cJSON_GetObjectItem (some root) "name") = true
  · by_cases h2 : cJSON_IsObject (cJSON_GetObjectItem (some root) "main") = true
    · by_cases h3 : cJSON_IsNumber
          (cJSON_GetObjectItem (cJSON_GetObjectItem (some root) "main") "temp") = true
      · simp [h1, h3]
      · simp [h1, h2, h3] at h
    · simp [h1, h2] at h
  · simp [h1] at h

theorem parse_failure_info (env : Env) (now : Int) (root : cJSON) (info : WeatherInfo)
    (h : (FetchWeatherData.parse env now root info).1 = false) :
    (FetchWeatherData.parse env now root info).2 = info := by
  unfold FetchWeatherData.parse at h ⊢
  simp only [] at h ⊢
  split at h
  · rw [if_pos (by assumption)]
  · rw [if_neg (by assumption)]
    split at h
    · rw [if_pos (by assumption)]
    · rw [if_neg (by assumption)]
      split at h
      · rw [if_pos (by assumption)]
      · rw [if_neg (by assumption)]
        split at h
        · rw [if_pos (by assumption)]
        · rw [if_neg (by assumption)]
          split at h
          · rw [if_pos (by assumption)]
          · exact absurd h (by simp)

/-! ## Device state machine: claims C1 and C2 -/

/-- C1. Calling `SetDeviceState(S)` while the device already is in state `S`
returns the object unchanged: same device state, same `clock_ticks_`, and
nothing is added to the trace, so no state-change event, LED, display,
audio-service, protocol or weather-request call is made. -/
theorem SetDeviceState_same_state_noop (env : Env) (S : DeviceState) (s : St)
    (h : s.device_state_ = S) : SetDeviceState env S s = s := by
  unfold SetDeviceState
  rw [if_pos h]

/-- C1, concrete check: in `Idle` with seven ticks counted, `SetDeviceState(Idle)`
changes nothing. -/
theorem SetDeviceState_same_state_noop_witness :
    (sample_st DeviceState.kDeviceStateIdle (fetched_at 0 0)).device_state_
        = DeviceState.kDeviceStateIdle ∧
      SetDeviceState (sample_env 0 true no_response none) DeviceState.kDeviceStateIdle
        (sample_st DeviceState.kDeviceStateIdle (fetched_at 0 0))
        = sample_st DeviceState.kDeviceStateIdle (fetched_at 0 0) :=
  ⟨rfl, SetDeviceState_same_state_noop _ _ _ rfl⟩

/-- C2. From state `A`, `SetDeviceState(B)` with `B ≠ A` leaves `clock_ticks_`
at `0` and the device in `B`; the trace grows by the state-change event
`(A, B)` first, and none of the calls after it is a state-change event: exactly
one event is posted, before every state-entry side effect. -/
theorem SetDeviceState_posts_one_event_first (env : Env) (A B : DeviceState) (s : St)
    (hA : s.device_state_ = A) (hAB : A ≠ B) :
    (SetDeviceState env B s).clock_ticks_ = 0 ∧
      (SetDeviceState env B s).device_state_ = B ∧
      ∃ rest, (SetDeviceState env B s).log = s.log ++ Effect.PostStateChangeEvent A B :: rest ∧
        ∀ e ∈ rest, Effect.isStateChange e = false := by
  subst hA
  obtain ⟨h1, h2, rest, h3, h4⟩ := SetDeviceState_quiet_tail env B s hAB
  exact ⟨h2, h1, rest, by simpa [emit] using h3, h4⟩

/-- C2, concrete check: `Idle` to `Connecting` with seven ticks counted. -/
theorem SetDeviceState_posts_one_event_first_witness :
    (SetDeviceState (sample_env 0 true no_response none) DeviceState.kDeviceStateConnecting
        (sample_st DeviceState.kDeviceStateIdle (fetched_at 0 0))).clock_ticks_ = 0 ∧
      (SetDeviceState (sample_env 0 true no_response none) DeviceState.kDeviceStateConnecting
        (sample_st DeviceState.kDeviceStateIdle (fetched_at 0 0))).device_state_
          = DeviceState.kDeviceStateConnecting ∧
      ∃ rest,
        (SetDeviceState (sample_env 0 true no_response none) DeviceState.kDeviceStateConnecting
          (sample_st DeviceState.kDeviceStateIdle (fetched_at 0 0))).log
          = (sample_st DeviceState.kDeviceStateIdle (fetched_at 0 0)).log ++
              Effect.PostStateChangeEvent DeviceState.kDeviceStateIdle
                DeviceState.kDeviceStateConnecting :: rest ∧
        ∀ e ∈ rest, Effect.isStateChange e = false :=
  SetDeviceState_posts_one_event_first (sample_env 0 true no_response none)
    DeviceState.kDeviceStateIdle DeviceState.kDeviceStateConnecting
    (sample_st DeviceState.kDeviceStateIdle (fetched_at 0 0)) rfl (by decide)

/-! ## Scheduler: claims C3 and C4 -/

/-- C3. One pass of `MainEventLoop` services the wake reasons whose bit was set
in the order network error, audio send, wake word, voice activity, queued
callbacks, clock tick.  In particular, from an object with an empty queue and
no pending bit, after the network-error callback and `Schedule(t1)`,
`Schedule(t2)`, `Schedule(t3)` (the error raised before or after the three),
the pass runs `SetDeviceState(Idle)` and the error `Alert` first, and then
`t1`, `t2`, `t3` in that order on the state the error handler left. -/
theorem MainEventLoop_priority_order (env : Env) (a : App) (message : String)
    (t1 t2 t3 : Callback) :
    MainEventLoop_pass env a
        = service_in_order env a.event_group_ priority_order
            { a with event_group_ := a.event_group_.clearOnExit } ∧
    (a.main_tasks_ = [] → a.event_group_.none_pending = true → a.st.crashed = false →
      (MainEventLoop_pass env
          (Schedule t3 (Schedule t2 (Schedule t1 (OnNetworkError message a))))).st
        = (drain_fifo [t1, t2, t3]
            (Alert env.ERROR message "circle_xmark" env.OGG_EXCLAMATION
              (SetDeviceState env DeviceState.kDeviceStateIdle
                { a.st with last_error_message_ := message }))).1 ∧
      (MainEventLoop_pass env
          (OnNetworkError message (Schedule t3 (Schedule t2 (Schedule t1 a))))).st
        = (drain_fifo [t1, t2, t3]
            (Alert env.ERROR message "circle_xmark" env.OGG_EXCLAMATION
              (SetDeviceState env DeviceState.kDeviceStateIdle
                { a.st with last_error_message_ := message }))).1) := by
  refine ⟨rfl, ?_⟩
  intro hq hbits hc
  simp only [EventBits.none_pending, Bool.and_eq_true, Bool.not_eq_true'] at hbits
  obtain ⟨⟨⟨⟨⟨h1, h2⟩, h3⟩, h4⟩, h5⟩, h6⟩ := hbits
  constructor
  · unfold MainEventLoop_pass
    simp [Schedule, OnNetworkError, App.onSt, h2, h3, h4, h6, hc, drain_eq, hq,
      Alert_crashed, SetDeviceState_Idle_crashed]
  · unfold MainEventLoop_pass
    simp [Schedule, OnNetworkError, App.onSt, h2, h3, h4, h6, hc, drain_eq, hq,
      Alert_crashed, SetDeviceState_Idle_crashed]

/-- C3, concrete check: in `Connecting`, a network error "net down" and three
callbacks tagged 1, 2, 3; the trace of the pass shows the transition to `Idle`,
the alert, then the tags in order. -/
theorem MainEventLoop_priority_order_witness :
    (MainEventLoop_pass (sample_env (seconds 100) true no_response none)
        (Schedule (marker 3) (Schedule (marker 2) (Schedule (marker 1)
          (OnNetworkError "net down"
            (sample_app (sample_st DeviceState.kDeviceStateConnecting
              (fetched_at (seconds 1) (seconds 2))) [] no_bits)))))).st.log
      = [Effect.PostStateChangeEvent DeviceState.kDeviceStateConnecting
            DeviceState.kDeviceStateIdle,
          Effect.led_OnStateChanged,
          Effect.display_SetStatus "STANDBY",
          Effect.display_SetEmotion "neutral",
          Effect.audio_EnableVoiceProcessing false,
          Effect.audio_EnableWakeWordDetection true,
          Effect.display_ShowIdleCard (some sample_info),
          Effect.display_SetStatus "ERROR",
          Effect.display_SetEmotion "circle_xmark",
          Effect.display_SetChatMessage "system" "net down",
          Effect.audio_PlaySound "exclamation.ogg",
          Effect.callback_marker 1,
          Effect.callback_marker 2,
          Effect.callback_marker 3] := by
  rw [((MainEventLoop_priority_order (sample_env (seconds 100) true no_response none)
    (sample_app (sample_st DeviceState.kDeviceStateConnecting
      (fetched_at (seconds 1) (seconds 2))) [] no_bits)
    "net down" (marker 1) (marker 2) (marker 3)).2 rfl rfl rfl).1]
  decide

/-- C4. The `MAIN_EVENT_SCHEDULE` block runs exactly the callbacks that were
queued when it started, once each and in order; every callback handed to
`Schedule` by one of them is not run but is in `main_tasks_` when the block
ends, with the schedule bit pending.  When `MAIN_EVENT_SCHEDULE` is the only
pending bit, the pass is that drain, and the next pass runs exactly the
deferred callbacks.  The drain is a total function: it ends whenever each
callback returns. -/
theorem Schedule_during_drain_deferred (env : Env) (a : App) :
    ((MainEventLoop.drain a).st = (drain_fifo a.main_tasks_ a.st).1 ∧
      (MainEventLoop.drain a).main_tasks_ = (drain_fifo a.main_tasks_ a.st).2 ∧
      ((drain_fifo a.main_tasks_ a.st).2 ≠ [] →
        (MainEventLoop.drain a).event_group_.MAIN_EVENT_SCHEDULE = true)) ∧
    (a.event_group_.only_schedule = true → a.st.crashed = false →
      (MainEventLoop_pass env a).st = (drain_fifo a.main_tasks_ a.st).1 ∧
      (MainEventLoop_pass env a).main_tasks_ = (drain_fifo a.main_tasks_ a.st).2 ∧
      (MainEventLoop_pass env a).event_group_.MAIN_EVENT_SCHEDULE
        = !(drain_fifo a.main_tasks_ a.st).2.isEmpty ∧
      (MainEventLoop env 2 a).st
        = (drain_fifo (drain_fifo a.main_tasks_ a.st).2 (drain_fifo a.main_tasks_ a.st).1).1) := by
  refine ⟨⟨?_, ?_, ?_⟩, ?_⟩
  · rw [drain_eq]
  · rw [drain_eq]
  · intro h
    rw [drain_eq]
    cases hq : (drain_fifo a.main_tasks_ a.st).2 with
    | nil => exact absurd hq h
    | cons f fs => simp
  · intro hbits hc
    have hp := pass_only_schedule env a hbits hc
    refine ⟨by rw [hp], by rw [hp], ?_, ?_⟩
    · rw [hp]
      cases hq : (drain_fifo a.main_tasks_ a.st).2 <;> simp [EventBits.clearOnExit]
    · show (MainEventLoop_pass env (MainEventLoop_pass env a)).st = _
      rw [hp]
      cases hq : (drain_fifo a.main_tasks_ a.st).2 with
      | nil =>
        rw [pass_none_pending]
        · simp [drain_fifo]
        · simp [EventBits.none_pending, EventBits.clearOnExit]
      | cons f fs =>
        by_cases hc2 : (drain_fifo a.main_tasks_ a.st).1.crashed = true
        · rw [pass_crashed _ _ hc2, drain_fifo_crashed _ _ hc2]
        · rw [pass_only_schedule]
          · simp [EventBits.only_schedule, EventBits.clearOnExit]
          · simpa using hc2

/-- C4, concrete check: the queue holds one callback tagged 1 that schedules
itself twice over (tag 1 again, then a last one tagged 1).  Each pass leaves
one more tag in the trace: one after the first pass, with one callback queued
and the schedule bit pending, two after the second, three after the third. -/
theorem Schedule_during_drain_deferred_witness :
    (MainEventLoop_pass (sample_env 0 true no_response none)
        (sample_app (sample_st DeviceState.kDeviceStateIdle (fetched_at 0 0))
          [marker_then 1 (marker_then 1 (marker 1))]
          { no_bits with MAIN_EVENT_SCHEDULE := true })).st.log
      = [Effect.callback_marker 1] ∧
    (MainEventLoop_pass (sample_env 0 true no_response none)
        (sample_app (sample_st DeviceState.kDeviceStateIdle (fetched_at 0 0))
          [marker_then 1 (marker_then 1 (marker 1))]
          { no_bits with MAIN_EVENT_SCHEDULE := true })).main_tasks_.length = 1 ∧
    (MainEventLoop_pass (sample_env 0 true no_response none)
        (sample_app (sample_st DeviceState.kDeviceStateIdle (fetched_at 0 0))
          [marker_then 1 (marker_then 1 (marker 1))]
          { no_bits with MAIN_EVENT_SCHEDULE := true })).event_group_.MAIN_EVENT_SCHEDULE
      = true ∧
    (MainEventLoop (sample_env 0 true no_response none) 2
        (sample_app (sample_st DeviceState.kDeviceStateIdle (fetched_at 0 0))
          [marker_then 1 (marker_then 1 (marker 1))]
          { no_bits with MAIN_EVENT_SCHEDULE := true })).st.log
      = [Effect.callback_marker 1, Effect.callback_marker 1] ∧
    (MainEventLoop (sample_env 0 true no_response none) 3
        (sample_app (sample_st DeviceState.kDeviceStateIdle (fetched_at 0 0))
          [marker_then 1 (marker_then 1 (marker 1))]
          { no_bits with MAIN_EVENT_SCHEDULE := true })).st.log
      = [Effect.callback_marker 1, Effect.callback_marker 1, Effect.callback_marker 1] := by
  have h := (Schedule_during_drain_deferred (sample_env 0 true no_response none)
    (sample_app (sample_st DeviceState.kDeviceStateIdle (fetched_at 0 0))
      [marker_then 1 (marker_then 1 (marker 1))]
      { no_bits with MAIN_EVENT_SCHEDULE := true })).2 rfl rfl
  refine ⟨?_, ?_, ?_, ?_, ?_⟩
  · rw [h.1]; decide
  · rw [h.2.1]; decide
  · rw [h.2.2.1]; decide
  · rw [h.2.2.2]; decide
  · decide

/-! ## Weather refresh: claims C5 to C10 -/

/-- C5. With a snapshot available and the last success recorded at `T`
(`T` is not the `time_point{}` that stands for "never"), a non-forced
`RequestWeatherUpdate` made less than 30 minutes after `T` returns the object
unchanged: no `xTaskCreate` call, and `weather_fetch_in_progress_` and
`weather_last_request_` keep their values. -/
theorem RequestWeatherUpdate_within_success_ttl (env : Env) (s : St) (T : Int)
    (havail : s.weather_available_ = true) (hT : s.weather_last_success_ = T) (hT0 : T ≠ 0)
    (hnow : env.steady_clock_now s.log - T < minutes 30) :
    RequestWeatherUpdate env false s = s := by
  subst hT
  unfold RequestWeatherUpdate
  simp only []
  split_ifs with h1 h2 h3 h4
  · rfl
  · rfl
  · rfl
  · exact absurd (by simp [havail, hT0, kWeatherSuccessTtl, hnow]) h3
  · exact absurd (by simp [havail, hT0, kWeatherSuccessTtl, hnow]) h3

/-- C5, concrete check: success at second 2 (requested at second 1), request at
second 2 plus 29 minutes, task creation available. -/
theorem RequestWeatherUpdate_within_success_ttl_witness :
    (seconds 2 + minutes 29) - seconds 2 < minutes 30 ∧
    RequestWeatherUpdate (sample_env (seconds 2 + minutes 29) true no_response none) false
        (sample_st DeviceState.kDeviceStateIdle (fetched_at (seconds 1) (seconds 2)))
      = sample_st DeviceState.kDeviceStateIdle (fetched_at (seconds 1) (seconds 2)) :=
  ⟨by decide,
    RequestWeatherUpdate_within_success_ttl
      (sample_env (seconds 2 + minutes 29) true no_response none)
      (sample_st DeviceState.kDeviceStateIdle (fetched_at (seconds 1) (seconds 2)))
      (seconds 2) rfl rfl (by decide) (by decide)⟩

/-- C6 as stated fails: success at second 2 (requested at second 1), no fetch in
progress, non-forced request at second 2 plus 31 minutes, and `xTaskCreate`
does not return `pdPASS`.  The call is made, but afterwards
`weather_fetch_in_progress_` is `false` and no fetch task exists. -/
theorem RequestWeatherUpdate_after_ttl_task_not_created :
    (RequestWeatherUpdate (sample_env (seconds 2 + minutes 31) false no_response none) false
        (sample_st DeviceState.kDeviceStateIdle
          (fetched_at (seconds 1) (seconds 2)))).weather_fetch_in_progress_ = false ∧
    (RequestWeatherUpdate (sample_env (seconds 2 + minutes 31) false no_response none) false
        (sample_st DeviceState.kDeviceStateIdle
          (fetched_at (seconds 1) (seconds 2)))).weather_fetch_tasks = 0 ∧
    (RequestWeatherUpdate (sample_env (seconds 2 + minutes 31) false no_response none) false
        (sample_st DeviceState.kDeviceStateIdle
          (fetched_at (seconds 1) (seconds 2)))).log = [Effect.xTaskCreate "weather_fetch"] := by
  decide

/-- C6, amended. With no fetch in progress, the last success at `T` and no
request attempt after `T`, a non-forced `RequestWeatherUpdate` at `T` plus 31
minutes records the request time and calls `xTaskCreate` for the fetch task
once; `weather_fetch_in_progress_` is `true` afterwards exactly when the task
was created (`pdPASS`), and then one more fetch task exists. -/
theorem RequestWeatherUpdate_after_success_ttl (env : Env) (s : St) (T : Int)
    (hprog : s.weather_fetch_in_progress_ = false) (hT : s.weather_last_success_ = T)
    (hreq : s.weather_last_request_ ≤ T)
    (hnow : env.steady_clock_now s.log = T + minutes 31) :
    (RequestWeatherUpdate env false s).log = s.log ++ [Effect.xTaskCreate "weather_fetch"] ∧
    (RequestWeatherUpdate env false s).weather_last_request_ = T + minutes 31 ∧
    (RequestWeatherUpdate env false s).weather_fetch_in_progress_ = env.xTaskCreate_pdPASS s.log ∧
    (RequestWeatherUpdate env false s).weather_fetch_tasks
      = s.weather_fetch_tasks + (if env.xTaskCreate_pdPASS s.log then 1 else 0) := by
  subst hT
  have e1 : ¬ (env.steady_clock_now s.log - s.weather_last_request_ < kWeatherRetryInterval) := by
    rw [hnow]; unfold kWeatherRetryInterval minutes; omega
  have e2 : ¬ (env.steady_clock_now s.log - s.weather_last_success_ < kWeatherSuccessTtl) := by
    rw [hnow]; unfold kWeatherSuccessTtl minutes; omega
  unfold RequestWeatherUpdate
  simp only [hprog, e1, e2]
  cases hcr : env.xTaskCreate_pdPASS s.log <;> simp [emit, hnow]

/-- C6 amended, concrete check: success at second 2, request at second 2 plus
31 minutes, task creation succeeds; the flag is set. -/
theorem RequestWeatherUpdate_after_success_ttl_witness :
    (RequestWeatherUpdate (sample_env (seconds 2 + minutes 31) true no_response none) false
        (sample_st DeviceState.kDeviceStateIdle
          (fetched_at (seconds 1) (seconds 2)))).weather_fetch_in_progress_ = true ∧
    (RequestWeatherUpdate (sample_env (seconds 2 + minutes 31) true no_response none) false
        (sample_st DeviceState.kDeviceStateIdle
          (fetched_at (seconds 1) (seconds 2)))).weather_last_request_
      = seconds 2 + minutes 31 :=
  ⟨(RequestWeatherUpdate_after_success_ttl
      (sample_env (seconds 2 + minutes 31) true no_response none)
      (sample_st DeviceState.kDeviceStateIdle (fetched_at (seconds 1) (seconds 2)))
      (seconds 2) rfl rfl (by decide) rfl).2.2.1,
    (RequestWeatherUpdate_after_success_ttl
      (sample_env (seconds 2 + minutes 31) true no_response none)
      (sample_st DeviceState.kDeviceStateIdle (fetched_at (seconds 1) (seconds 2)))
      (seconds 2) rfl rfl (by decide) rfl).2.1⟩

/-- C7. While `weather_fetch_in_progress_` is set, `RequestWeatherUpdate(force)`
returns the object unchanged for either value of `force`: no task is created
and the five weather members keep their values.  Consequently the single-flight
property (one live fetch task while the flag is set, none otherwise) is kept by
every sequence of requests, task completions and state changes, and at most one
fetch task is alive. -/
theorem RequestWeatherUpdate_single_flight_guard (env : Env) (force : Bool) (s : St)
    (ops : List WeatherOp) (a : App) :
    (s.weather_fetch_in_progress_ = true → RequestWeatherUpdate env force s = s) ∧
    (single_flight a.st →
      single_flight (WeatherOp.run env ops a).st ∧
      (WeatherOp.run env ops a).st.weather_fetch_tasks ≤ 1) := by
  constructor
  · intro h
    unfold RequestWeatherUpdate
    simp [h]
  · intro h
    have hr := WeatherOp_run_single_flight env ops a h
    refine ⟨hr, ?_⟩
    unfold single_flight at hr
    rw [hr]
    split_ifs <;> decide

/-- C7, concrete check: with a fetch in progress a forced request changes
nothing, and after two forced requests, a non-forced one, the completion of the
task and another forced request, one fetch task is alive. -/
theorem RequestWeatherUpdate_single_flight_guard_witness :
    RequestWeatherUpdate (sample_env (seconds 9) true no_response none) true
        (sample_st DeviceState.kDeviceStateIdle
          { fetched_at (seconds 1) 0 with fetch_in_progress := true, available := false })
      = sample_st DeviceState.kDeviceStateIdle
          { fetched_at (seconds 1) 0 with fetch_in_progress := true, available := false } ∧
    (WeatherOp.run (sample_env (seconds 9) true no_response none)
        [WeatherOp.request true, WeatherOp.request true, WeatherOp.request false,
          WeatherOp.task_finishes, WeatherOp.request true]
        (sample_app (sample_st DeviceState.kDeviceStateIdle (fetched_at 0 0)) []
          no_bits)).st.weather_fetch_tasks ≤ 1 :=
  ⟨(RequestWeatherUpdate_single_flight_guard (sample_env (seconds 9) true no_response none) true
      (sample_st DeviceState.kDeviceStateIdle
        { fetched_at (seconds 1) 0 with fetch_in_progress := true, available := false })
      [] (sample_app (sample_st DeviceState.kDeviceStateIdle (fetched_at 0 0)) [] no_bits)).1 rfl,
    ((RequestWeatherUpdate_single_flight_guard (sample_env (seconds 9) true no_response none) true
      (sample_st DeviceState.kDeviceStateIdle (fetched_at 0 0))
      [WeatherOp.request true, WeatherOp.request true, WeatherOp.request false,
        WeatherOp.task_finishes, WeatherOp.request true]
      (sample_app (sample_st DeviceState.kDeviceStateIdle (fetched_at 0 0)) [] no_bits)).2
        rfl).2⟩

/-- C8 as stated fails in its second half: last request at second 1, no fetch
in progress, a forced request at second 61, and `xTaskCreate` does not return
`pdPASS`.  Afterwards `weather_fetch_in_progress_` is `false` and no fetch task
exists: no fetch was started. -/
theorem RequestWeatherUpdate_forced_task_not_created :
    (RequestWeatherUpdate (sample_env (seconds 61) false no_response none) true
        (sample_st DeviceState.kDeviceStateIdle
          { fetched_at (seconds 1) 0 with available := false })).weather_fetch_in_progress_
      = false ∧
    (RequestWeatherUpdate (sample_env (seconds 61) false no_response none) true
        (sample_st DeviceState.kDeviceStateIdle
          { fetched_at (seconds 1) 0 with available := false })).weather_fetch_tasks = 0 := by
  decide

/-- C8, amended. Less than 5 minutes after the last request attempt (whatever
its outcome), a non-forced `RequestWeatherUpdate` returns the object unchanged.
A forced request under the same conditions, with no fetch in progress, records
the request time and calls `xTaskCreate` for the fetch task once;
`weather_fetch_in_progress_` is `true` afterwards exactly when the task was
created (`pdPASS`), and then one more fetch task exists. -/
theorem RequestWeatherUpdate_retry_interval (env : Env) (s : St)
    (hR0 : s.weather_last_request_ ≠ 0)
    (hnow : env.steady_clock_now s.log - s.weather_last_request_ < minutes 5) :
    RequestWeatherUpdate env false s = s ∧
    (s.weather_fetch_in_progress_ = false →
      (RequestWeatherUpdate env true s).log = s.log ++ [Effect.xTaskCreate "weather_fetch"] ∧
      (RequestWeatherUpdate env true s).weather_last_request_ = env.steady_clock_now s.log ∧
      (RequestWeatherUpdate env true s).weather_fetch_in_progress_
        = env.xTaskCreate_pdPASS s.log ∧
      (RequestWeatherUpdate env true s).weather_fetch_tasks
        = s.weather_fetch_tasks + (if env.xTaskCreate_pdPASS s.log then 1 else 0)) := by
  constructor
  · unfold RequestWeatherUpdate
    simp [hR0, hnow, kWeatherRetryInterval]
  · intro hprog
    unfold RequestWeatherUpdate
    simp only [hprog]
    cases hcr : env.xTaskCreate_pdPASS s.log <;> simp [emit]

/-- C8 amended, concrete check: last request (a failed one) at second 1, now
second 61, task creation succeeds. -/
theorem RequestWeatherUpdate_retry_interval_witness :
    RequestWeatherUpdate (sample_env (seconds 61) true no_response none) false
        (sample_st DeviceState.kDeviceStateIdle
          { fetched_at (seconds 1) 0 with available := false })
      = sample_st DeviceState.kDeviceStateIdle
          { fetched_at (seconds 1) 0 with available := false } ∧
    (RequestWeatherUpdate (sample_env (seconds 61) true no_response none) true
        (sample_st DeviceState.kDeviceStateIdle
          { fetched_at (seconds 1) 0 with available := false })).weather_fetch_in_progress_
      = true :=
  ⟨(RequestWeatherUpdate_retry_interval (sample_env (seconds 61) true no_response none)
      (sample_st DeviceState.kDeviceStateIdle
        { fetched_at (seconds 1) 0 with available := false }) (by decide) (by decide)).1,
    ((RequestWeatherUpdate_retry_interval (sample_env (seconds 61) true no_response none)
      (sample_st DeviceState.kDeviceStateIdle
        { fetched_at (seconds 1) 0 with available := false }) (by decide) (by decide)).2
          rfl).2.2.1⟩

/-- C9. After `FetchWeatherTask` the flag `weather_fetch_in_progress_` is
`false`.  When the fetch failed, `weather_info_`, `weather_available_` and
`weather_last_success_` are what they were.  When it succeeded, `weather_info_`
is the record `FetchWeatherData` produced from a default-constructed
`WeatherInfo` (so nothing of the old snapshot is in it) and
`weather_available_` is `true`. -/
theorem FetchWeatherTask_all_or_nothing (env : Env) (a : App) :
    (FetchWeatherTask env a).st.weather_fetch_in_progress_ = false ∧
    ((FetchWeatherData env a.st.log env.WeatherInfo_default).success = false →
      (FetchWeatherTask env a).st.weather_info_ = a.st.weather_info_ ∧
      (FetchWeatherTask env a).st.weather_available_ = a.st.weather_available_ ∧
      (FetchWeatherTask env a).st.weather_last_success_ = a.st.weather_last_success_) ∧
    ((FetchWeatherData env a.st.log env.WeatherInfo_default).success = true →
      (FetchWeatherTask env a).st.weather_info_
        = (FetchWeatherData env a.st.log env.WeatherInfo_default).info ∧
      (FetchWeatherTask env a).st.weather_available_ = true) := by
  unfold FetchWeatherTask
  cases h : (FetchWeatherData env a.st.log env.WeatherInfo_default).success <;>
    simp [h, Schedule]

/-- C9, concrete check: the old snapshot is for "Hue"; a failed exchange keeps
it, a complete response replaces every field of it. -/
theorem FetchWeatherTask_all_or_nothing_witness :
    (FetchWeatherTask (sample_env (seconds 9) true no_response none)
        (sample_app (sample_st DeviceState.kDeviceStateIdle
          { fetched_at (seconds 1) (seconds 2) with fetch_in_progress := true, info := old_info })
          [] no_bits)).st.weather_info_ = old_info ∧
    (FetchWeatherTask (sample_env (seconds 9) true ok_response (some sample_root))
        (sample_app (sample_st DeviceState.kDeviceStateIdle
          { fetched_at (seconds 1) (seconds 2) with fetch_in_progress := true, info := old_info })
          [] no_bits)).st.weather_info_
      = { city := "Hanoi", temperature_c := ⟨25⟩, feels_like_c := ⟨25⟩, humidity := 0,
          wind_speed := ⟨0⟩, wind_deg := -1, pressure := 0, temp_min_c := ⟨25⟩,
          temp_max_c := ⟨25⟩, sunrise := 0, sunset := 0, description := "Clear Sky",
          icon := "01d", fetched_at := seconds 9, uvi := ⟨0⟩ } := by
  constructor
  · exact ((FetchWeatherTask_all_or_nothing (sample_env (seconds 9) true no_response none)
      (sample_app (sample_st DeviceState.kDeviceStateIdle
        { fetched_at (seconds 1) (seconds 2) with fetch_in_progress := true, info := old_info })
        [] no_bits)).2.1 (by decide)).1
  · rw [((FetchWeatherTask_all_or_nothing
      (sample_env (seconds 9) true ok_response (some sample_root))
      (sample_app (sample_st DeviceState.kDeviceStateIdle
        { fetched_at (seconds 1) (seconds 2) with fetch_in_progress := true, info := old_info })
        [] no_bits)).2.2 (by decide)).1]
    decide

/-- C10. The parser of `FetchWeatherData` succeeds only on a document with a
string `name` and a numeric `main.temp`; on a document lacking either it
returns `false` with the output record as it was passed in.  A successful
`FetchWeatherData` is a successful parse of such a document, and a failed
`FetchWeatherData` (no connection, status other than 200, no JSON, missing
fields) leaves the output record unwritten. -/
theorem FetchWeatherData_requires_name_and_temp (env : Env) (log : List Effect)
    (info : WeatherInfo) :
    (∀ now root,
      ((FetchWeatherData.parse env now root info).1 = true → required_fields_present root = true) ∧
      (required_fields_present root = false →
        FetchWeatherData.parse env now root info = (false, info))) ∧
    ((FetchWeatherData env log info).success = true →
      ∃ now root, required_fields_present root = true ∧
        FetchWeatherData.parse env now root info = (true, (FetchWeatherData env log info).info)) ∧
    ((FetchWeatherData env log info).success = false →
      (FetchWeatherData env log info).info = info) := by
  refine ⟨?_, ?_, ?_⟩
  · intro now root
    refine ⟨parse_success_required env now root info, ?_⟩
    intro hreq
    have hf : (FetchWeatherData.parse env now root info).1 = false := by
      cases hp : (FetchWeatherData.parse env now root info).1
      · rfl
      · rw [parse_success_required env now root info hp] at hreq
        exact absurd hreq (by simp)
    exact Prod.ext hf (parse_failure_info env now root info hf)
  · unfold FetchWeatherData
    simp only []
    split_ifs with h1 h2
    · simp
    · simp
    · split
      · simp
      · rename_i root hroot
        intro hs
        exact ⟨_, root, parse_success_required _ _ _ _ hs, Prod.ext hs rfl⟩
  · unfold FetchWeatherData
    simp only []
    split_ifs with h1 h2
    · simp
    · simp
    · split
      · simp
      · rename_i root hroot
        intro hs
        exact parse_failure_info _ _ _ _ hs

/-- C10, concrete check: a document whose `main.temp` is a string is refused
and the record passed in comes back as it was. -/
theorem FetchWeatherData_requires_name_and_temp_witness :
    required_fields_present sample_root_no_temp = false ∧
    FetchWeatherData.parse (sample_env 0 true ok_response (some sample_root_no_temp)) (seconds 9)
        sample_root_no_temp old_info = (false, old_info) ∧
    (FetchWeatherData (sample_env 0 true ok_response (some sample_root_no_temp)) []
        old_info).info = old_info :=
  ⟨by decide,
    ((FetchWeatherData_requires_name_and_temp
      (sample_env 0 true ok_response (some sample_root_no_temp)) [] old_info).1
        (seconds 9) sample_root_no_temp).2 (by decide),
    (FetchWeatherData_requires_name_and_temp
      (sample_env 0 true ok_response (some sample_root_no_temp)) [] old_info).2.2 (by decide)⟩

/-! ## Lemmas for version check, user actions and incoming messages -/

/-- Calling `SetDeviceState` with the current state changes nothing. -/
theorem SetDeviceState_noop (env : Env) (S : DeviceState) (s : St)
    (h : s.device_state_ = S) : SetDeviceState env S s = s := by
  unfold SetDeviceState
  rw [if_pos h]

/-- After `SetDeviceState(B)` the device state is `B`. -/
theorem SetDeviceState_device_state (env : Env) (B : DeviceState) (s : St) :
    (SetDeviceState env B s).device_state_ = B := by
  by_cases h : s.device_state_ = B
  · rw [SetDeviceState_noop env B s h]; exact h
  · exact (SetDeviceState_quiet_tail env B s h).1

/-- When no other thread forces `Idle`, a delay only leaves its call in the trace. -/
theorem vTaskDelay_quiet (env : Env) (hq : ∀ l, env.forced_idle l = false) (ms : Nat) (s : St) :
    vTaskDelay env ms s = emit (Effect.vTaskDelay ms) s := by
  unfold vTaskDelay
  simp [hq]

/-- The calls of `Alert` are those of `alert_trace`. -/
theorem Alert_eq (status message emotion sound : String) (s : St) :
    Alert status message emotion sound s
      = { s with log := s.log ++ alert_trace status message emotion sound } := by
  unfold Alert alert_trace
  by_cases h : sound.isEmpty = true <;> simp [h, emit]

/-- Undisturbed and not in `Idle`, the wait loop sleeps `n` times one second. -/
theorem wait_quiet (env : Env) (hq : ∀ l, env.forced_idle l = false) (n : Nat) (s : St)
    (hs : s.device_state_ ≠ DeviceState.kDeviceStateIdle) :
    CheckNewVersion.wait env n s
      = { s with log := s.log ++ List.replicate n (Effect.vTaskDelay 1000) } := by
  induction n generalizing s with
  | zero => simp [CheckNewVersion.wait]
  | succ n ih =>
    rw [CheckNewVersion.wait, vTaskDelay_quiet env hq]
    have h1 : (emit (Effect.vTaskDelay 1000) s).device_state_ ≠ DeviceState.kDeviceStateIdle := hs
    simp only [if_neg h1]
    rw [ih _ h1]
    simp [emit, List.replicate_succ]

/-- A failed check that is not the tenth: the alert, the wait, and the next round with the delay doubled. -/
theorem body_fail (env : Env) (url : String) (hq : ∀ l, env.forced_idle l = false)
    (hfail : ∀ l, env.CheckVersion l = false) (hurl : ∀ l, env.GetCheckVersionUrl l = url)
    (rc rd : Nat) (a : App)
    (hs : a.st.device_state_ = DeviceState.kDeviceStateActivating) (hrc : rc + 1 < 10) :
    CheckNewVersion.body env rc rd a
      = LoopStep.again (rc + 1) (rd * 2)
          { a with st := { a.st with log := a.st.log ++ failed_round_trace env url rd } } := by
  unfold CheckNewVersion.body
  rw [SetDeviceState_noop env _ _ hs]
  have hge : ¬ (rc + 1 ≥ MAX_RETRY) := by unfold MAX_RETRY; omega
  simp only [hfail, hurl, Bool.not_false, if_true, hge, if_false]
  rw [Alert_eq, wait_quiet env hq]
  · simp [emit, failed_round_trace]
  · show a.st.device_state_ ≠ _
    rw [hs]; decide

/-- The tenth failed check in a row returns right after the check. -/
theorem body_fail_last (env : Env) (hfail : ∀ l, env.CheckVersion l = false)
    (rc rd : Nat) (a : App)
    (hs : a.st.device_state_ = DeviceState.kDeviceStateActivating) (hrc : 10 ≤ rc + 1) :
    CheckNewVersion.body env rc rd a
      = LoopStep.returned
          { a with st := { a.st with log := a.st.log ++
              [Effect.display_SetStatus env.CHECKING_NEW_VERSION, Effect.ota_CheckVersion] } } := by
  unfold CheckNewVersion.body
  rw [SetDeviceState_noop env _ _ hs]
  have hge : rc + 1 ≥ MAX_RETRY := by unfold MAX_RETRY; omega
  simp [hfail, hge, emit]

/-- Failed rounds in a row, as long as the retry counter stays below ten. -/
theorem loop_fail (env : Env) (url : String) (hq : ∀ l, env.forced_idle l = false)
    (hfail : ∀ l, env.CheckVersion l = false) (hurl : ∀ l, env.GetCheckVersionUrl l = url)
    (k : Nat) (fuel rc rd : Nat) (a : App)
    (hs : a.st.device_state_ = DeviceState.kDeviceStateActivating) (hrc : rc + k < 10) :
    CheckNewVersion.loop env (fuel + k) rc rd a
      = CheckNewVersion.loop env fuel (rc + k) (rd * 2 ^ k)
          { a with st := { a.st with log := a.st.log ++ backoff_trace env url k rd } } := by
  induction k generalizing rc rd a with
  | zero => simp [backoff_trace]
  | succ k ih =>
    rw [show fuel + (k + 1) = (fuel + k) + 1 by omega, CheckNewVersion.loop,
      body_fail env url hq hfail hurl rc rd a hs (by omega)]
    simp only []
    have hs1 : ({ a with st := { a.st with log := a.st.log ++ failed_round_trace env url rd } } :
        App).st.device_state_ = DeviceState.kDeviceStateActivating := hs
    refine (ih (rc + 1) (rd * 2) _ hs1 (by omega)).trans ?_
    have e1 : rc + 1 + k = rc + (k + 1) := by omega
    have e2 : rd * 2 * 2 ^ k = rd * 2 ^ (k + 1) := by ring
    rw [e1, e2]
    simp [backoff_trace, List.append_assoc]

/-- Ten failed checks from the start of the loop: nine rounds, then the return; nine iterations are not enough. -/
theorem loop_ten_failures (env : Env) (url : String) (hq : ∀ l, env.forced_idle l = false)
    (hfail : ∀ l, env.CheckVersion l = false) (hurl : ∀ l, env.GetCheckVersionUrl l = url)
    (fuel : Nat) (a : App) (hs : a.st.device_state_ = DeviceState.kDeviceStateActivating) :
    CheckNewVersion.loop env (fuel + 10) 0 10 a
      = some { a with st := { a.st with log := a.st.log ++ backoff_trace env url 9 10 ++
          [Effect.display_SetStatus env.CHECKING_NEW_VERSION, Effect.ota_CheckVersion] } } ∧
    CheckNewVersion.loop env 9 0 10 a = none := by
  have hs1 : ({ a with st := { a.st with log := a.st.log ++ backoff_trace env url 9 10 } } :
      App).st.device_state_ = DeviceState.kDeviceStateActivating := hs
  constructor
  · rw [show fuel + 10 = (fuel + 1) + 9 by omega,
      loop_fail env url hq hfail hurl 9 (fuel + 1) 0 10 a hs (by omega),
      CheckNewVersion.loop, body_fail_last env hfail (0 + 9) (10 * 2 ^ 9) _ hs1 (by omega)]
  · rw [show 9 = 0 + 9 by omega, loop_fail env url hq hfail hurl 9 0 0 10 a hs (by omega)]
    rfl

/-- An iteration starts by entering `Activating`, so it may as well be entered there. -/
theorem body_normalise (env : Env) (rc rd : Nat) (a : App) :
    CheckNewVersion.body env rc rd a
      = CheckNewVersion.body env rc rd
          { a with st := SetDeviceState env DeviceState.kDeviceStateActivating a.st } := by
  unfold CheckNewVersion.body
  simp only []
  rw [SetDeviceState_noop env _ (SetDeviceState env DeviceState.kDeviceStateActivating a.st)
    (SetDeviceState_device_state env _ _)]

/-- The loop may as well be entered in `Activating`. -/
theorem loop_normalise (env : Env) (fuel rc rd : Nat) (a : App) :
    CheckNewVersion.loop env fuel rc rd a
      = CheckNewVersion.loop env fuel rc rd
          { a with st := SetDeviceState env DeviceState.kDeviceStateActivating a.st } := by
  cases fuel with
  | zero => rfl
  | succ fuel => rw [CheckNewVersion.loop, CheckNewVersion.loop, ← body_normalise]

/-- Nine rounds starting at ten seconds announce 10, 20, 40, ..., 2560 seconds. -/
theorem backoff_trace_nine (env : Env) (url : String) :
    backoff_trace env url 9 10
      = (((List.range 9).map fun k => 10 * 2 ^ k).map (failed_round_trace env url)).flatten := by
  simp [backoff_trace, List.range, List.range.loop]

/-- A state has its own session members. -/
theorem same_session_refl (s : St) : same_session s s := ⟨rfl, rfl, rfl, rfl⟩

/-- Tracing a call keeps the session members. -/
theorem same_session_emit {s t : St} (e : Effect) (h : same_session s t) :
    same_session s (emit e t) := h

/-- Setting the crash marker keeps the session members. -/
theorem same_session_crash {s t : St} (h : same_session s t) :
    same_session s { t with crashed := true } := h

/-- `RequestWeatherUpdate` keeps the session members. -/
theorem same_session_RequestWeatherUpdate {s t : St} (env : Env) (force : Bool)
    (h : same_session s t) : same_session s (RequestWeatherUpdate env force t) := by
  unfold RequestWeatherUpdate
  simp only []
  split_ifs <;> exact h

/-- `UpdateIdleDisplay` keeps the session members. -/
theorem same_session_UpdateIdleDisplay {s t : St} (h : same_session s t) :
    same_session s (UpdateIdleDisplay t) := by
  unfold UpdateIdleDisplay
  split_ifs <;> exact h

/-- `SetDeviceState` keeps the session members. -/
theorem same_session_SetDeviceState (env : Env) (B : DeviceState) (s : St) :
    same_session s (SetDeviceState env B s) := by
  have h0 : same_session s { s with clock_ticks_ := 0, device_state_ := B } := ⟨rfl, rfl, rfl, rfl⟩
  unfold SetDeviceState
  by_cases hs : s.device_state_ = B
  · rw [if_pos hs]
    exact same_session_refl s
  · rw [if_neg hs]
    cases B <;>
      simp only [ne_eq, reduceCtorEq, not_false_eq_true, not_true_eq_false, if_true, if_false] <;>
      (try split_ifs) <;>
      repeat (first
        | with_reducible exact h0
        | with_reducible apply same_session_emit
        | with_reducible apply same_session_RequestWeatherUpdate
        | with_reducible apply same_session_UpdateIdleDisplay
        | with_reducible apply same_session_crash)

/-- `SetDeviceState` does not write `aborted_`. -/
theorem SetDeviceState_aborted (env : Env) (B : DeviceState) (s : St) :
    (SetDeviceState env B s).aborted_ = s.aborted_ :=
  (same_session_SetDeviceState env B s).1

/-- `SetDeviceState` does not write `listening_mode_`. -/
theorem SetDeviceState_listening_mode (env : Env) (B : DeviceState) (s : St) :
    (SetDeviceState env B s).listening_mode_ = s.listening_mode_ :=
  (same_session_SetDeviceState env B s).2.1

/-- `SetDeviceState` does not write `aec_mode_`. -/
theorem SetDeviceState_aec_mode (env : Env) (B : DeviceState) (s : St) :
    (SetDeviceState env B s).aec_mode_ = s.aec_mode_ :=
  (same_session_SetDeviceState env B s).2.2.1

/-- `SetDeviceState` does not write `protocol_`. -/
theorem SetDeviceState_protocol (env : Env) (B : DeviceState) (s : St) :
    (SetDeviceState env B s).protocol_ = s.protocol_ :=
  (same_session_SetDeviceState env B s).2.2.2

/-- Entering `Connecting` from another state, spelled out. -/
theorem SetDeviceState_Connecting_eq (env : Env) (s : St)
    (h : s.device_state_ ≠ DeviceState.kDeviceStateConnecting) :
    SetDeviceState env DeviceState.kDeviceStateConnecting s
      = { s with
          clock_ticks_ := 0
          device_state_ := DeviceState.kDeviceStateConnecting
          log := s.log ++
            [Effect.PostStateChangeEvent s.device_state_ DeviceState.kDeviceStateConnecting,
              Effect.led_OnStateChanged, Effect.display_HideIdleCard,
              Effect.display_SetStatus env.CONNECTING, Effect.display_SetEmotion "neutral",
              Effect.display_SetChatMessage "system" ""] } := by
  unfold SetDeviceState
  rw [if_neg h]
  simp [emit]

/-- Entering `Listening` from another state with a transport, spelled out. -/
theorem SetDeviceState_Listening_eq (env : Env) (s : St)
    (h : s.device_state_ ≠ DeviceState.kDeviceStateListening) (hp : s.protocol_ = true) :
    SetDeviceState env DeviceState.kDeviceStateListening s
      = { s with
          clock_ticks_ := 0
          device_state_ := DeviceState.kDeviceStateListening
          log := s.log ++
            [Effect.PostStateChangeEvent s.device_state_ DeviceState.kDeviceStateListening,
              Effect.led_OnStateChanged, Effect.display_HideIdleCard,
              Effect.display_SetStatus env.LISTENING, Effect.display_SetEmotion "neutral",
              Effect.audio_IsAudioProcessorRunning] ++
            (if env.IsAudioProcessorRunning (s.log ++
                [Effect.PostStateChangeEvent s.device_state_ DeviceState.kDeviceStateListening,
                  Effect.led_OnStateChanged, Effect.display_HideIdleCard,
                  Effect.display_SetStatus env.LISTENING, Effect.display_SetEmotion "neutral"])
              then []
              else [Effect.protocol_SendStartListening s.listening_mode_,
                Effect.audio_EnableVoiceProcessing true,
                Effect.audio_EnableWakeWordDetection false]) } := by
  unfold SetDeviceState
  rw [if_neg h]
  simp only [ne_eq, reduceCtorEq, not_false_eq_true, if_true, emit, List.append_assoc,
    List.singleton_append, List.cons_append, List.nil_append, hp]
  split_ifs <;> simp

/-- The forwarding loop leaves the calls of `forwarded_packets` in the trace. -/
theorem sendPackets_eq (ps : List AudioStreamPacket) (s : St) :
    OnWakeWordDetected.sendPackets ps s = { s with log := s.log ++ forwarded_packets ps } := by
  induction ps generalizing s with
  | nil => simp [OnWakeWordDetected.sendPackets, forwarded_packets]
  | cons p ps ih =>
    rw [OnWakeWordDetected.sendPackets, ih]
    simp [emit, forwarded_packets]

/-- The start-listening lambda with the channel closed and refusing to open ends in `Connecting`. -/
theorem startListeningTask_open_fails (env : Env) (mode : St → ListeningMode) (s : St)
    (hp : s.protocol_ = true)
    (hclosed : ∀ l, env.IsAudioChannelOpened l = false)
    (hfail : ∀ l, env.OpenAudioChannel l = false) :
    ((startListeningTask env mode).run s).1.device_state_ = DeviceState.kDeviceStateConnecting ∧
    ((startListeningTask env mode).run s).2 = [] := by
  simp only [startListeningTask, Callback.run, hp, hclosed, hfail, Bool.not_true,
    Bool.false_eq_true, if_false]
  exact ⟨SetDeviceState_device_state env _ _, trivial⟩

/-- The `Idle` branch of `OnWakeWordDetected`, spelled out. -/
theorem OnWakeWordDetected_idle (env : Env) (s : St)
    (hs : s.device_state_ = DeviceState.kDeviceStateIdle) (hp : s.protocol_ = true) :
    OnWakeWordDetected env s
      = if env.IsAudioChannelOpened (s.log ++ [Effect.audio_EncodeWakeWord]) then
          OnWakeWordDetected.listen env (modeForAec s)
            (emit Effect.protocol_IsAudioChannelOpened (emit Effect.audio_EncodeWakeWord s))
        else if env.OpenAudioChannel
            (SetDeviceState env DeviceState.kDeviceStateConnecting
              (emit Effect.protocol_IsAudioChannelOpened
                (emit Effect.audio_EncodeWakeWord s))).log then
          OnWakeWordDetected.listen env (modeForAec s)
            (emit Effect.protocol_OpenAudioChannel
              (SetDeviceState env DeviceState.kDeviceStateConnecting
                (emit Effect.protocol_IsAudioChannelOpened
                  (emit Effect.audio_EncodeWakeWord s))))
        else
          emit (Effect.audio_EnableWakeWordDetection true)
            (emit Effect.protocol_OpenAudioChannel
              (SetDeviceState env DeviceState.kDeviceStateConnecting
                (emit Effect.protocol_IsAudioChannelOpened
                  (emit Effect.audio_EncodeWakeWord s)))) := by
  unfold OnWakeWordDetected
  simp only [hp, Bool.not_true, Bool.false_eq_true, if_false]
  have hs1 : (emit Effect.audio_EncodeWakeWord s).device_state_
      = DeviceState.kDeviceStateIdle := hs
  rw [if_pos hs]
  rfl

/-- `SetListeningMode` from a state other than `Listening`, with a transport: the state, the mode, no crash, and no wake report among its calls. -/
theorem SetListeningMode_spec (env : Env) (mode : ListeningMode) (t : St)
    (ht : t.device_state_ ≠ DeviceState.kDeviceStateListening) (hp : t.protocol_ = true) :
    (SetListeningMode env mode t).device_state_ = DeviceState.kDeviceStateListening ∧
    (SetListeningMode env mode t).listening_mode_ = mode ∧
    (SetListeningMode env mode t).crashed = t.crashed ∧
    ∃ q, (SetListeningMode env mode t).log = t.log ++ q ∧
      ∀ e ∈ q, Effect.isWakeReport e = false := by
  unfold SetListeningMode
  rw [SetDeviceState_Listening_eq env { t with listening_mode_ := mode } ht hp]
  refine ⟨rfl, rfl, rfl, _, List.append_assoc _ _ _, ?_⟩
  intro e he
  simp only [List.mem_append, List.mem_cons, List.mem_singleton] at he
  rcases he with he | he
  · rcases he with he | he | he | he | he | he | he <;> first | (subst he; rfl) | simp at he
  · split_ifs at he
    · simp at he
    · simp only [List.mem_cons, List.mem_singleton] at he
      rcases he with he | he | he | he <;> first | (subst he; rfl) | simp at he

/-- The calls up to a successful `OpenAudioChannel` contain no wake report. -/
theorem Connecting_step_spec (env : Env) (s : St)
    (hs : s.device_state_ = DeviceState.kDeviceStateIdle) :
    (emit Effect.protocol_OpenAudioChannel
      (SetDeviceState env DeviceState.kDeviceStateConnecting
        (emit Effect.protocol_IsAudioChannelOpened
          (emit Effect.audio_EncodeWakeWord s)))).device_state_
      = DeviceState.kDeviceStateConnecting ∧
    (emit Effect.protocol_OpenAudioChannel
      (SetDeviceState env DeviceState.kDeviceStateConnecting
        (emit Effect.protocol_IsAudioChannelOpened
          (emit Effect.audio_EncodeWakeWord s)))).protocol_ = s.protocol_ ∧
    (emit Effect.protocol_OpenAudioChannel
      (SetDeviceState env DeviceState.kDeviceStateConnecting
        (emit Effect.protocol_IsAudioChannelOpened
          (emit Effect.audio_EncodeWakeWord s)))).crashed = s.crashed ∧
    ∃ q, (emit Effect.protocol_OpenAudioChannel
      (SetDeviceState env DeviceState.kDeviceStateConnecting
        (emit Effect.protocol_IsAudioChannelOpened
          (emit Effect.audio_EncodeWakeWord s)))).log = s.log ++ q ∧
      ∀ e ∈ q, Effect.isWakeReport e = false := by
  rw [SetDeviceState_Connecting_eq env _ (by simp [emit, hs])]
  refine ⟨rfl, rfl, rfl,
    [Effect.audio_EncodeWakeWord, Effect.protocol_IsAudioChannelOpened,
      Effect.PostStateChangeEvent s.device_state_ DeviceState.kDeviceStateConnecting,
      Effect.led_OnStateChanged, Effect.display_HideIdleCard,
      Effect.display_SetStatus env.CONNECTING, Effect.display_SetEmotion "neutral",
      Effect.display_SetChatMessage "system" "", Effect.protocol_OpenAudioChannel], ?_, ?_⟩
  · simp [emit, List.append_assoc]
  · intro e he
    simp only [List.mem_cons, List.mem_singleton, List.not_mem_nil, or_false] at he
    rcases he with rfl | rfl | rfl | rfl | rfl | rfl | rfl | rfl | rfl <;> rfl

/-- What `OnWakeWordDetected.listen` does, for both values of the forwarding option. -/
theorem listen_spec (env : Env) (mode : ListeningMode) (t : St)
    (ht : t.device_state_ ≠ DeviceState.kDeviceStateListening) (hp : t.protocol_ = true)
    (hc : t.crashed = false) :
    (OnWakeWordDetected.listen env mode t).device_state_ = DeviceState.kDeviceStateListening ∧
    (OnWakeWordDetected.listen env mode t).listening_mode_ = mode ∧
    (env.CONFIG_SEND_WAKE_WORD_DATA = false →
      ∃ quiet, (OnWakeWordDetected.listen env mode t).log
          = t.log ++ quiet ++ [Effect.audio_PlaySound env.OGG_POPUP] ∧
        ∀ e ∈ quiet, Effect.isWakeReport e = false) ∧
    (env.CONFIG_SEND_WAKE_WORD_DATA = true →
      ∃ before packets wake_word after, (OnWakeWordDetected.listen env mode t).log
          = t.log ++ before ++ forwarded_packets packets ++
              [Effect.protocol_SendWakeWordDetected wake_word] ++ after ∧
        (∀ e ∈ before, Effect.isWakeReport e = false) ∧
        (∀ e ∈ after, Effect.isWakeReport e = false)) := by
  unfold OnWakeWordDetected.listen
  cases hcfg : env.CONFIG_SEND_WAKE_WORD_DATA
  · obtain ⟨h1, h2, h3, q, h4, h5⟩ :=
      SetListeningMode_spec env mode (emit Effect.audio_GetLastWakeWord t) ht hp
    have h3' : (SetListeningMode env mode (emit Effect.audio_GetLastWakeWord t)).crashed
        = false := by rw [h3]; exact hc
    simp only [Bool.false_eq_true, if_false, h3']
    refine ⟨h1, h2, ?_, ?_⟩
    · intro _
      refine ⟨Effect.audio_GetLastWakeWord :: q, ?_, ?_⟩
      · show (SetListeningMode env mode (emit Effect.audio_GetLastWakeWord t)).log ++ _ = _
        rw [h4]
        simp [emit]
      · intro e he
        rcases List.mem_cons.mp he with he | he
        · subst he; rfl
        · exact h5 e he
    · intro h; exact absurd h (by simp)
  · obtain ⟨h1, h2, h3, q, h4, h5⟩ :=
      SetListeningMode_spec env mode
        (emit (Effect.protocol_SendWakeWordDetected (env.GetLastWakeWord t.log))
          (OnWakeWordDetected.sendPackets
            (env.wake_word_packets (emit Effect.audio_GetLastWakeWord t).log)
            (emit Effect.audio_GetLastWakeWord t)))
        (by rw [sendPackets_eq]; exact ht) (by rw [sendPackets_eq]; exact hp)
    simp only [if_true]
    refine ⟨h1, h2, ?_, ?_⟩
    · intro h; exact absurd h (by simp)
    · intro _
      refine ⟨[Effect.audio_GetLastWakeWord],
        env.wake_word_packets (emit Effect.audio_GetLastWakeWord t).log,
        env.GetLastWakeWord t.log, q, ?_, ?_, h5⟩
      · rw [h4, sendPackets_eq]
        simp [emit]
      · intro e he
        simp only [List.mem_singleton] at he
        subst he; rfl

/-- The minimum fields imply that `main` is an object. -/
theorem required_main_object (root : cJSON) (h : required_fields_present root = true) :
    cJSON_IsString (cJSON_GetObjectItem (some root) "name") = true ∧
    cJSON_IsObject (cJSON_GetObjectItem (some root) "main") = true ∧
    cJSON_IsNumber (cJSON_GetObjectItem (cJSON_GetObjectItem (some root) "main") "temp") = true := by
  unfold required_fields_present at h
  simp only [Bool.and_eq_true] at h
  refine ⟨h.1, ?_, h.2⟩
  cases hm : cJSON_GetObjectItem (some root) "main" with
  | none => rw [hm] at h; simp [cJSON_GetObjectItem, cJSON_IsNumber] at h
  | some m =>
    cases m <;> first
      | rfl
      | (rw [hm] at h; simp [cJSON_GetObjectItem, cJSON_IsNumber] at h)

/-! ## Weather parser, version check, incoming messages, user actions: claims C11 to C20 -/

/-- C11 as stated fails: the document `sample_root_no_weather` has a string `name`
and a numeric `main.temp` and nothing else; the parser returns `false`, leaves
the output record as it was, and `FetchWeatherData` on an HTTP-200 response
carrying it fails. -/
theorem FetchWeatherData_refuses_missing_weather_entry :
    required_fields_present sample_root_no_weather = true ∧
    FetchWeatherData.parse (sample_env 0 true ok_response (some sample_root_no_weather)) (seconds 9)
        sample_root_no_weather old_info = (false, old_info) ∧
    (FetchWeatherData (sample_env 0 true ok_response (some sample_root_no_weather)) []
        sample_info).success = false := by
  decide

/-- C11, amended. For every document with a string `name`, a numeric `main.temp`
and a `weather` member that is a non-empty array whose first item is an object,
the parser succeeds whichever of the other members are absent, and each absent
member takes its default: `feels_like`, `temp_min`, `temp_max` the measured
temperature, `humidity` and `pressure` zero, `wind` speed zero and direction
`-1`, `sys` sunrise and sunset the epoch, `description` and `icon` the empty
string. -/
theorem FetchWeatherData_optional_fields_default (env : Env) (now : Int) (root : cJSON) (info : WeatherInfo)
    (hreq : required_fields_present root = true) (hw : weather_entry_present root = true) :
    (FetchWeatherData.parse env now root info).1 = true ∧
    (cJSON_GetObjectItem (cJSON_GetObjectItem (some root) "main") "feels_like" = none →
      (FetchWeatherData.parse env now root info).2.feels_like_c
        = (FetchWeatherData.parse env now root info).2.temperature_c) ∧
    (cJSON_GetObjectItem (cJSON_GetObjectItem (some root) "main") "temp_min" = none →
      (FetchWeatherData.parse env now root info).2.temp_min_c
        = (FetchWeatherData.parse env now root info).2.temperature_c) ∧
    (cJSON_GetObjectItem (cJSON_GetObjectItem (some root) "main") "temp_max" = none →
      (FetchWeatherData.parse env now root info).2.temp_max_c
        = (FetchWeatherData.parse env now root info).2.temperature_c) ∧
    (cJSON_GetObjectItem (cJSON_GetObjectItem (some root) "main") "humidity" = none →
      (FetchWeatherData.parse env now root info).2.humidity = 0) ∧
    (cJSON_GetObjectItem (cJSON_GetObjectItem (some root) "main") "pressure" = none →
      (FetchWeatherData.parse env now root info).2.pressure = 0) ∧
    (cJSON_GetObjectItem (some root) "wind" = none →
      (FetchWeatherData.parse env now root info).2.wind_speed = ⟨0⟩ ∧
      (FetchWeatherData.parse env now root info).2.wind_deg = -1) ∧
    (cJSON_GetObjectItem (some root) "sys" = none →
      (FetchWeatherData.parse env now root info).2.sunrise = 0 ∧
      (FetchWeatherData.parse env now root info).2.sunset = 0) ∧
    (cJSON_GetObjectItem (cJSON_GetArrayItem (cJSON_GetObjectItem (some root) "weather") 0)
        "description" = none →
      (FetchWeatherData.parse env now root info).2.description = "") ∧
    (cJSON_GetObjectItem (cJSON_GetArrayItem (cJSON_GetObjectItem (some root) "weather") 0)
        "icon" = none →
      (FetchWeatherData.parse env now root info).2.icon = "") := by
  obtain ⟨h1, h2, h3⟩ := required_main_object root hreq
  unfold weather_entry_present at hw
  simp only [Bool.and_eq_true, bne_iff_ne, ne_eq] at hw
  obtain ⟨⟨h4, h5⟩, h6⟩ := hw
  have h45 : (!cJSON_IsArray (cJSON_GetObjectItem (some root) "weather") ||
      cJSON_GetArraySize (cJSON_GetObjectItem (some root) "weather") == 0) = false := by
    simp [h4, h5]
  unfold FetchWeatherData.parse
  simp only [h1, h2, h3, h45, h6, Bool.not_true, Bool.false_eq_true, if_false]
  refine ⟨trivial, ?_, ?_, ?_, ?_, ?_, ?_, ?_, ?_, ?_⟩ <;> intro h <;>
    simp [h, cJSON_IsNumber, cJSON_IsString, cJSON_IsObject]

/-- C11 amended, concrete check: `sample_root` has only `name`, `main.temp` and
one `weather` entry; it is accepted, feels-like is the measured temperature and
the wind direction is `-1`. -/
theorem FetchWeatherData_optional_fields_default_witness :
    (FetchWeatherData.parse (sample_env 0 true ok_response (some sample_root)) (seconds 9)
        sample_root old_info).1 = true ∧
    (FetchWeatherData.parse (sample_env 0 true ok_response (some sample_root)) (seconds 9)
        sample_root old_info).2.feels_like_c
      = (FetchWeatherData.parse (sample_env 0 true ok_response (some sample_root)) (seconds 9)
        sample_root old_info).2.temperature_c ∧
    (FetchWeatherData.parse (sample_env 0 true ok_response (some sample_root)) (seconds 9)
        sample_root old_info).2.wind_deg = -1 :=
  ⟨(FetchWeatherData_optional_fields_default (sample_env 0 true ok_response (some sample_root))
      (seconds 9) sample_root old_info (by decide) (by decide)).1,
    (FetchWeatherData_optional_fields_default (sample_env 0 true ok_response (some sample_root))
      (seconds 9) sample_root old_info (by decide) (by decide)).2.1 rfl,
    ((FetchWeatherData_optional_fields_default (sample_env 0 true ok_response (some sample_root))
      (seconds 9) sample_root old_info (by decide) (by decide)).2.2.2.2.2.2.1 rfl).2⟩

/-- C12. When no other thread forces `Idle` and every `CheckVersion` fails,
`CheckNewVersion` returns (ten iterations are enough, nine are not) without
touching the event group; after entering `Activating` its calls are nine failed
rounds, the k-th announcing `10 * 2^(k-1)` seconds (10, 20, 40, ..., 2560) and
then sleeping that many times one second, followed by the tenth `CheckVersion`
alone: ten checks, and the return on the tenth failure.  In any iteration a
failed check gives up when it is the tenth in a row and otherwise goes round
with the counter one up and the delay doubled; a successful check that goes
round again does so with counter `0` and delay `10`. -/
theorem CheckNewVersion_backoff_gives_up_after_ten (env : Env) (url : String) (fuel : Nat) (rc rd : Nat) (a : App) :
    ((∀ l, env.forced_idle l = false) → (∀ l, env.CheckVersion l = false) →
      (∀ l, env.GetCheckVersionUrl l = url) →
      ∃ a', CheckNewVersion env (fuel + 10) a = some a' ∧
        a'.st.log = (SetDeviceState env DeviceState.kDeviceStateActivating a.st).log ++
          (((List.range 9).map fun k => 10 * 2 ^ k).map (failed_round_trace env url)).flatten ++
          [Effect.display_SetStatus env.CHECKING_NEW_VERSION, Effect.ota_CheckVersion] ∧
        a'.event_group_ = a.event_group_ ∧ a'.main_tasks_ = a.main_tasks_ ∧
        CheckNewVersion env 9 a = none) ∧
    (env.CheckVersion ((SetDeviceState env DeviceState.kDeviceStateActivating a.st).log ++
        [Effect.display_SetStatus env.CHECKING_NEW_VERSION]) = false →
      (CheckNewVersion.body env rc rd a).next
        = if rc + 1 ≥ 10 then none else some (rc + 1, rd * 2)) ∧
    (env.CheckVersion ((SetDeviceState env DeviceState.kDeviceStateActivating a.st).log ++
        [Effect.display_SetStatus env.CHECKING_NEW_VERSION]) = true →
      ∀ p, (CheckNewVersion.body env rc rd a).next = some p → p = (0, 10)) := by
  refine ⟨?_, ?_, ?_⟩
  · intro hq hfail hurl
    have hs : ({ a with st := SetDeviceState env DeviceState.kDeviceStateActivating a.st } :
        App).st.device_state_ = DeviceState.kDeviceStateActivating :=
      SetDeviceState_device_state env _ _
    obtain ⟨h1, h2⟩ := loop_ten_failures env url hq hfail hurl fuel
      { a with st := SetDeviceState env DeviceState.kDeviceStateActivating a.st } hs
    have hrun := h1
    rw [← loop_normalise] at hrun
    have hnone := h2
    rw [← loop_normalise] at hnone
    exact ⟨_, hrun, by simp [backoff_trace_nine, List.append_assoc], rfl, rfl, hnone⟩
  · intro hf
    unfold CheckNewVersion.body
    simp only [emit, hf, Bool.not_false, if_true]
    unfold MAX_RETRY
    split_ifs <;> rfl
  · intro ht p hp
    unfold CheckNewVersion.body at hp
    simp only [emit, ht, Bool.not_true, Bool.false_eq_true, if_false] at hp
    split_ifs at hp <;> simp_all [LoopStep.next]

/-- C12, concrete check: in the sample environment no thread interferes and
every check fails; the run started in `Starting` returns with ten iterations
of fuel, leaves the event group as it was, and does not return with nine. -/
theorem CheckNewVersion_backoff_gives_up_after_ten_witness :
    ∃ a', CheckNewVersion (sample_env 0 true no_response none) 10
        (sample_app (sample_st DeviceState.kDeviceStateStarting (fetched_at 0 0)) [] no_bits)
          = some a' ∧
      a'.event_group_ = no_bits ∧
      CheckNewVersion (sample_env 0 true no_response none) 9
        (sample_app (sample_st DeviceState.kDeviceStateStarting (fetched_at 0 0)) [] no_bits)
          = none := by
  obtain ⟨a', h1, -, h3, -, h5⟩ :=
    (CheckNewVersion_backoff_gives_up_after_ten (sample_env 0 true no_response none) "ota" 0 0 10
      (sample_app (sample_st DeviceState.kDeviceStateStarting (fetched_at 0 0)) [] no_bits)).1
      (fun _ => rfl) (fun _ => rfl) (fun _ => rfl)
  exact ⟨a', h1, h3, h5⟩

/-- C13. A `tts` message with state `stop` schedules one callback.  Run in
`Speaking`, the callback leaves the device in `Idle` when `listening_mode_` is
`ManualStop` and in `Listening` for every other mode; run in any other state
it returns the state unchanged, nothing added to the trace, and schedules
nothing. -/
theorem tts_stop_follows_listening_mode (env : Env) (root : cJSON) (a : App) (s : St) :
    (cJSON_GetObjectItem (some root) "type" = some (cJSON.String "tts") →
      cJSON_GetObjectItem (some root) "state" = some (cJSON.String "stop") →
      OnIncomingJson env root a = Schedule (OnIncomingJson.tts_stop env) a) ∧
    (s.device_state_ = DeviceState.kDeviceStateSpeaking →
      ((OnIncomingJson.tts_stop env).run s).1.device_state_
        = (if s.listening_mode_ = ListeningMode.kListeningModeManualStop
            then DeviceState.kDeviceStateIdle else DeviceState.kDeviceStateListening) ∧
      ((OnIncomingJson.tts_stop env).run s).2 = []) ∧
    (s.device_state_ ≠ DeviceState.kDeviceStateSpeaking →
      (OnIncomingJson.tts_stop env).run s = (s, [])) := by
  refine ⟨?_, ?_, ?_⟩
  · intro ht hst
    simp [OnIncomingJson, ht, hst, cJSON_valuestring_ptr]
  · intro hs
    simp only [OnIncomingJson.tts_stop, Callback.run, hs, if_true]
    split_ifs <;> exact ⟨SetDeviceState_device_state env _ _, rfl⟩
  · intro hs
    simp [OnIncomingJson.tts_stop, Callback.run, hs]

/-- C13, concrete check: the message of the sample, run in `Speaking` with mode
`AutoStop` (the device ends in `Listening`) and in `Idle` (nothing happens). -/
theorem tts_stop_follows_listening_mode_witness :
    ((OnIncomingJson.tts_stop (sample_env 0 true no_response none)).run
        (sample_st DeviceState.kDeviceStateSpeaking (fetched_at 0 0))).1.device_state_
      = DeviceState.kDeviceStateListening ∧
    ((OnIncomingJson.tts_stop (sample_env 0 true no_response none)).run
        (sample_st DeviceState.kDeviceStateIdle (fetched_at 0 0))).1.log = [] :=
  ⟨((tts_stop_follows_listening_mode (sample_env 0 true no_response none) msg_tts_stop
      (sample_app (sample_st DeviceState.kDeviceStateIdle (fetched_at 0 0)) [] no_bits)
      (sample_st DeviceState.kDeviceStateSpeaking (fetched_at 0 0))).2.1 rfl).1,
    congrArg (fun r => r.1.log)
      ((tts_stop_follows_listening_mode (sample_env 0 true no_response none) msg_tts_stop
        (sample_app (sample_st DeviceState.kDeviceStateIdle (fetched_at 0 0)) [] no_bits)
        (sample_st DeviceState.kDeviceStateIdle (fetched_at 0 0))).2.2 (by decide))⟩

/-- C14. A `tts` message with state `start` schedules one callback.  The callback
leaves the device in `Speaking` when it runs in `Idle` or `Listening` and in
the state it found otherwise; in every case `aborted_` is `false` afterwards
and nothing is scheduled. -/
theorem tts_start_enters_speaking (env : Env) (root : cJSON) (a : App) (s : St) :
    (cJSON_GetObjectItem (some root) "type" = some (cJSON.String "tts") →
      cJSON_GetObjectItem (some root) "state" = some (cJSON.String "start") →
      OnIncomingJson env root a = Schedule (OnIncomingJson.tts_start env) a) ∧
    ((OnIncomingJson.tts_start env).run s).1.device_state_
      = (if s.device_state_ = DeviceState.kDeviceStateIdle ∨
            s.device_state_ = DeviceState.kDeviceStateListening
          then DeviceState.kDeviceStateSpeaking else s.device_state_) ∧
    ((OnIncomingJson.tts_start env).run s).1.aborted_ = false ∧
    ((OnIncomingJson.tts_start env).run s).2 = [] := by
  refine ⟨?_, ?_, ?_, ?_⟩
  · intro ht hst
    simp [OnIncomingJson, ht, hst, cJSON_valuestring_ptr]
  · simp only [OnIncomingJson.tts_start, Callback.run]
    split_ifs <;> first | exact SetDeviceState_device_state env _ _ | rfl
  · simp only [OnIncomingJson.tts_start, Callback.run]
    split_ifs <;> first | exact SetDeviceState_aborted env _ _ | rfl
  · simp only [OnIncomingJson.tts_start, Callback.run]
    split_ifs <;> rfl

/-- C14, concrete check: run in `Listening` the device ends in `Speaking`; run
in `Connecting` it stays there. -/
theorem tts_start_enters_speaking_witness :
    ((OnIncomingJson.tts_start (sample_env 0 true no_response none)).run
        (sample_st DeviceState.kDeviceStateListening (fetched_at 0 0))).1.device_state_
      = DeviceState.kDeviceStateSpeaking ∧
    ((OnIncomingJson.tts_start (sample_env 0 true no_response none)).run
        (sample_st DeviceState.kDeviceStateConnecting (fetched_at 0 0))).1.device_state_
      = DeviceState.kDeviceStateConnecting :=
  ⟨(tts_start_enters_speaking (sample_env 0 true no_response none) msg_tts_start
      (sample_app (sample_st DeviceState.kDeviceStateIdle (fetched_at 0 0)) [] no_bits)
      (sample_st DeviceState.kDeviceStateListening (fetched_at 0 0))).2.1,
    (tts_start_enters_speaking (sample_env 0 true no_response none) msg_tts_start
      (sample_app (sample_st DeviceState.kDeviceStateIdle (fetched_at 0 0)) [] no_bits)
      (sample_st DeviceState.kDeviceStateConnecting (fetched_at 0 0))).2.1⟩

/-- C15 as stated fails: in `Idle`, with a transport, the audio channel closed and
`OpenAudioChannel()` returning `false`, the wake-word handler returns with the
device in `Connecting`, and so does the pass of the main loop that runs the
callback scheduled by `ToggleChatState` or by `StartListening`. -/
theorem open_failure_leaves_connecting :
    (OnWakeWordDetected env_open_fails
        (sample_st DeviceState.kDeviceStateIdle (fetched_at 0 0))).device_state_
      = DeviceState.kDeviceStateConnecting ∧
    (MainEventLoop_pass env_open_fails
        (ToggleChatState env_open_fails
          (sample_app (sample_st DeviceState.kDeviceStateIdle (fetched_at 0 0)) []
            no_bits))).st.device_state_
      = DeviceState.kDeviceStateConnecting ∧
    (MainEventLoop_pass env_open_fails
        (StartListening env_open_fails
          (sample_app (sample_st DeviceState.kDeviceStateIdle (fetched_at 0 0)) []
            no_bits))).st.device_state_
      = DeviceState.kDeviceStateConnecting := by
  decide

/-- C15, amended. In `Idle`, with a transport, the audio channel closed and
`OpenAudioChannel()` returning `false`: `ToggleChatState` and `StartListening`
schedule a callback that ends with the device in `Connecting`, and
`OnWakeWordDetected` returns with the device in `Connecting`.  The device is
back in `Idle` after the pass of the main loop that services the network-error
bit (here alone among the six). -/
theorem open_failure_stays_connecting_until_error (env : Env) (a : App)
    (hs : a.st.device_state_ = DeviceState.kDeviceStateIdle) (hp : a.st.protocol_ = true)
    (hclosed : ∀ l, env.IsAudioChannelOpened l = false)
    (hfail : ∀ l, env.OpenAudioChannel l = false) :
    (ToggleChatState env a = Schedule (startListeningTask env modeForAec) a ∧
      ((startListeningTask env modeForAec).run a.st).1.device_state_
        = DeviceState.kDeviceStateConnecting) ∧
    (StartListening env a
        = Schedule (startListeningTask env fun _ => ListeningMode.kListeningModeManualStop) a ∧
      ((startListeningTask env fun _ => ListeningMode.kListeningModeManualStop).run
          a.st).1.device_state_
        = DeviceState.kDeviceStateConnecting) ∧
    (OnWakeWordDetected env a.st).device_state_ = DeviceState.kDeviceStateConnecting ∧
    (∀ b : App, b.event_group_.only_error = true → b.st.crashed = false →
      (MainEventLoop_pass env b).st.device_state_ = DeviceState.kDeviceStateIdle) := by
  refine ⟨⟨?_, ?_⟩, ⟨?_, ?_⟩, ?_, ?_⟩
  · simp [ToggleChatState, hs, hp]
  · exact (startListeningTask_open_fails env _ _ hp hclosed hfail).1
  · simp [StartListening, hs, hp]
  · exact (startListeningTask_open_fails env _ _ hp hclosed hfail).1
  · simp only [OnWakeWordDetected, hp, hs, hclosed, hfail, Bool.not_true, Bool.false_eq_true,
      if_false, if_true]
    exact SetDeviceState_device_state env _ _
  · intro b hb hc
    simp only [EventBits.only_error, Bool.and_eq_true, Bool.not_eq_true'] at hb
    obtain ⟨⟨⟨⟨⟨h1, h2⟩, h3⟩, h4⟩, h5⟩, h6⟩ := hb
    unfold MainEventLoop_pass
    simp [h1, h2, h3, h4, h5, h6, hc, App.onSt, Alert_eq, SetDeviceState_device_state,
      Alert_crashed, SetDeviceState_Idle_crashed]

/-- C15 amended, concrete check in the environment whose channel refuses to
open. -/
theorem open_failure_stays_connecting_until_error_witness :
    (OnWakeWordDetected env_open_fails
        (sample_st DeviceState.kDeviceStateIdle (fetched_at 0 0))).device_state_
      = DeviceState.kDeviceStateConnecting ∧
    (MainEventLoop_pass env_open_fails
        (OnNetworkError "open failed"
          (sample_app
            (OnWakeWordDetected env_open_fails
              (sample_st DeviceState.kDeviceStateIdle (fetched_at 0 0)))
            [] no_bits))).st.device_state_
      = DeviceState.kDeviceStateIdle :=
  ⟨(open_failure_stays_connecting_until_error env_open_fails
      (sample_app (sample_st DeviceState.kDeviceStateIdle (fetched_at 0 0)) [] no_bits)
      rfl rfl (fun _ => rfl) (fun _ => rfl)).2.2.1,
    (open_failure_stays_connecting_until_error env_open_fails
      (sample_app (sample_st DeviceState.kDeviceStateIdle (fetched_at 0 0)) [] no_bits)
      rfl rfl (fun _ => rfl) (fun _ => rfl)).2.2.2 _ (by decide) (by decide)⟩

/-- C16 as stated fails: `UpgradeFirmware` called in `Idle` with
`StartUpgradeFromUrl` returning `false` returns `false` and leaves the device
in `Upgrading`, not in `Idle`. -/
theorem UpgradeFirmware_failure_leaves_upgrading :
    (UpgradeFirmware (sample_env 0 true no_response none) ""
        (sample_st DeviceState.kDeviceStateIdle (fetched_at (seconds 1) (seconds 2)))).1 = false ∧
    (UpgradeFirmware (sample_env 0 true no_response none) ""
        (sample_st DeviceState.kDeviceStateIdle
          (fetched_at (seconds 1) (seconds 2)))).2.device_state_
      = DeviceState.kDeviceStateUpgrading := by
  decide

/-- C16, amended. When `StartUpgradeFromUrl` returns `false` (and no other thread
forces `Idle` during the delays) `UpgradeFirmware` returns `false`; after
entering `Upgrading` its calls are the version message, power save off, the
audio service stopped, the failed download, the audio service started again,
power save on, the error alert and the last delay; the device state after the
call is `Upgrading`, whatever state preceded the call. -/
theorem UpgradeFirmware_failure_stays_upgrading (env : Env) (url : String) (s : St)
    (hq : ∀ l, env.forced_idle l = false)
    (hfail : ∀ l u, env.StartUpgradeFromUrl l u = false) :
    (UpgradeFirmware env url s).1 = false ∧
    (UpgradeFirmware env url s).2.device_state_ = DeviceState.kDeviceStateUpgrading ∧
    (UpgradeFirmware env url s).2.log
      = (SetDeviceState env DeviceState.kDeviceStateUpgrading
          (emit (Effect.vTaskDelay 3000)
            (Alert env.OTA_UPGRADE env.UPGRADING "download" env.OGG_UPGRADE
              (closeChannelIfOpened env s)))).log ++
        [Effect.display_SetChatMessage "system"
            (env.NEW_VERSION ++
              if url.isEmpty then env.GetFirmwareVersion s.log else "(Manual upgrade)"),
          Effect.board_SetPowerSaveMode false, Effect.audio_Stop, Effect.vTaskDelay 1000,
          Effect.ota_StartUpgradeFromUrl (if url.isEmpty then env.GetFirmwareUrl s.log else url),
          Effect.audio_Start, Effect.board_SetPowerSaveMode true] ++
        alert_trace env.ERROR env.UPGRADE_FAILED "circle_xmark" env.OGG_EXCLAMATION ++
        [Effect.vTaskDelay 3000] := by
  have key : UpgradeFirmware env url s
      = (false,
          { SetDeviceState env DeviceState.kDeviceStateUpgrading
              (emit (Effect.vTaskDelay 3000)
                (Alert env.OTA_UPGRADE env.UPGRADING "download" env.OGG_UPGRADE
                  (closeChannelIfOpened env s))) with
            log := (SetDeviceState env DeviceState.kDeviceStateUpgrading
                (emit (Effect.vTaskDelay 3000)
                  (Alert env.OTA_UPGRADE env.UPGRADING "download" env.OGG_UPGRADE
                    (closeChannelIfOpened env s)))).log ++
              [Effect.display_SetChatMessage "system"
                  (env.NEW_VERSION ++
                    if url.isEmpty then env.GetFirmwareVersion s.log else "(Manual upgrade)"),
                Effect.board_SetPowerSaveMode false, Effect.audio_Stop, Effect.vTaskDelay 1000,
                Effect.ota_StartUpgradeFromUrl
                  (if url.isEmpty then env.GetFirmwareUrl s.log else url),
                Effect.audio_Start, Effect.board_SetPowerSaveMode true] ++
              alert_trace env.ERROR env.UPGRADE_FAILED "circle_xmark" env.OGG_EXCLAMATION ++
              [Effect.vTaskDelay 3000] }) := by
    unfold UpgradeFirmware
    simp only [vTaskDelay_quiet env hq, hfail, Bool.not_false, if_true]
    generalize SetDeviceState env DeviceState.kDeviceStateUpgrading
      (emit (Effect.vTaskDelay 3000)
        (Alert env.OTA_UPGRADE env.UPGRADING "download" env.OGG_UPGRADE
          (closeChannelIfOpened env s))) = s1
    simp [Alert_eq, emit, List.append_assoc]
  rw [key]
  exact ⟨rfl, SetDeviceState_device_state env _ _, rfl⟩

/-- C16 amended, concrete check: the upgrade is requested in `Speaking`. -/
theorem UpgradeFirmware_failure_stays_upgrading_witness :
    (UpgradeFirmware (sample_env 0 true no_response none) "http://host/fw.bin"
        (sample_st DeviceState.kDeviceStateSpeaking (fetched_at 0 0))).1 = false ∧
    (UpgradeFirmware (sample_env 0 true no_response none) "http://host/fw.bin"
        (sample_st DeviceState.kDeviceStateSpeaking (fetched_at 0 0))).2.device_state_
      = DeviceState.kDeviceStateUpgrading :=
  ⟨(UpgradeFirmware_failure_stays_upgrading (sample_env 0 true no_response none)
      "http://host/fw.bin" (sample_st DeviceState.kDeviceStateSpeaking (fetched_at 0 0))
      (fun _ => rfl) (fun _ _ => rfl)).1,
    (UpgradeFirmware_failure_stays_upgrading (sample_env 0 true no_response none)
      "http://host/fw.bin" (sample_st DeviceState.kDeviceStateSpeaking (fetched_at 0 0))
      (fun _ => rfl) (fun _ _ => rfl)).2.1⟩

/-- C17. `OnWakeWordDetected` run in `Idle` with a transport, the audio channel
open or opening successfully: the device ends in `Listening` with listening
mode `AutoStop` when `aec_mode_` is `kAecOff` and `Realtime` otherwise.  With
wake-word forwarding compiled out the pop-up sound is its last call and no
packet or wake-word message is sent; with forwarding compiled in the packets
and then `SendWakeWordDetected` are sent and no sound is played. -/
theorem OnWakeWordDetected_idle_starts_listening (env : Env) (s : St)
    (hs : s.device_state_ = DeviceState.kDeviceStateIdle) (hp : s.protocol_ = true)
    (hc : s.crashed = false)
    (hopen : (∀ l, env.IsAudioChannelOpened l = true) ∨ (∀ l, env.OpenAudioChannel l = true)) :
    (OnWakeWordDetected env s).device_state_ = DeviceState.kDeviceStateListening ∧
    (OnWakeWordDetected env s).listening_mode_ = modeForAec s ∧
    (env.CONFIG_SEND_WAKE_WORD_DATA = false →
      ∃ quiet, (OnWakeWordDetected env s).log
          = s.log ++ quiet ++ [Effect.audio_PlaySound env.OGG_POPUP] ∧
        ∀ e ∈ quiet, Effect.isWakeReport e = false) ∧
    (env.CONFIG_SEND_WAKE_WORD_DATA = true →
      ∃ before packets wake_word after, (OnWakeWordDetected env s).log
          = s.log ++ before ++ forwarded_packets packets ++
              [Effect.protocol_SendWakeWordDetected wake_word] ++ after ∧
        (∀ e ∈ before, Effect.isWakeReport e = false) ∧
        (∀ e ∈ after, Effect.isWakeReport e = false)) := by
  have key : ∃ t q, OnWakeWordDetected env s = OnWakeWordDetected.listen env (modeForAec s) t ∧
      t.device_state_ ≠ DeviceState.kDeviceStateListening ∧ t.protocol_ = true ∧
      t.crashed = false ∧ t.log = s.log ++ q ∧ ∀ e ∈ q, Effect.isWakeReport e = false := by
    rw [OnWakeWordDetected_idle env s hs hp]
    by_cases ho : env.IsAudioChannelOpened (s.log ++ [Effect.audio_EncodeWakeWord]) = true
    · rw [if_pos ho]
      refine ⟨_, [Effect.audio_EncodeWakeWord, Effect.protocol_IsAudioChannelOpened], rfl, ?_, hp,
        hc, by simp [emit], ?_⟩
      · show s.device_state_ ≠ _
        rw [hs]; decide
      · intro e he
        simp only [List.mem_cons, List.mem_singleton] at he
        rcases he with he | he | he <;> first | (subst he; rfl) | simp at he
    · rw [if_neg ho]
      have ho2 : ∀ l, env.OpenAudioChannel l = true := by
        rcases hopen with h | h
        · exact absurd (h _) ho
        · exact h
      rw [if_pos (ho2 _)]
      obtain ⟨h1, h2, h3, q, h4, h5⟩ := Connecting_step_spec env s hs
      refine ⟨_, q, rfl, ?_, h2.trans hp, h3.trans hc, h4, h5⟩
      rw [h1]; decide
  obtain ⟨t, q, hk, ht, htp, htc, htl, hq⟩ := key
  obtain ⟨h1, h2, h3, h4⟩ := listen_spec env (modeForAec s) t ht htp htc
  rw [hk]
  refine ⟨h1, h2, ?_, ?_⟩
  · intro hcfg
    obtain ⟨quiet, e1, e2⟩ := h3 hcfg
    refine ⟨q ++ quiet, by rw [e1, htl]; simp [List.append_assoc], ?_⟩
    intro e he
    rcases List.mem_append.mp he with he | he
    · exact hq e he
    · exact e2 e he
  · intro hcfg
    obtain ⟨before, packets, w, after, e1, e2, e3⟩ := h4 hcfg
    refine ⟨q ++ before, packets, w, after, by rw [e1, htl]; simp [List.append_assoc], ?_, e3⟩
    intro e he
    rcases List.mem_append.mp he with he | he
    · exact hq e he
    · exact e2 e he

/-- C17, concrete check: forwarding compiled in, two packets waiting, the
channel opens; the whole trace of the handler. -/
theorem OnWakeWordDetected_idle_starts_listening_witness :
    (OnWakeWordDetected env_forwarding
        (sample_st DeviceState.kDeviceStateIdle (fetched_at 0 0))).device_state_
      = DeviceState.kDeviceStateListening ∧
    (OnWakeWordDetected env_forwarding
        (sample_st DeviceState.kDeviceStateIdle (fetched_at 0 0))).log
      = [Effect.audio_EncodeWakeWord, Effect.protocol_IsAudioChannelOpened,
          Effect.PostStateChangeEvent DeviceState.kDeviceStateIdle
            DeviceState.kDeviceStateConnecting,
          Effect.led_OnStateChanged, Effect.display_HideIdleCard,
          Effect.display_SetStatus "CONNECTING", Effect.display_SetEmotion "neutral",
          Effect.display_SetChatMessage "system" "", Effect.protocol_OpenAudioChannel,
          Effect.audio_GetLastWakeWord,
          Effect.audio_PopWakeWordPacket ⟨1⟩, Effect.protocol_SendAudio ⟨1⟩,
          Effect.audio_PopWakeWordPacket ⟨2⟩, Effect.protocol_SendAudio ⟨2⟩,
          Effect.protocol_SendWakeWordDetected "hi",
          Effect.PostStateChangeEvent DeviceState.kDeviceStateConnecting
            DeviceState.kDeviceStateListening,
          Effect.led_OnStateChanged, Effect.display_HideIdleCard,
          Effect.display_SetStatus "LISTENING", Effect.display_SetEmotion "neutral",
          Effect.audio_IsAudioProcessorRunning,
          Effect.protocol_SendStartListening ListeningMode.kListeningModeAutoStop,
          Effect.audio_EnableVoiceProcessing true,
          Effect.audio_EnableWakeWordDetection false] :=
  ⟨(OnWakeWordDetected_idle_starts_listening env_forwarding
      (sample_st DeviceState.kDeviceStateIdle (fetched_at 0 0)) rfl rfl rfl
      (Or.inr fun _ => rfl)).1,
    by decide⟩

/-- C18. `OnWakeWordDetected` run in `Speaking` with a transport sets `aborted_`
and adds exactly one call to the trace, `SendAbortSpeaking(WakeWordDetected)`;
the device state, the listening mode and everything else are unchanged.  When
the `tts` stop callback then runs, the device goes to `Idle` if the listening
mode is `ManualStop` and to `Listening` otherwise. -/
theorem OnWakeWordDetected_speaking_aborts_only (env : Env) (s : St)
    (hs : s.device_state_ = DeviceState.kDeviceStateSpeaking) (hp : s.protocol_ = true) :
    OnWakeWordDetected env s
      = { s with
          aborted_ := true
          log := s.log ++
            [Effect.protocol_SendAbortSpeaking AbortReason.kAbortReasonWakeWordDetected] } ∧
    ((OnIncomingJson.tts_stop env).run (OnWakeWordDetected env s)).1.device_state_
      = (if s.listening_mode_ = ListeningMode.kListeningModeManualStop
          then DeviceState.kDeviceStateIdle else DeviceState.kDeviceStateListening) := by
  have h : OnWakeWordDetected env s
      = { s with
          aborted_ := true
          log := s.log ++
            [Effect.protocol_SendAbortSpeaking AbortReason.kAbortReasonWakeWordDetected] } := by
    simp [OnWakeWordDetected, hs, hp, AbortSpeaking, emit]
  refine ⟨h, ?_⟩
  rw [h]
  simp only [OnIncomingJson.tts_stop, Callback.run, hs, if_true]
  split_ifs <;> exact SetDeviceState_device_state env _ _

/-- C18, concrete check: in `Speaking` with mode `AutoStop`. -/
theorem OnWakeWordDetected_speaking_aborts_only_witness :
    (OnWakeWordDetected (sample_env 0 true no_response none)
        (sample_st DeviceState.kDeviceStateSpeaking (fetched_at 0 0))).device_state_
      = DeviceState.kDeviceStateSpeaking ∧
    ((OnIncomingJson.tts_stop (sample_env 0 true no_response none)).run
        (OnWakeWordDetected (sample_env 0 true no_response none)
          (sample_st DeviceState.kDeviceStateSpeaking (fetched_at 0 0)))).1.device_state_
      = DeviceState.kDeviceStateListening :=
  ⟨congrArg St.device_state_
      (OnWakeWordDetected_speaking_aborts_only (sample_env 0 true no_response none)
        (sample_st DeviceState.kDeviceStateSpeaking (fetched_at 0 0)) rfl rfl).1,
    (OnWakeWordDetected_speaking_aborts_only (sample_env 0 true no_response none)
      (sample_st DeviceState.kDeviceStateSpeaking (fetched_at 0 0)) rfl rfl).2⟩

/-- C19. In every device state, a message whose `type` is the string `tts` and
whose `state` is a string other than `start`, `stop` and `sentence_start`
leaves the object as it was: no callback is scheduled, nothing is added to the
trace, and the device state is unchanged. -/
theorem OnIncomingJson_unknown_tts_state_ignored (env : Env) (root : cJSON) (a : App) (state_str : String)
    (ht : cJSON_GetObjectItem (some root) "type" = some (cJSON.String "tts"))
    (hst : cJSON_GetObjectItem (some root) "state" = some (cJSON.String state_str))
    (h1 : state_str ≠ "start") (h2 : state_str ≠ "stop") (h3 : state_str ≠ "sentence_start") :
    OnIncomingJson env root a = a := by
  simp [OnIncomingJson, ht, hst, cJSON_valuestring_ptr, h1, h2, h3]

/-- C19, concrete check: the message `{"type":"tts","state":"unknown_value"}`
received in `Speaking`. -/
theorem OnIncomingJson_unknown_tts_state_ignored_witness :
    (OnIncomingJson (sample_env 0 true no_response none) msg_tts_unknown
        (sample_app (sample_st DeviceState.kDeviceStateSpeaking (fetched_at 0 0)) []
          no_bits)).st.log = [] ∧
    (OnIncomingJson (sample_env 0 true no_response none) msg_tts_unknown
        (sample_app (sample_st DeviceState.kDeviceStateSpeaking (fetched_at 0 0)) []
          no_bits)).main_tasks_.length = 0 :=
  ⟨congrArg (fun a => a.st.log)
      (OnIncomingJson_unknown_tts_state_ignored (sample_env 0 true no_response none)
        msg_tts_unknown
        (sample_app (sample_st DeviceState.kDeviceStateSpeaking (fetched_at 0 0)) [] no_bits)
        "unknown_value" rfl rfl (by decide) (by decide) (by decide)),
    congrArg (fun a => a.main_tasks_.length)
      (OnIncomingJson_unknown_tts_state_ignored (sample_env 0 true no_response none)
        msg_tts_unknown
        (sample_app (sample_st DeviceState.kDeviceStateSpeaking (fetched_at 0 0)) [] no_bits)
        "unknown_value" rfl rfl (by decide) (by decide) (by decide))⟩

/-- C20, the code at the failing inputs: a message without a `type` member, a
message whose `type` is a number, and a `tts` message without a `state` member
each make the handler read through a null pointer (`type->valuestring`,
`strcmp` on a null `valuestring`, `state->valuestring`): the process ends
instead of the message being skipped. -/
theorem OnIncomingJson_faults_on_missing_type_or_state :
    (OnIncomingJson (sample_env 0 true no_response none) msg_no_type
      (sample_app (sample_st DeviceState.kDeviceStateIdle (fetched_at 0 0)) [] no_bits)).st.crashed
        = true ∧
    (OnIncomingJson (sample_env 0 true no_response none) msg_type_number
      (sample_app (sample_st DeviceState.kDeviceStateIdle (fetched_at 0 0)) [] no_bits)).st.crashed
        = true ∧
    (OnIncomingJson (sample_env 0 true no_response none) msg_tts_no_state
      (sample_app (sample_st DeviceState.kDeviceStateIdle (fetched_at 0 0)) [] no_bits)).st.crashed
        = true := by
  decide

/-! ## State entry effects: claim C21 -/

/-- C21, as stated, fails for the target `Unknown`: its `case` label shares the
body of `Idle`, so entering it from `Idle` sets the standby status and the
neutral emotion, switches voice processing and wake-word detection, and asks
for a weather refresh. -/
theorem SetDeviceState_Unknown_runs_idle_entry :
    (SetDeviceState (sample_env 0 true no_response none) DeviceState.kDeviceStateUnknown
        (sample_st DeviceState.kDeviceStateIdle (fetched_at 0 0))).log =
      generic_effects DeviceState.kDeviceStateIdle DeviceState.kDeviceStateUnknown ++
        [Effect.display_SetStatus "STANDBY", Effect.display_SetEmotion "neutral",
          Effect.audio_EnableVoiceProcessing false, Effect.audio_EnableWakeWordDetection true,
          Effect.xTaskCreate "weather_fetch", Effect.display_HideIdleCard] := by
  decide

/-- C21 (amended): for a target state among Starting, WifiConfiguring,
Upgrading, Activating, AudioTesting and FatalError that differs from the
current state, `SetDeviceState` resets the tick counter, stores the state and
appends exactly the generic calls (state-change event, LED notification,
hiding the idle card) to the trace; nothing else changes, and none of the
appended calls is a status, emotion, chat, audio-service or task-creation call. -/
theorem SetDeviceState_other_states_generic_only (env : Env) (state : DeviceState) (s : St)
    (hstate : state ∈ states_without_entry_effects) (hne : s.device_state_ ≠ state) :
    SetDeviceState env state s =
        { s with
          clock_ticks_ := 0
          device_state_ := state
          log := s.log ++ generic_effects s.device_state_ state } ∧
      generic_effects s.device_state_ state =
        [Effect.PostStateChangeEvent s.device_state_ state, Effect.led_OnStateChanged,
          Effect.display_HideIdleCard] ∧
      ∀ e ∈ generic_effects s.device_state_ state, Effect.isEntryEffect e = false := by
  simp only [states_without_entry_effects, List.mem_cons, List.mem_singleton, List.not_mem_nil,
    or_false] at hstate
  rcases hstate with rfl | rfl | rfl | rfl | rfl | rfl <;>
    (refine ⟨?_, ?_, ?_⟩
     · unfold SetDeviceState
       rw [if_neg hne]
       simp [emit, generic_effects]
     · simp [generic_effects]
     · intro e he
       simp [generic_effects] at he
       rcases he with rfl | rfl | rfl <;> rfl)

theorem SetDeviceState_other_states_generic_only_witness :
    SetDeviceState (sample_env 0 true no_response none) DeviceState.kDeviceStateUpgrading
        (sample_st DeviceState.kDeviceStateIdle (fetched_at 0 0)) =
      { sample_st DeviceState.kDeviceStateIdle (fetched_at 0 0) with
        clock_ticks_ := 0
        device_state_ := DeviceState.kDeviceStateUpgrading
        log := [Effect.PostStateChangeEvent DeviceState.kDeviceStateIdle
          DeviceState.kDeviceStateUpgrading, Effect.led_OnStateChanged,
          Effect.display_HideIdleCard] } :=
  (SetDeviceState_other_states_generic_only (sample_env 0 true no_response none)
    DeviceState.kDeviceStateUpgrading (sample_st DeviceState.kDeviceStateIdle (fetched_at 0 0))
    (by decide) (by decide)).1

/-! ## Lemmas for the protocol callbacks -/

/-- Doing nothing leaves the shared subsystems to the scheduler thread. -/
theorem deferred_id (f : App → App) (h : ∀ a, f a = a) : deferred_to_scheduler f :=
  ⟨[], false, none, false, [], by simp, fun a => by rw [h a]; simp⟩

/-- So does a single call of `Schedule`. -/
theorem deferred_Schedule (f : App → App) (cb : Callback) (h : ∀ a, f a = Schedule cb a) :
    deferred_to_scheduler f :=
  ⟨[], false, none, false, [cb], by simp, fun a => by rw [h a]; simp [Schedule]⟩

/-- So does the end of the process. -/
theorem deferred_crash (f : App → App)
    (h : ∀ a, f a = a.onSt fun s => { s with crashed := true }) : deferred_to_scheduler f :=
  ⟨[], true, none, false, [], by simp, fun a => by rw [h a]; simp [App.onSt]⟩

/-- So does a call that is not to a shared subsystem. -/
theorem deferred_emit (f : App → App) (e : Effect) (he : Effect.onSharedSubsystem e = false)
    (h : ∀ a, f a = a.onSt (emit e)) : deferred_to_scheduler f :=
  ⟨[e], false, none, false, [], by simp [he], fun a => by rw [h a]; simp [App.onSt, emit]⟩

/-- A message that is not an alert is answered in one of four ways, the same
for every object: nothing, one `Schedule`, the end of the process, or the call
of the tool server. -/
theorem OnIncomingJson_forms (env : Env) (root : cJSON)
    (h : message_type root ≠ some "alert") :
    ∃ p : Reaction, p.safe = true ∧ ∀ a, OnIncomingJson env root a = p.apply a := by
  unfold message_type at h
  cases htype : cJSON_valuestring_ptr (cJSON_GetObjectItem (some root) "type") with
  | none =>
    exact ⟨Reaction.crash, rfl, fun a => by unfold OnIncomingJson; simp only [htype]; rfl⟩
  | some type_str =>
    rw [htype] at h
    have hne : ¬ type_str = "alert" := fun e => h (by rw [e])
    by_cases h1 : type_str = "tts"
    · cases hstate : cJSON_valuestring_ptr (cJSON_GetObjectItem (some root) "state") with
      | none =>
        exact ⟨Reaction.crash, rfl, fun a => by
          unfold OnIncomingJson; simp only [htype, h1, if_true, hstate]; rfl⟩
      | some state_str =>
        by_cases h2 : state_str = "start"
        · exact ⟨Reaction.schedule (OnIncomingJson.tts_start env), rfl, fun a => by
            unfold OnIncomingJson; simp only [htype, h1, if_true, hstate, h2]; rfl⟩
        · by_cases h3 : state_str = "stop"
          · exact ⟨Reaction.schedule (OnIncomingJson.tts_stop env), rfl, fun a => by
              unfold OnIncomingJson; simp only [htype, h1, if_true, hstate, h2, h3, if_false]; rfl⟩
          · by_cases h4 : state_str = "sentence_start"
            · by_cases h5 : cJSON_IsString (cJSON_GetObjectItem (some root) "text") = true
              · exact ⟨Reaction.schedule _, rfl, fun a => by
                  unfold OnIncomingJson
                  simp only [htype, h1, if_true, hstate, h2, h3, h4, h5, if_false]; rfl⟩
              · exact ⟨Reaction.nothing, rfl, fun a => by
                  unfold OnIncomingJson
                  simp only [htype, h1, if_true, hstate, h2, h3, h4, h5, if_false]; rfl⟩
            · exact ⟨Reaction.nothing, rfl, fun a => by
                unfold OnIncomingJson
                simp only [htype, h1, if_true, hstate, h2, h3, h4, if_false]; rfl⟩
    · by_cases h2 : type_str = "stt"
      · by_cases h5 : cJSON_IsString (cJSON_GetObjectItem (some root) "text") = true
        · exact ⟨Reaction.schedule _, rfl, fun a => by
            unfold OnIncomingJson; simp only [htype, h1, h2, h5, if_true, if_false]; rfl⟩
        · exact ⟨Reaction.nothing, rfl, fun a => by
            unfold OnIncomingJson; simp only [htype, h1, h2, h5, if_true, if_false]; rfl⟩
      · by_cases h3 : type_str = "llm"
        · by_cases h5 : cJSON_IsString (cJSON_GetObjectItem (some root) "emotion") = true
          · exact ⟨Reaction.schedule _, rfl, fun a => by
              unfold OnIncomingJson; simp only [htype, h1, h2, h3, h5, if_true, if_false]; rfl⟩
          · exact ⟨Reaction.nothing, rfl, fun a => by
              unfold OnIncomingJson; simp only [htype, h1, h2, h3, h5, if_true, if_false]; rfl⟩
        · by_cases h4 : type_str = "mcp"
          · by_cases h5 : cJSON_IsObject (cJSON_GetObjectItem (some root) "payload") = true
            · exact ⟨Reaction.call Effect.mcp_ParseMessage, rfl, fun a => by
                unfold OnIncomingJson
                simp only [htype, h1, h2, h3, h4, h5, if_true, if_false]; rfl⟩
            · exact ⟨Reaction.nothing, rfl, fun a => by
                unfold OnIncomingJson
                simp only [htype, h1, h2, h3, h4, h5, if_true, if_false]; rfl⟩
          · by_cases h6 : type_str = "system"
            · by_cases h5 : cJSON_IsString (cJSON_GetObjectItem (some root) "command") = true
              · by_cases h7 : cJSON_valuestring (cJSON_GetObjectItem (some root) "command") = "reboot"
                · exact ⟨Reaction.schedule (OnIncomingJson.reboot env), rfl, fun a => by
                    unfold OnIncomingJson
                    simp only [htype, h1, h2, h3, h4, h5, h6, h7, if_true, if_false]; rfl⟩
                · exact ⟨Reaction.nothing, rfl, fun a => by
                    unfold OnIncomingJson
                    simp only [htype, h1, h2, h3, h4, h5, h6, h7, if_true, if_false]; rfl⟩
              · exact ⟨Reaction.nothing, rfl, fun a => by
                  unfold OnIncomingJson
                  simp only [htype, h1, h2, h3, h4, h5, h6, if_true, if_false]; rfl⟩
            · by_cases h8 : (env.CONFIG_RECEIVE_CUSTOM_MESSAGE && decide (type_str = "custom")) = true
              · cases hpay : cJSON_GetObjectItem (some root) "payload" with
                | none =>
                  exact ⟨Reaction.nothing, rfl, fun a => by
                    unfold OnIncomingJson
                    simp only [htype, h1, h2, h3, h4, h6, hne, h8, hpay, if_true, if_false]; rfl⟩
                | some payload =>
                  cases payload with
                  | Object members =>
                    exact ⟨Reaction.schedule _, rfl, fun a => by
                      unfold OnIncomingJson
                      simp only [htype, h1, h2, h3, h4, h6, hne, h8, hpay, if_true, if_false]; rfl⟩
                  | _ =>
                    exact ⟨Reaction.nothing, rfl, fun a => by
                      unfold OnIncomingJson
                      simp only [htype, h1, h2, h3, h4, h6, hne, h8, hpay, if_true, if_false]; rfl⟩
              · exact ⟨Reaction.nothing, rfl, fun a => by
                  unfold OnIncomingJson
                  simp only [htype, h1, h2, h3, h4, h6, hne, h8, if_true, if_false]; rfl⟩

/-- A safe reaction leaves the shared subsystems to the scheduler thread. -/
theorem deferred_Reaction (f : App → App) (p : Reaction) (hp : p.safe = true)
    (h : ∀ a, f a = p.apply a) : deferred_to_scheduler f := by
  cases p with
  | nothing => exact deferred_id f h
  | schedule cb => exact deferred_Schedule f cb h
  | crash => exact deferred_crash f h
  | call e =>
    refine deferred_emit f e ?_ h
    simpa [Reaction.safe] using hp

/-! ## Protocol callbacks: claim C22 -/

/-- C22, as stated, fails for three callbacks, which act on the transport's
thread: an `alert` message makes the display and sound calls of `Alert` at once
and schedules nothing; `Connected` reads the device state and in `Idle` resets
status, emotion and chat text at once; an incoming audio frame is pushed to the
decode queue at once when the state read is `Speaking` and dropped otherwise. -/
theorem alert_connected_audio_act_on_transport_thread :
    (OnIncomingJson (sample_env 0 true no_response none) msg_alert
        (sample_app (sample_st DeviceState.kDeviceStateIdle (fetched_at 0 0)) [] no_bits)).st.log =
      [Effect.display_SetStatus "S", Effect.display_SetEmotion "E",
        Effect.display_SetChatMessage "system" "M", Effect.audio_PlaySound "vibration.ogg"] ∧
    (OnIncomingJson (sample_env 0 true no_response none) msg_alert
        (sample_app (sample_st DeviceState.kDeviceStateIdle (fetched_at 0 0)) [] no_bits)
      ).main_tasks_.length = 0 ∧
    ¬ deferred_to_scheduler (OnIncomingJson (sample_env 0 true no_response none) msg_alert) ∧
    (OnConnected (sample_env 0 true no_response none)
        (sample_app (sample_st DeviceState.kDeviceStateIdle (fetched_at 0 0)) [] no_bits)).st.log =
      [Effect.display_SetStatus "STANDBY", Effect.display_SetEmotion "neutral",
        Effect.display_SetChatMessage "system" ""] ∧
    (OnIncomingAudio ⟨1⟩
        (sample_app (sample_st DeviceState.kDeviceStateSpeaking (fetched_at 0 0)) [] no_bits)).st.log =
      [Effect.audio_PushPacketToDecodeQueue ⟨1⟩] ∧
    (OnIncomingAudio ⟨1⟩
        (sample_app (sample_st DeviceState.kDeviceStateIdle (fetched_at 0 0)) [] no_bits)).st.log =
      [] := by
  refine ⟨by decide, by decide, ?_, by decide, by decide, by decide⟩
  rintro ⟨direct, crash, message, raise_error, callbacks, hdirect, hf⟩
  have h1 := congrArg (fun b => b.st.log)
    (hf (sample_app (sample_st DeviceState.kDeviceStateIdle (fetched_at 0 0)) [] no_bits))
  have h2 : (OnIncomingJson (sample_env 0 true no_response none) msg_alert
      (sample_app (sample_st DeviceState.kDeviceStateIdle (fetched_at 0 0)) [] no_bits)).st.log =
      [Effect.display_SetStatus "S", Effect.display_SetEmotion "E",
        Effect.display_SetChatMessage "system" "M", Effect.audio_PlaySound "vibration.ogg"] := by
    decide
  simp only [h2] at h1
  have h3 : direct = [Effect.display_SetStatus "S", Effect.display_SetEmotion "E",
      Effect.display_SetChatMessage "system" "M", Effect.audio_PlaySound "vibration.ogg"] := by
    rw [h1]; rfl
  have h4 := hdirect (Effect.display_SetStatus "S") (by rw [h3]; simp)
  exact absurd h4 (by decide)

/-- C22 (amended): the reactions to a network error, to the audio channel
being opened or closed, and to every structured message whose type is not
`alert` leave the display, the audio service and the device state to the
scheduler thread: on the transport's thread they only store the error message
and raise the error flag, switch the power-save mode, hand the message to the
tool server, or end the process on a malformed message, and pass their
callbacks to `Schedule`, without reading the device state.  An incoming audio
frame is handled on the transport's thread: the callback reads the device
state and pushes the frame to the decode queue when the state is `Speaking`,
and does nothing otherwise. -/
theorem protocol_callbacks_leave_state_to_scheduler (env : Env) :
    (∀ message, deferred_to_scheduler (OnNetworkError message)) ∧
    deferred_to_scheduler OnAudioChannelOpened ∧
    deferred_to_scheduler (OnAudioChannelClosed env) ∧
    (∀ root, message_type root ≠ some "alert" →
      deferred_to_scheduler (OnIncomingJson env root)) ∧
    (∀ packet a, (OnIncomingAudio packet a).main_tasks_ = a.main_tasks_ ∧
      (OnIncomingAudio packet a).event_group_ = a.event_group_ ∧
      (OnIncomingAudio packet a).st.device_state_ = a.st.device_state_ ∧
      (OnIncomingAudio packet a).st.log = a.st.log ++
        (if a.st.device_state_ = DeviceState.kDeviceStateSpeaking then
          [Effect.audio_PushPacketToDecodeQueue packet]
        else [])) := by
  refine ⟨?_, ?_, ?_, ?_, ?_⟩
  · intro message
    exact ⟨[], false, some message, true, [], by simp, fun a => by simp [OnNetworkError]⟩
  · exact deferred_emit _ (Effect.board_SetPowerSaveMode false) rfl fun a => rfl
  · exact ⟨[Effect.board_SetPowerSaveMode true], false, none, false, [OnAudioChannelClosed.task env],
      by simp [Effect.onSharedSubsystem],
      fun a => by simp [OnAudioChannelClosed, Schedule, App.onSt, emit]⟩
  · intro root h
    obtain ⟨p, hp, hf⟩ := OnIncomingJson_forms env root h
    exact deferred_Reaction _ p hp hf
  · intro packet a
    refine ⟨rfl, rfl, ?_, ?_⟩
    · simp only [OnIncomingAudio, App.onSt]
      split_ifs <;> rfl
    · simp only [OnIncomingAudio, App.onSt]
      split_ifs <;> simp [emit]

theorem protocol_callbacks_leave_state_to_scheduler_witness :
    deferred_to_scheduler (OnIncomingJson (sample_env 0 true no_response none) msg_stt) :=
  (protocol_callbacks_leave_state_to_scheduler (sample_env 0 true no_response none)).2.2.2.1 msg_stt
    (by decide)

/-! ## Lemmas for the wait between version checks -/

/-- A state is reached from itself without waiting. -/
theorem same_wait_refl (s : St) : same_wait s s := rfl

/-- A call that is not a one-second delay adds no waiting. -/
theorem same_wait_emit {s t : St} (e : Effect) (he : Effect.isOneSecondWait e = false)
    (h : same_wait s t) : same_wait s (emit e t) := by
  unfold same_wait seconds_waited at *
  simp [emit, List.countP_append, he, h]

/-- Setting the crash marker adds no waiting. -/
theorem same_wait_crash {s t : St} (h : same_wait s t) :
    same_wait s { t with crashed := true } := h

/-- `RequestWeatherUpdate` does not wait. -/
theorem same_wait_RequestWeatherUpdate {s t : St} (env : Env) (force : Bool)
    (h : same_wait s t) : same_wait s (RequestWeatherUpdate env force t) := by
  unfold RequestWeatherUpdate
  simp only []
  split_ifs
  · exact h
  · exact h
  · exact h
  · exact same_wait_emit (t := { t with weather_fetch_in_progress_ := true, weather_last_request_ := env.steady_clock_now t.log }) _ rfl h
  · exact same_wait_emit (t := { t with weather_fetch_in_progress_ := true, weather_last_request_ := env.steady_clock_now t.log }) _ rfl h

/-- `UpdateIdleDisplay` does not wait. -/
theorem same_wait_UpdateIdleDisplay {s t : St} (h : same_wait s t) :
    same_wait s (UpdateIdleDisplay t) := by
  unfold UpdateIdleDisplay
  split_ifs <;> exact same_wait_emit _ rfl h

/-- `SetDeviceState` does not wait. -/
theorem same_wait_SetDeviceState (env : Env) (B : DeviceState) (s : St) :
    same_wait s (SetDeviceState env B s) := by
  have h0 : same_wait s { s with clock_ticks_ := 0, device_state_ := B } := rfl
  unfold SetDeviceState
  by_cases hs : s.device_state_ = B
  · rw [if_pos hs]
    exact same_wait_refl s
  · rw [if_neg hs]
    cases B <;>
      simp only [ne_eq, reduceCtorEq, not_false_eq_true, not_true_eq_false, if_true, if_false] <;>
      (try split_ifs) <;>
      repeat (first
        | with_reducible exact h0
        | ((with_reducible apply same_wait_emit); (exact rfl))
        | with_reducible apply same_wait_RequestWeatherUpdate
        | with_reducible apply same_wait_UpdateIdleDisplay
        | with_reducible apply same_wait_crash)

/-- One delay of one second is one second waited, whether or not another
thread forces `Idle` meanwhile. -/
theorem seconds_waited_vTaskDelay (env : Env) (s : St) :
    seconds_waited (vTaskDelay env 1000 s) = seconds_waited s + 1 := by
  have h1 : seconds_waited (emit (Effect.vTaskDelay 1000) s) = seconds_waited s + 1 := by
    simp [seconds_waited, emit, List.countP_append, Effect.isOneSecondWait]
  unfold vTaskDelay
  simp only []
  split_ifs
  · rw [show seconds_waited (SetDeviceState env DeviceState.kDeviceStateIdle
        (emit (Effect.vTaskDelay 1000) s)) = seconds_waited (emit (Effect.vTaskDelay 1000) s)
      from same_wait_SetDeviceState env _ _, h1]
  · exact h1

/-- `k` delays in a row are `k` seconds waited. -/
theorem seconds_waited_one_second_waits (env : Env) (k : Nat) (s : St) :
    seconds_waited (one_second_waits env k s) = seconds_waited s + k := by
  induction k generalizing s with
  | zero => rfl
  | succ k ih =>
    rw [one_second_waits, ih, seconds_waited_vTaskDelay]
    omega

/-- The wait loop with `n` iterations left makes `k` delays, where `k` is `n`
or the first second after which the state is `Idle`, whichever is less. -/
theorem wait_spec (env : Env) (n : Nat) (s : St) :
    ∃ k, k ≤ n ∧ (0 < n → 0 < k) ∧
      CheckNewVersion.wait env n s = one_second_waits env k s ∧
      (k < n → (one_second_waits env k s).device_state_ = DeviceState.kDeviceStateIdle) ∧
      ∀ j, 0 < j → j < k →
        (one_second_waits env j s).device_state_ ≠ DeviceState.kDeviceStateIdle := by
  induction n generalizing s with
  | zero => exact ⟨0, le_refl 0, fun h => h, rfl, fun h => absurd h (by omega), fun j h1 h2 => absurd h2 (by omega)⟩
  | succ n ih =>
    by_cases hidle : (vTaskDelay env 1000 s).device_state_ = DeviceState.kDeviceStateIdle
    · refine ⟨1, by omega, fun _ => by omega, ?_, fun _ => hidle, fun j h1 h2 => absurd h2 (by omega)⟩
      rw [CheckNewVersion.wait]
      simp only [if_pos hidle]
      rfl
    · obtain ⟨k, hk, hpos, heq, hlt, hbefore⟩ := ih (vTaskDelay env 1000 s)
      refine ⟨k + 1, by omega, fun _ => by omega, ?_, ?_, ?_⟩
      · rw [CheckNewVersion.wait]
        simp only [if_neg hidle]
        exact heq
      · intro h
        exact hlt (by omega)
      · intro j h1 h2
        cases j with
        | zero => omega
        | succ j =>
          cases j with
          | zero => exact hidle
          | succ j => exact hbefore (j + 1) (by omega) (by omega)

/-! ## Waiting between version checks: claim C23 -/

/-- C23: after a failed version check that is not the tenth in a row, the
iteration sleeps `k` times one second, where `k` is at most `retry_delay`, at
least one when `retry_delay` is positive, the state is `Idle` after the `k`-th
second when `k` is less than `retry_delay`, and the state is not `Idle` after
any earlier second; `k` seconds are added to the time waited, and the next
iteration gets the failure counted and the delay doubled. -/
theorem CheckNewVersion_wait_stops_at_idle (env : Env) (retry_count retry_delay : Nat) (a : App)
    (hfail : CheckNewVersion.check_ok env a.st = false)
    (hcount : retry_count + 1 < MAX_RETRY) :
    ∃ k, k ≤ retry_delay ∧ (0 < retry_delay → 0 < k) ∧
      CheckNewVersion.body env retry_count retry_delay a =
        LoopStep.again (retry_count + 1) (retry_delay * 2)
          { a with
            st := one_second_waits env k (CheckNewVersion.alerted env retry_delay a.st) } ∧
      seconds_waited (one_second_waits env k (CheckNewVersion.alerted env retry_delay a.st)) =
        seconds_waited (CheckNewVersion.alerted env retry_delay a.st) + k ∧
      (k < retry_delay →
        (one_second_waits env k (CheckNewVersion.alerted env retry_delay a.st)).device_state_ =
          DeviceState.kDeviceStateIdle) ∧
      ∀ j, 0 < j → j < k →
        (one_second_waits env j (CheckNewVersion.alerted env retry_delay a.st)).device_state_ ≠
          DeviceState.kDeviceStateIdle := by
  obtain ⟨k, hk, hpos, heq, hlt, hbefore⟩ :=
    wait_spec env retry_delay (CheckNewVersion.alerted env retry_delay a.st)
  refine ⟨k, hk, hpos, ?_, seconds_waited_one_second_waits env k _, hlt, hbefore⟩
  have hge : ¬ (retry_count + 1 ≥ MAX_RETRY) := by omega
  unfold CheckNewVersion.check_ok at hfail
  unfold CheckNewVersion.body
  simp only [hfail, Bool.not_false, if_true, hge, if_false]
  rw [← heq]
  rfl

theorem CheckNewVersion_wait_stops_at_idle_witness :
    ∃ k, k ≤ 10 ∧ (0 < 10 → 0 < k) ∧
      CheckNewVersion.body env_idle_at_third_second 0 10
          (sample_app (sample_st DeviceState.kDeviceStateStarting (fetched_at 0 0)) [] no_bits) =
        LoopStep.again (0 + 1) (10 * 2)
          { sample_app (sample_st DeviceState.kDeviceStateStarting (fetched_at 0 0)) [] no_bits with
            st := one_second_waits env_idle_at_third_second k
              (CheckNewVersion.alerted env_idle_at_third_second 10
                (sample_st DeviceState.kDeviceStateStarting (fetched_at 0 0))) } ∧
      seconds_waited (one_second_waits env_idle_at_third_second k
          (CheckNewVersion.alerted env_idle_at_third_second 10
            (sample_st DeviceState.kDeviceStateStarting (fetched_at 0 0)))) =
        seconds_waited (CheckNewVersion.alerted env_idle_at_third_second 10
          (sample_st DeviceState.kDeviceStateStarting (fetched_at 0 0))) + k ∧
      (k < 10 →
        (one_second_waits env_idle_at_third_second k
          (CheckNewVersion.alerted env_idle_at_third_second 10
            (sample_st DeviceState.kDeviceStateStarting (fetched_at 0 0)))).device_state_ =
          DeviceState.kDeviceStateIdle) ∧
      ∀ j, 0 < j → j < k →
        (one_second_waits env_idle_at_third_second j
          (CheckNewVersion.alerted env_idle_at_third_second 10
            (sample_st DeviceState.kDeviceStateStarting (fetched_at 0 0)))).device_state_ ≠
          DeviceState.kDeviceStateIdle :=
  CheckNewVersion_wait_stops_at_idle env_idle_at_third_second 0 10
    (sample_app (sample_st DeviceState.kDeviceStateStarting (fetched_at 0 0)) [] no_bits)
    (by decide) (by decide)

/-- In the sample run the wait ends after the third of ten seconds. -/
theorem wait_sample_three_seconds :
    seconds_waited (CheckNewVersion.wait env_idle_at_third_second 10
        (CheckNewVersion.alerted env_idle_at_third_second 10
          (sample_st DeviceState.kDeviceStateStarting (fetched_at 0 0)))) = 3 := by
  decide

/-! ## Lemmas for the iterations of the version check -/

/-- A trace continues itself. -/
theorem trace_grows_refl (s : St) : trace_grows s s := ⟨[], by simp⟩

/-- Continuation of traces is transitive. -/
theorem trace_grows_trans {s t u : St} (h1 : trace_grows s t) (h2 : trace_grows t u) :
    trace_grows s u := by
  obtain ⟨r1, e1⟩ := h1
  obtain ⟨r2, e2⟩ := h2
  exact ⟨r1 ++ r2, by rw [e2, e1, List.append_assoc]⟩

/-- A traced call continues the trace. -/
theorem trace_grows_emit {s t : St} (e : Effect) (h : trace_grows s t) :
    trace_grows s (emit e t) := by
  obtain ⟨r, e1⟩ := h
  exact ⟨r ++ [e], by simp [emit, e1]⟩

/-- Setting the crash marker keeps the trace. -/
theorem trace_grows_crash {s t : St} (h : trace_grows s t) :
    trace_grows s { t with crashed := true } := h

/-- `RequestWeatherUpdate` continues the trace. -/
theorem trace_grows_RequestWeatherUpdate {s t : St} (env : Env) (force : Bool)
    (h : trace_grows s t) : trace_grows s (RequestWeatherUpdate env force t) := by
  unfold RequestWeatherUpdate
  simp only []
  split_ifs
  · exact h
  · exact h
  · exact h
  · exact trace_grows_emit (t := { t with weather_fetch_in_progress_ := true, weather_last_request_ := env.steady_clock_now t.log }) _ h
  · exact trace_grows_emit (t := { t with weather_fetch_in_progress_ := true, weather_last_request_ := env.steady_clock_now t.log }) _ h

/-- `UpdateIdleDisplay` continues the trace. -/
theorem trace_grows_UpdateIdleDisplay {s t : St} (h : trace_grows s t) :
    trace_grows s (UpdateIdleDisplay t) := by
  unfold UpdateIdleDisplay
  split_ifs <;> exact trace_grows_emit _ h

/-- `SetDeviceState` continues the trace of the state it is called in. -/
theorem trace_grows_SetDeviceState_self (env : Env) (B : DeviceState) (s : St) :
    trace_grows s (SetDeviceState env B s) := by
  have h0 : trace_grows s { s with clock_ticks_ := 0, device_state_ := B } := ⟨[], by simp⟩
  unfold SetDeviceState
  by_cases hs : s.device_state_ = B
  · rw [if_pos hs]
    exact trace_grows_refl s
  · rw [if_neg hs]
    cases B <;>
      simp only [ne_eq, reduceCtorEq, not_false_eq_true, not_true_eq_false, if_true, if_false] <;>
      (try split_ifs) <;>
      repeat (first
        | with_reducible exact h0
        | with_reducible apply trace_grows_emit
        | with_reducible apply trace_grows_RequestWeatherUpdate
        | with_reducible apply trace_grows_UpdateIdleDisplay
        | with_reducible apply trace_grows_crash)

/-- `SetDeviceState` continues the trace. -/
theorem trace_grows_SetDeviceState {s t : St} (env : Env) (B : DeviceState)
    (h : trace_grows s t) : trace_grows s (SetDeviceState env B t) :=
  trace_grows_trans h (trace_grows_SetDeviceState_self env B t)

/-- `Alert` continues the trace. -/
theorem trace_grows_Alert {s t : St} (status message emotion sound : String)
    (h : trace_grows s t) : trace_grows s (Alert status message emotion sound t) := by
  rw [Alert_eq]
  obtain ⟨r, e1⟩ := h
  exact ⟨r ++ alert_trace status message emotion sound, by simp [e1]⟩

/-- A delay continues the trace. -/
theorem trace_grows_vTaskDelay {s t : St} (env : Env) (ms : Nat)
    (h : trace_grows s t) : trace_grows s (vTaskDelay env ms t) := by
  unfold vTaskDelay
  simp only []
  split_ifs
  · exact trace_grows_SetDeviceState env _ (trace_grows_emit _ h)
  · exact trace_grows_emit _ h

/-- Closing the audio channel, if open, continues the trace. -/
theorem trace_grows_closeChannelIfOpened {s t : St} (env : Env)
    (h : trace_grows s t) : trace_grows s (closeChannelIfOpened env t) := by
  unfold closeChannelIfOpened
  simp only []
  split_ifs
  · exact trace_grows_emit _ (trace_grows_emit _ h)
  · exact trace_grows_emit _ h
  · exact h

/-- `Reboot` continues the trace. -/
theorem trace_grows_Reboot {s t : St} (env : Env)
    (h : trace_grows s t) : trace_grows s (Reboot env t) := by
  unfold Reboot
  have h1 : trace_grows s { closeChannelIfOpened env t with protocol_ := false } :=
    trace_grows_closeChannelIfOpened env h
  exact trace_grows_crash
    (trace_grows_emit _ (trace_grows_vTaskDelay env 1000 (trace_grows_emit _ h1)))

/-- `UpgradeFirmware` continues the trace. -/
theorem trace_grows_UpgradeFirmware {s t : St} (env : Env) (url : String)
    (h : trace_grows s t) : trace_grows s (UpgradeFirmware env url t).2 := by
  unfold UpgradeFirmware
  simp only []
  split_ifs <;>
    repeat (first
      | with_reducible exact h
      | with_reducible apply trace_grows_emit
      | with_reducible apply trace_grows_vTaskDelay
      | with_reducible apply trace_grows_Alert
      | with_reducible apply trace_grows_SetDeviceState
      | with_reducible apply trace_grows_Reboot
      | with_reducible apply trace_grows_closeChannelIfOpened)

/-- `UpgradeFirmware` returns what `StartUpgradeFromUrl` answered. -/
theorem UpgradeFirmware_returns_false (env : Env) (url : String) (s : St)
    (hup : ∀ l u, env.StartUpgradeFromUrl l u = false) :
    (UpgradeFirmware env url s).1 = false := by
  unfold UpgradeFirmware
  simp only [hup, Bool.not_false, if_true]

/-- Announcing the digits of the activation code continues the trace. -/
theorem trace_grows_digits (env : Env) (digits : List Char) {s t : St}
    (h : trace_grows s t) :
    trace_grows s
      (digits.foldl
        (fun s digit =>
          if digit.isDigit then emit (Effect.audio_PlaySound (env.OGG_DIGIT (digit.toNat - 48))) s
          else s)
        t) := by
  induction digits generalizing t with
  | nil => exact h
  | cons d ds ih =>
    rw [List.foldl_cons]
    apply ih
    split_ifs
    · exact trace_grows_emit _ h
    · exact h

/-- `ShowActivationCode` continues the trace. -/
theorem trace_grows_ShowActivationCode {s t : St} (env : Env) (code message : String)
    (h : trace_grows s t) : trace_grows s (ShowActivationCode env code message t) := by
  unfold ShowActivationCode
  exact trace_grows_digits env _ (trace_grows_Alert _ _ _ _ h)

/-- The wait loop continues the trace. -/
theorem trace_grows_wait (env : Env) (n : Nat) {s t : St}
    (h : trace_grows s t) : trace_grows s (CheckNewVersion.wait env n t) := by
  induction n generalizing t with
  | zero => exact h
  | succ n ih =>
    rw [CheckNewVersion.wait]
    split_ifs
    · exact trace_grows_vTaskDelay env 1000 h
    · exact ih (trace_grows_vTaskDelay env 1000 h)

/-- The activation polls continue the trace. -/
theorem trace_grows_activate (env : Env) (n : Nat) (s : St) (a : App)
    (h : trace_grows s a.st) : trace_grows s (CheckNewVersion.activate env n a).st := by
  induction n generalizing a with
  | zero => exact h
  | succ n ih =>
    rw [CheckNewVersion.activate]
    simp only []
    have h1 : trace_grows s (a.onSt (emit Effect.ota_Activate)).st := trace_grows_emit _ h
    split
    · exact h1
    · have h2 : trace_grows s ((a.onSt (emit Effect.ota_Activate)).onSt (vTaskDelay env 3000)).st :=
        trace_grows_vTaskDelay env 3000 h1
      split_ifs
      · exact h2
      · exact ih _ h2
    · have h2 : trace_grows s ((a.onSt (emit Effect.ota_Activate)).onSt (vTaskDelay env 10000)).st :=
        trace_grows_vTaskDelay env 10000 h1
      split_ifs
      · exact h2
      · exact ih _ h2

/-- Every iteration calls `CheckVersion` in `Activating`, and whatever follows
in the iteration continues the trace from there. -/
theorem trace_grows_body (env : Env) (rc rd : Nat) (a : App) :
    trace_grows (CheckNewVersion.checked env a.st)
      (LoopStep.app (CheckNewVersion.body env rc rd a)).st := by
  have h0 : trace_grows (CheckNewVersion.checked env a.st)
      (emit Effect.ota_CheckVersion
        (emit (Effect.display_SetStatus env.CHECKING_NEW_VERSION)
          (SetDeviceState env DeviceState.kDeviceStateActivating a.st))) :=
    trace_grows_refl _
  unfold CheckNewVersion.body
  simp only []
  split_ifs <;> simp only [LoopStep.app] <;>
    repeat (first
      | with_reducible exact h0
      | with_reducible apply trace_grows_activate
      | with_reducible apply trace_grows_ShowActivationCode
      | with_reducible apply trace_grows_emit
      | with_reducible apply trace_grows_wait
      | with_reducible apply trace_grows_Alert
      | with_reducible apply trace_grows_UpgradeFirmware)

/-- The five ways an iteration of the version check ends. -/
theorem body_cases (env : Env) (rc rd : Nat) (a : App) :
    CheckNewVersion.body env rc rd a =
      if CheckNewVersion.check_ok env a.st = false then
        if MAX_RETRY ≤ rc + 1 then LoopStep.returned { a with st := CheckNewVersion.checked env a.st }
        else
          LoopStep.again (rc + 1) (rd * 2)
            { a with st := CheckNewVersion.wait env rd (CheckNewVersion.alerted env rd a.st) }
      else if (CheckNewVersion.upgraded env a.st).1 = true then
        LoopStep.returned { a with st := (CheckNewVersion.upgraded env a.st).2 }
      else if CheckNewVersion.activation_pending env a.st = false then
        LoopStep.returned
          { a with
            st := CheckNewVersion.marked env a.st
            event_group_ := { a.event_group_ with MAIN_EVENT_CHECK_NEW_VERSION_DONE := true } }
      else
        LoopStep.again 0 10
          (CheckNewVersion.activate env 10 { a with st := CheckNewVersion.announced env a.st }) := by
  unfold CheckNewVersion.body CheckNewVersion.check_ok CheckNewVersion.upgraded
    CheckNewVersion.activation_pending CheckNewVersion.announced CheckNewVersion.alerted
    CheckNewVersion.marked CheckNewVersion.upgraded CheckNewVersion.checked
  simp only []
  split_ifs <;> simp_all

/-- With every check succeeding, no upgrade succeeding and an activation code
reported each time, no number of iterations ends the loop. -/
theorem loop_never_returns (env : Env) (hcheck : ∀ l, env.CheckVersion l = true)
    (hcode : ∀ l, env.HasActivationCode l = true)
    (hup : (∀ l, env.HasNewVersion l = false) ∨ ∀ l u, env.StartUpgradeFromUrl l u = false)
    (fuel rc rd : Nat) (a : App) : CheckNewVersion.loop env fuel rc rd a = none := by
  induction fuel generalizing rc rd a with
  | zero => rfl
  | succ fuel ih =>
    have h1 : ¬ CheckNewVersion.check_ok env a.st = false := by
      simp [CheckNewVersion.check_ok, hcheck]
    have h2 : ¬ (CheckNewVersion.upgraded env a.st).1 = true := by
      unfold CheckNewVersion.upgraded
      rcases hup with hnew | hfail
      · simp [hnew]
      · split_ifs
        · simp [UpgradeFirmware_returns_false env _ _ hfail]
        · simp
    have h3 : ¬ CheckNewVersion.activation_pending env a.st = false := by
      simp [CheckNewVersion.activation_pending, hcode]
    rw [CheckNewVersion.loop, body_cases, if_neg h1, if_neg h2, if_neg h3]
    exact ih _ _ _

/-! ## How the version check ends: claim C24 -/

/-- C24: an iteration of `CheckNewVersion` returns exactly when the check
failed for the tenth time in a row, or the check succeeded and the upgrade
succeeded, or the check succeeded, no upgrade succeeded and the server reports
neither an activation code nor a challenge.  With a code or challenge pending
the iteration ends in another iteration with the counters reset, whatever the
activation polls did.  Every iteration enters `Activating` and calls
`CheckVersion`, and the rest of the iteration continues that trace.  With every
check succeeding, no upgrade succeeding and a code reported each time, the
loop is still running after any number of iterations. -/
theorem CheckNewVersion_returns_in_three_cases (env : Env) :
    (∀ rc rd a,
      (∃ a', CheckNewVersion.body env rc rd a = LoopStep.returned a') ↔
        (CheckNewVersion.check_ok env a.st = false ∧ MAX_RETRY ≤ rc + 1) ∨
        (CheckNewVersion.check_ok env a.st = true ∧
          (CheckNewVersion.upgraded env a.st).1 = true) ∨
        (CheckNewVersion.check_ok env a.st = true ∧
          (CheckNewVersion.upgraded env a.st).1 = false ∧
          CheckNewVersion.activation_pending env a.st = false)) ∧
    (∀ rc rd a, CheckNewVersion.check_ok env a.st = true →
      (CheckNewVersion.upgraded env a.st).1 = false →
      CheckNewVersion.activation_pending env a.st = true →
      CheckNewVersion.body env rc rd a =
          LoopStep.again 0 10
            (CheckNewVersion.activate env 10 { a with st := CheckNewVersion.announced env a.st }) ∧
        ∀ fuel, CheckNewVersion.loop env (fuel + 1) rc rd a =
          CheckNewVersion.loop env fuel 0 10
            (CheckNewVersion.activate env 10
              { a with st := CheckNewVersion.announced env a.st })) ∧
    (∀ rc rd a,
      (CheckNewVersion.checked env a.st).device_state_ = DeviceState.kDeviceStateActivating ∧
      (CheckNewVersion.checked env a.st).log =
        (SetDeviceState env DeviceState.kDeviceStateActivating a.st).log ++
          [Effect.display_SetStatus env.CHECKING_NEW_VERSION, Effect.ota_CheckVersion] ∧
      trace_grows (CheckNewVersion.checked env a.st)
        (LoopStep.app (CheckNewVersion.body env rc rd a)).st) ∧
    ((∀ l, env.CheckVersion l = true) → (∀ l, env.HasActivationCode l = true) →
      ((∀ l, env.HasNewVersion l = false) ∨ ∀ l u, env.StartUpgradeFromUrl l u = false) →
      ∀ fuel a, CheckNewVersion env fuel a = none) := by
  refine ⟨?_, ?_, ?_, ?_⟩
  · intro rc rd a
    rw [body_cases]
    cases h1 : CheckNewVersion.check_ok env a.st <;>
      cases h2 : (CheckNewVersion.upgraded env a.st).1 <;>
      cases h3 : CheckNewVersion.activation_pending env a.st <;>
      by_cases h4 : MAX_RETRY ≤ rc + 1 <;>
      simp [h4]
  · intro rc rd a h1 h2 h3
    have e : CheckNewVersion.body env rc rd a =
        LoopStep.again 0 10
          (CheckNewVersion.activate env 10 { a with st := CheckNewVersion.announced env a.st }) := by
      rw [body_cases]
      simp [h1, h2, h3]
    refine ⟨e, fun fuel => ?_⟩
    rw [CheckNewVersion.loop, e]
  · intro rc rd a
    refine ⟨?_, ?_, trace_grows_body env rc rd a⟩
    · exact SetDeviceState_device_state env _ _
    · simp [CheckNewVersion.checked, emit]
  · intro hcheck hcode hup fuel a
    exact loop_never_returns env hcheck hcode hup fuel 0 10 a

theorem CheckNewVersion_returns_in_three_cases_witness :
    CheckNewVersion env_activation_code 25
      (sample_app (sample_st DeviceState.kDeviceStateStarting (fetched_at 0 0)) [] no_bits) = none :=
  (CheckNewVersion_returns_in_three_cases env_activation_code).2.2.2 (fun _ => rfl) (fun _ => rfl)
    (Or.inl fun _ => rfl) 25 _

/-- In the sample run one iteration announces the code, polls `Activate` once
with success, and goes round again. -/
theorem body_sample_activation_succeeds :
    LoopStep.next (CheckNewVersion.body env_activation_code 3 80
      (sample_app (sample_st DeviceState.kDeviceStateStarting (fetched_at 0 0)) [] no_bits)) =
        some (0, 10) ∧
      (LoopStep.app (CheckNewVersion.body env_activation_code 3 80
        (sample_app (sample_st DeviceState.kDeviceStateStarting (fetched_at 0 0)) [] no_bits))
        ).event_group_.MAIN_EVENT_CHECK_NEW_VERSION_DONE = true := by
  decide

/-! ## Lemmas for the tool list -/

theorem std_back_append (a b : String) (h : b ≠ "") : std_back (a ++ b) = std_back b := by
  unfold std_back
  have hb : b.data ≠ [] := fun e => h (String.ext e)
  rw [String.data_append, List.getLast?_append_of_ne_nil _ hb]

theorem std_pop_back_append_comma (a : String) : std_pop_back (a ++ ",") = a := by
  unfold std_pop_back
  apply String.ext
  simp [String.data_append]

theorem loop_skip (to_json : McpTool → String) (cursor : String) (flag : Bool)
    (tools : List McpTool) (json : String) :
    McpServer.GetToolsList.loop to_json cursor flag tools false json =
      McpServer.GetToolsList.loop to_json cursor flag
        (tools.dropWhile fun t => t.name != cursor) true json := by
  induction tools with
  | nil => rfl
  | cons t rest ih =>
    by_cases h : (t.name != cursor) = true
    · rw [List.dropWhile_cons, McpServer.GetToolsList.loop]
      simp only [Bool.not_false, Bool.true_and, h, if_true]
      exact ih
    · rw [List.dropWhile_cons, if_neg h, McpServer.GetToolsList.loop, McpServer.GetToolsList.loop]
      simp [h]

theorem loop_from_cursor (to_json : McpTool → String) (cursor : String) (flag : Bool)
    (tools : List McpTool) (json : String) :
    McpServer.GetToolsList.loop to_json cursor flag tools cursor.isEmpty json =
      McpServer.GetToolsList.loop to_json cursor flag (from_cursor cursor tools) true json := by
  unfold from_cursor
  cases h : cursor.isEmpty with
  | true => simp
  | false =>
    simp only [Bool.false_eq_true, if_false]
    exact loop_skip to_json cursor flag tools json

theorem loop_found (to_json : McpTool → String) (cursor : String) (flag : Bool)
    (S : List McpTool) (json : String) :
    McpServer.GetToolsList.loop to_json cursor flag S true json =
      (json ++ tools_joined to_json (split_page to_json flag json.length S).1,
        next_cursor_of (split_page to_json flag json.length S).2) := by
  induction S generalizing json with
  | nil => simp [McpServer.GetToolsList.loop, split_page, tools_joined, next_cursor_of]
  | cons t rest ih =>
    rw [McpServer.GetToolsList.loop, split_page]
    by_cases he : eligible flag t = true
    · have he' : ¬ ((!flag && t.user_only) = true) := by
        unfold eligible at he
        cases flag <;> cases hu : t.user_only <;> simp_all
      simp only [Bool.not_true, Bool.false_and, Bool.false_eq_true, if_false, he', he]
      by_cases hs : json.length + ((to_json t).length + 1) + 30 > max_payload_size
      · have hs' : json.length + (to_json t ++ ",").length + 30 > max_payload_size := by
          have hcomma : ",".length = 1 := rfl
          simpa [String.length_append, hcomma] using hs
        simp only [hs, hs', if_true]
        simp [tools_joined, next_cursor_of]
      · have hs' : ¬ json.length + (to_json t ++ ",").length + 30 > max_payload_size := by
          have hcomma : ",".length = 1 := rfl
          simpa [String.length_append, hcomma] using hs
        simp only [hs, hs', if_false]
        rw [ih]
        have hcomma : ",".length = 1 := rfl
        have hl : (json ++ (to_json t ++ ",")).length = json.length + ((to_json t).length + 1) := by
          simp [String.length_append, hcomma]
        rw [hl]
        simp [tools_joined, String.append_assoc]
    · have he' : (!flag && t.user_only) = true := by
        unfold eligible at he
        cases flag <;> cases hu : t.user_only <;> simp_all
      simp only [Bool.not_true, Bool.false_and, Bool.false_eq_true, if_false, he', if_true]
      rw [ih]
      simp [he]

theorem std_back_ne_empty (s : String) (c : Char) (h : std_back s = some c) : s ≠ "" := by
  intro e
  rw [e] at h
  simp [std_back] at h

theorem comma_separated_back (f : McpTool → String) (c : Char) (p : List McpTool) (hp : p ≠ [])
    (h : ∀ t ∈ p, std_back (f t) = some c) :
    std_back (comma_separated (p.map f)) = some c := by
  induction p with
  | nil => exact absurd rfl hp
  | cons x rest ih =>
    cases rest with
    | nil => exact h x (by simp)
    | cons y rest =>
      have h1 : std_back (comma_separated ((y :: rest).map f)) = some c :=
        ih (by simp) fun t ht => h t (List.mem_cons_of_mem _ ht)
      show std_back (f x ++ "," ++ comma_separated ((y :: rest).map f)) = some c
      rw [std_back_append _ _ (std_back_ne_empty _ c h1)]
      exact h1

theorem tools_joined_eq (f : McpTool → String) (p : List McpTool) (hp : p ≠ []) :
    tools_joined f p = comma_separated (p.map f) ++ "," := by
  induction p with
  | nil => exact absurd rfl hp
  | cons x rest ih =>
    cases rest with
    | nil => simp [tools_joined, comma_separated]
    | cons y rest =>
      rw [tools_joined, ih (by simp)]
      simp [comma_separated, String.append_assoc]

theorem split_page_mem (to_json : McpTool → String) (flag : Bool) (len : Nat) (S : List McpTool)
    (t : McpTool) (h : t ∈ (split_page to_json flag len S).1) : t ∈ S := by
  induction S generalizing len with
  | nil => simp [split_page] at h
  | cons x rest ih =>
    rw [split_page] at h
    split_ifs at h
    · exact List.mem_cons_of_mem _ (ih len h)
    · simp at h
    · rcases List.mem_cons.mp h with e | h'
      · rw [e]; exact List.mem_cons_self _ _
      · exact List.mem_cons_of_mem _ (ih _ h')

theorem from_cursor_mem (cursor : String) (tools : List McpTool) (t : McpTool)
    (h : t ∈ from_cursor cursor tools) : t ∈ tools := by
  unfold from_cursor at h
  split_ifs at h
  · exact h
  · exact (List.dropWhile_sublist _).subset h

theorem from_cursor_nil (cursor : String) : from_cursor cursor [] = [] := by
  unfold from_cursor
  split_ifs <;> rfl

theorem GetToolsList_reply_eq (to_json : McpTool → String) (tools : List McpTool) (id : Int)
    (cursor : String) (flag : Bool)
    (hjson : ∀ t ∈ tools, std_back (to_json t) = some '\x7d') :
    McpServer.GetToolsList.reply to_json tools id cursor flag =
      if (split_page to_json flag 10 (from_cursor cursor tools)).1.isEmpty && !tools.isEmpty then
        Reply.ReplyError id
          ("Failed to add tool " ++
            next_cursor_of (split_page to_json flag 10 (from_cursor cursor tools)).2 ++
            " because of payload size limit")
      else
        Reply.ReplyResult id
          (tools_result to_json (split_page to_json flag 10 (from_cursor cursor tools)).1
            (next_cursor_of (split_page to_json flag 10 (from_cursor cursor tools)).2)) := by
  have hlen : ("\x7b\"tools\":[" : String).length = 10 := by decide
  unfold McpServer.GetToolsList.reply
  simp only []
  rw [loop_from_cursor, loop_found, hlen]
  simp only []
  generalize hp : (split_page to_json flag 10 (from_cursor cursor tools)).1 = p
  generalize hr : (split_page to_json flag 10 (from_cursor cursor tools)).2 = r
  cases p with
  | nil =>
    have h0 : ("\x7b\"tools\":[" : String) ++ tools_joined to_json [] = "\x7b\"tools\":[" := by
      simp [tools_joined]
    have h1 : std_back ("\x7b\"tools\":[" : String) = some '[' := by decide
    have h2 : ¬ ((some '[' : Option Char) = some ',') := by decide
    rw [h0, h1, if_neg h2, h1]
    cases tools with
    | nil =>
      rw [from_cursor_nil] at hr
      simp only [split_page] at hr
      subst hr
      simp only [next_cursor_of, tools_result, comma_separated, List.map_nil, List.isEmpty_nil,
        Bool.not_true, Bool.and_false, Bool.false_eq_true, if_false]
      have he : ("" : String).isEmpty = true := rfl
      simp only [he, if_true]
      congr 1
    | cons t rest => simp
  | cons x rest =>
    have hmem : ∀ t ∈ x :: rest, std_back (to_json t) = some '\x7d' := by
      intro t ht
      rw [← hp] at ht
      exact hjson t (from_cursor_mem _ _ _ (split_page_mem _ _ _ _ _ ht))
    have hcs := comma_separated_back to_json '\x7d' (x :: rest) (by simp) hmem
    rw [tools_joined_eq to_json (x :: rest) (by simp)]
    have h1 : std_back ("\x7b\"tools\":[" ++ (comma_separated ((x :: rest).map to_json) ++ ",")) =
        some ',' := by
      rw [← String.append_assoc, std_back_append _ _ (by decide)]
      decide
    rw [h1]
    simp only [if_true]
    rw [← String.append_assoc, std_pop_back_append_comma,
      std_back_append _ _ (std_back_ne_empty _ _ hcs), hcs]
    simp only [List.isEmpty_cons, Bool.false_and, Bool.false_eq_true, if_false]
    have h2 : ¬ ((some '\x7d' : Option Char) = some '[') := by decide
    simp only [h2, decide_False, Bool.false_and, Bool.false_eq_true, if_false]
    unfold tools_result
    split_ifs <;> simp [String.append_assoc]

theorem split_page_fst_isEmpty (to_json : McpTool → String) (flag : Bool) (len : Nat)
    (S : List McpTool) :
    (split_page to_json flag len S).1.isEmpty = true ↔
      S.filter (eligible flag) = [] ∨
        ∃ t, (S.filter (eligible flag)).head? = some t ∧
          len + ((to_json t).length + 1) + 30 > max_payload_size := by
  induction S with
  | nil => simp [split_page]
  | cons x rest ih =>
    rw [split_page]
    by_cases he : eligible flag x = true
    · simp only [he, Bool.not_true, Bool.false_eq_true, if_false, List.filter_cons_of_pos]
      by_cases hs : len + ((to_json x).length + 1) + 30 > max_payload_size
      · simp [hs]
      · simp [hs]
    · have he' : eligible flag x = false := by simpa using he
      simp only [he', Bool.not_false, if_true]
      rw [ih, List.filter_cons_of_neg (by simp [he'])]

theorem split_page_filter (to_json : McpTool → String) (flag : Bool) (len : Nat)
    (S : List McpTool) :
    (split_page to_json flag len S).1 ++ (split_page to_json flag len S).2.filter (eligible flag) =
      S.filter (eligible flag) := by
  induction S generalizing len with
  | nil => simp [split_page]
  | cons x rest ih =>
    rw [split_page]
    by_cases he : eligible flag x = true
    · simp only [he, Bool.not_true, Bool.false_eq_true, if_false]
      split_ifs
      · simp [he]
      · simp [he, ih]
    · simp only [Bool.not_eq_true] at he
      simp [he, ih]

theorem split_page_suffix (to_json : McpTool → String) (flag : Bool) (len : Nat)
    (S : List McpTool) :
    ∃ mid, S = mid ++ (split_page to_json flag len S).2 ∧
      (split_page to_json flag len S).1.length ≤ mid.length := by
  induction S generalizing len with
  | nil => exact ⟨[], by simp [split_page]⟩
  | cons x rest ih =>
    rw [split_page]
    split_ifs
    · obtain ⟨mid, h1, h2⟩ := ih len
      exact ⟨x :: mid, by rw [List.cons_append, ← h1], by simp; omega⟩
    · exact ⟨[], by simp⟩
    · obtain ⟨mid, h1, h2⟩ := ih (len + ((to_json x).length + 1))
      exact ⟨x :: mid, by rw [List.cons_append, ← h1], by simp; omega⟩

theorem split_page_snd_head (to_json : McpTool → String) (flag : Bool) (len : Nat)
    (S : List McpTool) (u : McpTool) (post : List McpTool)
    (h : (split_page to_json flag len S).2 = u :: post) : eligible flag u = true := by
  induction S generalizing len with
  | nil => simp [split_page] at h
  | cons x rest ih =>
    rw [split_page] at h
    split_ifs at h with h1 h2
    · exact ih len h
    · simp only [List.cons.injEq] at h
      rw [← h.1]
      simpa using h1
    · exact ih _ h

theorem from_cursor_resume (tools pre post : List McpTool) (u : McpTool)
    (hnodup : (tools.map McpTool.name).Nodup) (hname : u.name ≠ "")
    (h : tools = pre ++ u :: post) : from_cursor u.name tools = u :: post := by
  have hne : u.name.isEmpty = false := by
    cases hb : u.name.isEmpty with
    | false => rfl
    | true => exact absurd ((String.isEmpty_iff _).mp hb) hname
  unfold from_cursor
  rw [hne]
  simp only [Bool.false_eq_true, if_false]
  subst h
  induction pre with
  | nil => simp [List.dropWhile_cons]
  | cons x pre ih =>
    have hx : x.name ≠ u.name := by
      intro e
      rw [List.cons_append, List.map_cons, List.nodup_cons] at hnodup
      apply hnodup.1
      rw [e]
      exact List.mem_map_of_mem _ (by simp)
    rw [List.cons_append, List.dropWhile_cons, if_pos (by simpa using hx)]
    apply ih
    simp only [List.cons_append, List.map_cons, List.nodup_cons] at hnodup
    exact hnodup.2

theorem isEmpty_false_of_ne (s : String) (h : s ≠ "") : s.isEmpty = false := by
  cases hb : s.isEmpty with
  | false => rfl
  | true => exact absurd ((String.isEmpty_iff _).mp hb) h

theorem client_pages (to_json : McpTool → String) (tools : List McpTool) (id : Int) (flag : Bool)
    (hnodup : (tools.map McpTool.name).Nodup) (hname : ∀ t ∈ tools, t.name ≠ "")
    (hfit : ∀ t ∈ tools, eligible flag t = true → fits_in_page to_json t)
    (hjson : ∀ t ∈ tools, std_back (to_json t) = some '\x7d') (n : Nat) :
    ∀ (S : List McpTool) (cursor : String), S.length ≤ n → (∃ pre, tools = pre ++ S) →
      from_cursor cursor tools = S → S.filter (eligible flag) ≠ [] →
      ∃ pages : List (List McpTool × String),
        pages.length ≤ S.length ∧
        (∀ pg ∈ pages, pg.1 ≠ []) ∧
        (pages.map Prod.fst).flatten = S.filter (eligible flag) ∧
        ∀ fuel, pages.length ≤ fuel →
          tools_list_client to_json tools id flag fuel cursor =
            some (pages.map fun pg => Reply.ReplyResult id (tools_result to_json pg.1 pg.2)) := by
  induction n with
  | zero =>
    intro S cursor hlen _ _ hE
    have : S = [] := List.length_eq_zero.mp (Nat.le_zero.mp hlen)
    subst this
    exact absurd rfl hE
  | succ n ih =>
    intro S cursor hlen hpre hfrom hE
    obtain ⟨pre, hpre⟩ := hpre
    have hSsub : ∀ t ∈ S, t ∈ tools := fun t ht => by rw [hpre]; exact List.mem_append_right _ ht
    have hp : (split_page to_json flag 10 S).1.isEmpty = false := by
      cases hb : (split_page to_json flag 10 S).1.isEmpty with
      | false => rfl
      | true =>
        exfalso
        rcases (split_page_fst_isEmpty to_json flag 10 S).mp hb with h1 | ⟨t, h1, h2⟩
        · exact hE h1
        · have ht : t ∈ S.filter (eligible flag) := List.mem_of_mem_head? h1
          have ht' := List.mem_filter.mp ht
          have := hfit t (hSsub t ht'.1) ht'.2
          unfold fits_in_page at this
          omega
    have hlen10 : ("\x7b\"tools\":[" : String).length = 10 := by decide
    have hreply : McpServer.GetToolsList.reply to_json tools id cursor flag =
        Reply.ReplyResult id (tools_result to_json (split_page to_json flag 10 S).1
          (next_cursor_of (split_page to_json flag 10 S).2)) := by
      rw [GetToolsList_reply_eq to_json tools id cursor flag hjson, hfrom, hp]
      simp
    have hnext : (McpServer.GetToolsList.loop to_json cursor flag tools cursor.isEmpty
        "\x7b\"tools\":[").2 = next_cursor_of (split_page to_json flag 10 S).2 := by
      rw [loop_from_cursor, hfrom, loop_found, hlen10]
    obtain ⟨mid, hmid, hmidlen⟩ := split_page_suffix to_json flag 10 S
    have hfilter := split_page_filter to_json flag 10 S
    have hplen : 0 < (split_page to_json flag 10 S).1.length := by
      cases hq : (split_page to_json flag 10 S).1 with
      | nil => rw [hq] at hp; simp at hp
      | cons _ _ => simp
    have hpne : (split_page to_json flag 10 S).1 ≠ [] := by
      intro e
      rw [e] at hplen
      simp at hplen
    cases hr : (split_page to_json flag 10 S).2 with
    | nil =>
      refine ⟨[((split_page to_json flag 10 S).1, "")], ?_, ?_, ?_, ?_⟩
      · have : 0 < S.length := by
          rw [hmid, List.length_append]; omega
        simpa using this
      · intro pg hpg
        simp only [List.mem_singleton] at hpg
        rw [hpg]
        exact hpne
      · rw [hr] at hfilter
        simpa using hfilter
      · intro fuel hfuel
        cases fuel with
        | zero => simp at hfuel
        | succ fuel =>
          rw [tools_list_client, hreply]
          simp only [hnext, hr, next_cursor_of]
          rfl
    | cons u post =>
      have hu : eligible flag u = true := split_page_snd_head to_json flag 10 S u post hr
      have htools : tools = (pre ++ mid) ++ u :: post := by
        rw [hpre, hmid, hr, List.append_assoc]
      have humem : u ∈ tools := by rw [htools]; simp
      have hresume := from_cursor_resume tools (pre ++ mid) post u hnodup (hname u humem) htools
      have hlen' : (u :: post).length ≤ n := by
        have h1 : S.length = mid.length + (u :: post).length := by
          rw [hmid, hr, List.length_append]
        omega
      have hE' : (u :: post).filter (eligible flag) ≠ [] := by
        rw [List.filter_cons_of_pos hu]
        simp
      obtain ⟨pages, hpl, hpgne, hflat, hclient⟩ :=
        ih (u :: post) u.name hlen' ⟨pre ++ mid, htools⟩ hresume hE'
      refine ⟨((split_page to_json flag 10 S).1, u.name) :: pages, ?_, ?_, ?_, ?_⟩
      · have h1 : S.length = mid.length + (u :: post).length := by
          rw [hmid, hr, List.length_append]
        simp only [List.length_cons] at hpl h1 ⊢
        omega
      · intro pg hpg
        rcases List.mem_cons.mp hpg with e | hpg
        · rw [e]; exact hpne
        · exact hpgne pg hpg
      · rw [hr] at hfilter
        simp only [List.map_cons, List.flatten_cons, hflat]
        exact hfilter
      · intro fuel hfuel
        cases fuel with
        | zero => simp at hfuel
        | succ fuel =>
          rw [tools_list_client, hreply]
          simp only [hnext, hr, next_cursor_of, isEmpty_false_of_ne _ (hname u humem),
            Bool.false_eq_true, if_false]
          rw [hclient fuel (by simpa using hfuel)]
          rfl

theorem split_page_snd_nil (to_json : McpTool → String) (flag : Bool) (len : Nat)
    (S : List McpTool) (h : S.filter (eligible flag) = []) :
    (split_page to_json flag len S).2 = [] := by
  cases hr : (split_page to_json flag len S).2 with
  | nil => rfl
  | cons u post =>
    exfalso
    have hu := split_page_snd_head to_json flag len S u post hr
    have hf := split_page_filter to_json flag len S
    rw [h, hr, List.filter_cons_of_pos hu] at hf
    simp at hf

theorem sample_to_json_back (t : McpTool) : std_back (sample_to_json t) = some '\x7d' := by
  unfold sample_to_json
  rw [std_back_append _ _ (by decide)]
  decide

theorem sample_to_json_length (t : McpTool) :
    (sample_to_json t).length = 28 + t.name.length + t.description.length := by
  have h1 : ("\x7b\"name\":\"" : String).length = 9 := by decide
  have h2 : ("\",\"description\":\"" : String).length = 17 := by decide
  have h3 : ("\"\x7d" : String).length = 2 := by decide
  unfold sample_to_json
  simp only [String.length_append, h1, h2, h3]
  omega

theorem tool_fills_page_length : (sample_to_json tool_fills_page).length = 7959 := by
  rw [sample_to_json_length]
  have h1 : tool_fills_page.name.length = 1 := by decide
  have h2 : tool_fills_page.description.length = 7930 := by
    show (List.replicate 7930 'x').length = 7930
    exact List.length_replicate _ _
  rw [h1, h2]

theorem split_page_two (to_json : McpTool → String) (flag : Bool) (x y : McpTool)
    (hx : eligible flag x = true) (hy : eligible flag y = true)
    (h1 : 10 + ((to_json x).length + 1) + 30 ≤ max_payload_size)
    (h2 : 10 + ((to_json x).length + 1) + ((to_json y).length + 1) + 30 > max_payload_size) :
    split_page to_json flag 10 [x, y] = ([x], [y]) := by
  have h1' : ¬ (10 + ((to_json x).length + 1) + 30 > max_payload_size) := by omega
  simp only [split_page, hx, hy, Bool.not_true, Bool.false_eq_true, if_false, h1', h2, if_true]

theorem filter_names_nodup (tools : List McpTool) (flag : Bool)
    (h : (tools.map McpTool.name).Nodup) :
    ((tools.filter (eligible flag)).map McpTool.name).Nodup :=
  List.Nodup.sublist ((List.filter_sublist _).map _) h

/-- With tools registered and none listed from the cursor onward, the reply is
the error about the payload size, naming no tool. -/
theorem GetToolsList_reply_none_listed (to_json : McpTool → String) (tools : List McpTool)
    (id : Int) (cursor : String) (flag : Bool)
    (hjson : ∀ t ∈ tools, std_back (to_json t) = some '\x7d')
    (hne : tools ≠ []) (hE : (from_cursor cursor tools).filter (eligible flag) = []) :
    McpServer.GetToolsList.reply to_json tools id cursor flag =
      Reply.ReplyError id "Failed to add tool  because of payload size limit" := by
  rw [GetToolsList_reply_eq to_json tools id cursor flag hjson,
    (split_page_fst_isEmpty to_json flag 10 _).mpr (Or.inl hE),
    split_page_snd_nil to_json flag 10 _ hE]
  cases tools with
  | nil => exact absurd rfl hne
  | cons t rest =>
    simp only [List.isEmpty_cons, Bool.not_false, Bool.and_self, if_true, next_cursor_of]
    rfl

/-- With no tool registered the reply is the empty tools array. -/
theorem GetToolsList_reply_no_tools (to_json : McpTool → String) (id : Int) (cursor : String)
    (flag : Bool) :
    McpServer.GetToolsList.reply to_json [] id cursor flag =
      Reply.ReplyResult id "\x7b\"tools\":[]\x7d" := by
  rw [GetToolsList_reply_eq to_json [] id cursor flag (fun t ht => absurd ht (List.not_mem_nil t))]
  simp only [from_cursor_nil, split_page, List.isEmpty_nil, Bool.not_true, Bool.and_false,
    Bool.false_eq_true, if_false, next_cursor_of, tools_result, List.map_nil, comma_separated]
  rfl

/-- The reply is an error exactly when tools are registered and the page is
empty: no tool is listed from the cursor onward, or the first listed one does
not fit in an empty page. -/
theorem GetToolsList_reply_error_iff (to_json : McpTool → String) (tools : List McpTool)
    (id : Int) (cursor : String) (flag : Bool)
    (hjson : ∀ t ∈ tools, std_back (to_json t) = some '\x7d') :
    (∃ message, McpServer.GetToolsList.reply to_json tools id cursor flag =
        Reply.ReplyError id message) ↔
      tools ≠ [] ∧
        ((from_cursor cursor tools).filter (eligible flag) = [] ∨
          ∃ t, ((from_cursor cursor tools).filter (eligible flag)).head? = some t ∧
            ¬ fits_in_page to_json t) := by
  rw [GetToolsList_reply_eq to_json tools id cursor flag hjson]
  have hfits : ∀ t, (10 + ((to_json t).length + 1) + 30 > max_payload_size) ↔
      ¬ fits_in_page to_json t := by
    intro t
    unfold fits_in_page
    omega
  simp only [← hfits]
  rw [← split_page_fst_isEmpty to_json flag 10 (from_cursor cursor tools)]
  cases hp : (split_page to_json flag 10 (from_cursor cursor tools)).1.isEmpty <;>
    cases tools <;> simp

/-- When every tool fits in a page and one is listed from the cursor onward,
the reply is a result. -/
theorem GetToolsList_reply_result (to_json : McpTool → String) (tools : List McpTool)
    (id : Int) (cursor : String) (flag : Bool)
    (hjson : ∀ t ∈ tools, std_back (to_json t) = some '\x7d')
    (hfit : ∀ t ∈ tools, fits_in_page to_json t)
    (hE : (from_cursor cursor tools).filter (eligible flag) ≠ []) :
    ∃ result, McpServer.GetToolsList.reply to_json tools id cursor flag =
      Reply.ReplyResult id result := by
  have hp : (split_page to_json flag 10 (from_cursor cursor tools)).1.isEmpty = false := by
    cases hb : (split_page to_json flag 10 (from_cursor cursor tools)).1.isEmpty with
    | false => rfl
    | true =>
      exfalso
      rcases (split_page_fst_isEmpty to_json flag 10 _).mp hb with h1 | ⟨t, h1, h2⟩
      · exact hE h1
      · have ht : t ∈ (from_cursor cursor tools).filter (eligible flag) :=
          List.mem_of_mem_head? h1
        have := hfit t (from_cursor_mem _ _ _ (List.mem_filter.mp ht).1)
        unfold fits_in_page at this
        omega
  rw [GetToolsList_reply_eq to_json tools id cursor flag hjson, hp]
  simp only [Bool.false_and, Bool.false_eq_true, if_false]
  exact ⟨_, rfl⟩

/-! ## Listing the tools: claims C26, C27 and C28 -/

/-- C26, as stated, fails for a tool registered under the empty name: the two
tools have distinct names, are both listed and each fits in one page, yet the
first reply carries no `nextCursor`, because the cursor would be the empty
name, and the client never gets the second tool. -/
theorem tools_list_stops_at_empty_name :
    ([tool_fills_page, tool_without_name].map McpTool.name).Nodup ∧
      fits_in_page sample_to_json tool_fills_page ∧
      fits_in_page sample_to_json tool_without_name ∧
      ([tool_fills_page, tool_without_name].filter (eligible true)).length = 2 ∧
      tools_list_client sample_to_json [tool_fills_page, tool_without_name] 1 true 5 "" =
        some [Reply.ReplyResult 1 (tools_result sample_to_json [tool_fills_page] "")] := by
  have hsplit : split_page sample_to_json true 10 [tool_fills_page, tool_without_name] =
      ([tool_fills_page], [tool_without_name]) := by
    apply split_page_two sample_to_json true tool_fills_page tool_without_name rfl rfl
    · rw [tool_fills_page_length]; decide
    · rw [tool_fills_page_length]; unfold max_payload_size; omega
  have hfrom : from_cursor "" [tool_fills_page, tool_without_name] =
      [tool_fills_page, tool_without_name] := by
    unfold from_cursor
    rw [if_pos (by decide)]
  have hreply := GetToolsList_reply_eq sample_to_json [tool_fills_page, tool_without_name] 1 ""
    true (fun t _ => sample_to_json_back t)
  rw [hfrom, hsplit] at hreply
  simp only [List.isEmpty_cons, Bool.false_and, Bool.false_eq_true, if_false, next_cursor_of]
    at hreply
  have hnext : (McpServer.GetToolsList.loop sample_to_json "" true
      [tool_fills_page, tool_without_name] ("" : String).isEmpty "\x7b\"tools\":[").2 = "" := by
    rw [loop_from_cursor, hfrom, loop_found, show ("\x7b\"tools\":[" : String).length = 10 by decide,
      hsplit]
    rfl
  refine ⟨by decide, ?_, ?_, by decide, ?_⟩
  · unfold fits_in_page
    rw [tool_fills_page_length]
    decide
  · unfold fits_in_page
    rw [sample_to_json_length]
    decide
  · rw [tools_list_client, hreply]
    simp only [hnext]
    rfl

/-- C26 (amended): for every tool list with distinct, non-empty names in which
each listed tool's JSON fits in one page (the JSON being an object text),
listing from the empty cursor and following each `nextCursor` ends after at
most as many calls as there are tools; every reply is a result, no page is
empty, and the pages hold, concatenated, every listed tool exactly once and in
registration order.  When no tool is listed the single reply holds no tool. -/
theorem tools_list_pagination_complete (to_json : McpTool → String) (tools : List McpTool)
    (id : Int) (flag : Bool)
    (hnodup : (tools.map McpTool.name).Nodup) (hname : ∀ t ∈ tools, t.name ≠ "")
    (hfit : ∀ t ∈ tools, eligible flag t = true → fits_in_page to_json t)
    (hjson : ∀ t ∈ tools, std_back (to_json t) = some '\x7d') :
    (tools.filter (eligible flag) ≠ [] →
      ∃ pages : List (List McpTool × String),
        pages.length ≤ tools.length ∧
        (∀ pg ∈ pages, pg.1 ≠ []) ∧
        (pages.map Prod.fst).flatten = tools.filter (eligible flag) ∧
        (((pages.map Prod.fst).flatten).map McpTool.name).Nodup ∧
        ∀ fuel, pages.length ≤ fuel →
          tools_list_client to_json tools id flag fuel "" =
            some (pages.map fun pg => Reply.ReplyResult id (tools_result to_json pg.1 pg.2))) ∧
    (tools.filter (eligible flag) = [] →
      ∀ fuel, 1 ≤ fuel →
        tools_list_client to_json tools id flag fuel "" =
          some [if tools.isEmpty then Reply.ReplyResult id (tools_result to_json [] "")
            else Reply.ReplyError id "Failed to add tool  because of payload size limit"]) := by
  have hfrom : from_cursor "" tools = tools := by
    unfold from_cursor
    rw [if_pos (by decide)]
  constructor
  · intro hE
    obtain ⟨pages, h1, h2, h3, h4⟩ :=
      client_pages to_json tools id flag hnodup hname hfit hjson tools.length tools ""
        (le_refl _) ⟨[], rfl⟩ hfrom hE
    refine ⟨pages, h1, h2, h3, ?_, h4⟩
    rw [h3]
    exact filter_names_nodup tools flag hnodup
  · intro hE fuel hfuel
    have hE' : (from_cursor "" tools).filter (eligible flag) = [] := by rw [hfrom]; exact hE
    cases fuel with
    | zero => simp at hfuel
    | succ fuel =>
      cases htools : tools with
      | nil =>
        rw [tools_list_client, GetToolsList_reply_no_tools]
        simp only [McpServer.GetToolsList.loop]
        rfl
      | cons t rest =>
        have hne : tools ≠ [] := by rw [htools]; simp
        have h := GetToolsList_reply_none_listed to_json tools id "" flag hjson hne hE'
        rw [htools] at h
        rw [tools_list_client, h]
        rfl

theorem tools_list_pagination_complete_witness :
    ∃ pages : List (List McpTool × String),
      pages.length ≤ [tool_long_name, tool_for_user].length ∧
      (∀ pg ∈ pages, pg.1 ≠ []) ∧
      (pages.map Prod.fst).flatten = [tool_long_name, tool_for_user].filter (eligible true) ∧
      (((pages.map Prod.fst).flatten).map McpTool.name).Nodup ∧
      ∀ fuel, pages.length ≤ fuel →
        tools_list_client sample_to_json [tool_long_name, tool_for_user] 1 true fuel "" =
          some (pages.map fun pg =>
            Reply.ReplyResult 1 (tools_result sample_to_json pg.1 pg.2)) :=
  (tools_list_pagination_complete sample_to_json [tool_long_name, tool_for_user] 1 true
    (by decide) (by decide)
    (fun t _ _ => by
      unfold fits_in_page
      rw [sample_to_json_length]
      have h1 : t.name.length ≤ 29 := by
        rename_i ht _
        simp only [List.mem_cons, List.mem_singleton, List.not_mem_nil, or_false] at ht
        rcases ht with rfl | rfl <;> decide
      have h2 : t.description.length ≤ 36 := by
        rename_i ht _
        simp only [List.mem_cons, List.mem_singleton, List.not_mem_nil, or_false] at ht
        rcases ht with rfl | rfl <;> decide
      unfold max_payload_size
      omega)
    (fun t _ => sample_to_json_back t)).1
    (fun h => absurd (congrArg List.length h) (by decide))

/-- C27: the tool list `[tool_fills_page, tool_long_name]`, listed from the
empty cursor with user tools, gets a result of 8016 characters: the first tool
fills the page up to the reserve of 30 characters, and the `nextCursor` member
with the 29 characters of the second tool's name needs 47. -/
theorem GetToolsList_result_exceeds_max_payload_size :
    ∃ result,
      McpServer.GetToolsList.reply sample_to_json [tool_fills_page, tool_long_name] 1 "" true =
        Reply.ReplyResult 1 result ∧
      result.length = 8016 ∧ max_payload_size < result.length := by
  have hsplit : split_page sample_to_json true 10 [tool_fills_page, tool_long_name] =
      ([tool_fills_page], [tool_long_name]) := by
    apply split_page_two sample_to_json true tool_fills_page tool_long_name rfl rfl
    · rw [tool_fills_page_length]; decide
    · rw [tool_fills_page_length]; unfold max_payload_size; omega
  have hfrom : from_cursor "" [tool_fills_page, tool_long_name] =
      [tool_fills_page, tool_long_name] := by
    unfold from_cursor
    rw [if_pos (by decide)]
  have hreply := GetToolsList_reply_eq sample_to_json [tool_fills_page, tool_long_name] 1 "" true
    (fun t _ => sample_to_json_back t)
  rw [hfrom, hsplit] at hreply
  simp only [List.isEmpty_cons, Bool.false_and, Bool.false_eq_true, if_false, next_cursor_of]
    at hreply
  have hlen : (tools_result sample_to_json [tool_fills_page] tool_long_name.name).length = 8016 := by
    have h1 : ("\x7b\"tools\":[" : String).length = 10 := by decide
    have h2 : ("],\"nextCursor\":\"" : String).length = 16 := by decide
    have h3 : ("\"\x7d" : String).length = 2 := by decide
    have h4 : tool_long_name.name.length = 29 := by decide
    have h5 : tool_long_name.name.isEmpty = false := by decide
    unfold tools_result
    simp only [List.map_cons, List.map_nil, comma_separated, h5, Bool.false_eq_true, if_false,
      String.length_append, h1, h2, h3, h4, tool_fills_page_length]
  exact ⟨_, hreply, hlen, by rw [hlen]; decide⟩

/-- C28, as stated, fails when tools are registered and none is listed: a
server whose only tool is user-only, asked without user tools, and a server
asked with a cursor that names no tool, both answer with the error about the
payload size, although every tool fits in one page. -/
theorem GetToolsList_error_without_listed_tool :
    McpServer.GetToolsList.reply sample_to_json [tool_for_user] 1 "" false =
        Reply.ReplyError 1 "Failed to add tool  because of payload size limit" ∧
      McpServer.GetToolsList.reply sample_to_json [tool_long_name] 1 "no.such.tool" true =
        Reply.ReplyError 1 "Failed to add tool  because of payload size limit" ∧
      fits_in_page sample_to_json tool_for_user ∧ fits_in_page sample_to_json tool_long_name := by
  refine ⟨by decide, by decide, ?_, ?_⟩
  · unfold fits_in_page
    rw [sample_to_json_length]
    decide
  · unfold fits_in_page
    rw [sample_to_json_length]
    decide

/-- C28 (amended): `GetToolsList` replies with an error exactly when tools are
registered and no tool was placed in the page: when the first tool listed from
the cursor onward is too large for an empty page, and also when no tool is
listed from the cursor onward (the remaining ones are user-only and user tools
are not asked for, or the cursor names no registered tool); the error then
names no tool.  Whenever every tool's JSON fits in one page and a tool is
listed from the cursor onward the reply is a result, and with no tool
registered the reply is a result with an empty tools array. -/
theorem GetToolsList_error_iff_empty_page (to_json : McpTool → String) (tools : List McpTool)
    (id : Int) (cursor : String) (flag : Bool)
    (hjson : ∀ t ∈ tools, std_back (to_json t) = some '\x7d') :
    ((∃ message, McpServer.GetToolsList.reply to_json tools id cursor flag =
        Reply.ReplyError id message) ↔
      tools ≠ [] ∧
        ((from_cursor cursor tools).filter (eligible flag) = [] ∨
          ∃ t, ((from_cursor cursor tools).filter (eligible flag)).head? = some t ∧
            ¬ fits_in_page to_json t)) ∧
    (tools ≠ [] → (from_cursor cursor tools).filter (eligible flag) = [] →
      McpServer.GetToolsList.reply to_json tools id cursor flag =
        Reply.ReplyError id "Failed to add tool  because of payload size limit") ∧
    (tools = [] →
      McpServer.GetToolsList.reply to_json tools id cursor flag =
        Reply.ReplyResult id "\x7b\"tools\":[]\x7d") ∧
    ((∀ t ∈ tools, fits_in_page to_json t) →
      (from_cursor cursor tools).filter (eligible flag) ≠ [] →
      ∃ result, McpServer.GetToolsList.reply to_json tools id cursor flag =
        Reply.ReplyResult id result) := by
  refine ⟨GetToolsList_reply_error_iff to_json tools id cursor flag hjson,
    GetToolsList_reply_none_listed to_json tools id cursor flag hjson, ?_,
    GetToolsList_reply_result to_json tools id cursor flag hjson⟩
  intro he
  subst he
  exact GetToolsList_reply_no_tools to_json id cursor flag

theorem GetToolsList_error_iff_empty_page_witness :
    ∃ result, McpServer.GetToolsList.reply sample_to_json [tool_long_name, tool_for_user] 1 ""
      false = Reply.ReplyResult 1 result :=
  (GetToolsList_error_iff_empty_page sample_to_json [tool_long_name, tool_for_user] 1 "" false
    (fun t _ => sample_to_json_back t)).2.2.2
    (fun t ht => by
      unfold fits_in_page
      rw [sample_to_json_length]
      simp only [List.mem_cons, List.mem_singleton, List.not_mem_nil, or_false] at ht
      rcases ht with rfl | rfl <;> decide)
    (fun h => absurd (congrArg List.length h) (by decide))

/-! ## Registering and calling tools: claims C25 and C29 -/

/-- C25: a board registers a tool named `self.get_device_status`, then
`AddCommonTools` runs.  The common tool of that name is added to the emptied
list and the board's tool is put back behind it unchecked, so the name is
registered twice; `AddTool` with the same tool after `AddCommonTools` leaves
the names as they are. -/
theorem AddCommonTools_restores_duplicate_name :
    (McpServer.AddCommonTools sample_menv (McpServer.AddTool tool_of_board [])).map McpTool.name =
        ["self.get_device_status", "self.audio_speaker.set_volume", "self.screen.set_brightness",
          "self.screen.set_theme", "self.get_device_status"] ∧
      ¬ ((McpServer.AddCommonTools sample_menv (McpServer.AddTool tool_of_board [])).map
        McpTool.name).Nodup ∧
      (McpServer.AddTool tool_of_board (McpServer.AddCommonTools sample_menv [])).map McpTool.name =
        ["self.get_device_status", "self.audio_speaker.set_volume", "self.screen.set_brightness",
          "self.screen.set_theme"] := by
  decide

/-- What `DoToolCall` reads for one argument, in terms of the value given. -/
theorem read_eq (menv : McpEnv) (tool_arguments : Option cJSON) (p : Property) :
    McpServer.DoToolCall.read menv tool_arguments p =
      match argument_value tool_arguments p with
      | some v => (menv.set_value p v).map fun argument => (argument, true)
      | none => Except.ok (p, false) := by
  unfold McpServer.DoToolCall.read argument_value
  cases tool_arguments with
  | none => cases hp : p.type <;> simp [cJSON_IsObject, cJSON_GetObjectItem]
  | some obj =>
    cases obj with
    | Object members =>
      simp only [cJSON_IsObject, if_true]
      cases hv : cJSON_GetObjectItem (some (cJSON.Object members)) p.name with
      | none => cases hp : p.type <;> simp [cJSON_IsBool, cJSON_IsNumber, cJSON_IsString]
      | some v =>
        cases v <;> cases hp : p.type <;>
          simp [cJSON_IsBool, cJSON_IsNumber, cJSON_IsString, cJSON_valueint_bool, cJSON_valueint,
            cJSON_valuestring]
    | _ => cases hp : p.type <;> simp [cJSON_IsObject, cJSON_GetObjectItem]

/-- The arguments are bound exactly when every property is satisfied; the
bound list has one entry per property. -/
theorem bind_ok (menv : McpEnv) (tool_arguments : Option cJSON) (properties : List Property)
    (h : ∀ p ∈ properties, argument_ok menv tool_arguments p = true) :
    ∃ arguments, arguments.length = properties.length ∧
      McpServer.DoToolCall.bind menv tool_arguments properties = Except.ok arguments := by
  induction properties with
  | nil => exact ⟨[], rfl, rfl⟩
  | cons p rest ih =>
    obtain ⟨arguments, hlen, hbind⟩ := ih fun q hq => h q (List.mem_cons_of_mem _ hq)
    have hp := h p (List.mem_cons_self _ _)
    rw [McpServer.DoToolCall.bind, read_eq]
    cases hv : argument_value tool_arguments p with
    | none =>
      have hd : menv.has_default_value p = true := by simpa [argument_ok, hv] using hp
      simp only [hd, Bool.not_true, Bool.false_and, Bool.false_eq_true, if_false, hbind]
      exact ⟨p :: arguments, by simp [hlen], rfl⟩
    | some v =>
      simp only []
      cases hs : menv.set_value p v with
      | error what => simp [argument_ok, hv, hs] at hp
      | ok p' =>
        simp only [Except.map, Bool.not_true, Bool.and_false, Bool.false_eq_true, if_false, hbind]
        exact ⟨p' :: arguments, by simp [hlen], rfl⟩

/-- When a property is not satisfied the binding ends with an error message:
the missing-argument text for a property without default and without a value
of its type, or the message of the exception `set_value` threw. -/
theorem bind_error (menv : McpEnv) (tool_arguments : Option cJSON) (properties : List Property)
    (h : ¬ ∀ p ∈ properties, argument_ok menv tool_arguments p = true) :
    ∃ message p, p ∈ properties ∧ argument_ok menv tool_arguments p = false ∧
      McpServer.DoToolCall.bind menv tool_arguments properties = Except.error message ∧
      ((argument_value tool_arguments p = none ∧
          message = "Missing valid argument: " ++ p.name) ∨
        ∃ v, argument_value tool_arguments p = some v ∧
          menv.set_value p v = Except.error message) := by
  induction properties with
  | nil => exact absurd (fun p hp => absurd hp (List.not_mem_nil p)) h
  | cons p rest ih =>
    by_cases hp : argument_ok menv tool_arguments p = true
    · have hrest : ¬ ∀ q ∈ rest, argument_ok menv tool_arguments q = true := by
        intro hall
        apply h
        intro q hq
        rcases List.mem_cons.mp hq with e | hq
        · rw [e]; exact hp
        · exact hall q hq
      obtain ⟨message, q, hq, hqok, hbind, hmsg⟩ := ih hrest
      refine ⟨message, q, List.mem_cons_of_mem _ hq, hqok, ?_, hmsg⟩
      rw [McpServer.DoToolCall.bind, read_eq]
      cases hv : argument_value tool_arguments p with
      | none =>
        have hd : menv.has_default_value p = true := by simpa [argument_ok, hv] using hp
        simp only [hd, Bool.not_true, Bool.false_and, Bool.false_eq_true, if_false, hbind]
      | some v =>
        simp only []
        cases hs : menv.set_value p v with
        | error what => simp [argument_ok, hv, hs] at hp
        | ok p' =>
          simp only [Except.map, Bool.not_true, Bool.and_false, Bool.false_eq_true, if_false,
            hbind]
    · have hp' : argument_ok menv tool_arguments p = false := by simpa using hp
      cases hv : argument_value tool_arguments p with
      | none =>
        have hd : menv.has_default_value p = false := by simpa [argument_ok, hv] using hp'
        refine ⟨"Missing valid argument: " ++ p.name, p, List.mem_cons_self _ _, hp', ?_,
          Or.inl ⟨hv, rfl⟩⟩
        rw [McpServer.DoToolCall.bind, read_eq, hv]
        simp [hd]
      | some v =>
        cases hs : menv.set_value p v with
        | ok p' => simp [argument_ok, hv, hs] at hp'
        | error what =>
          refine ⟨what, p, List.mem_cons_self _ _, hp', ?_, Or.inr ⟨v, hv, hs⟩⟩
          rw [McpServer.DoToolCall.bind, read_eq, hv]
          simp [hs, Except.map]

/-- Sending a reply calls no tool: it appends at most the sending of the
payload to the trace, on the scheduler thread, or to the queue, elsewhere. -/
theorem Reply_send_spec (on_main_thread : Bool) (reply : Reply) (a : App) :
    (reply.send on_main_thread a).st.log =
        a.st.log ++
          (if a.st.protocol_ && on_main_thread then
            [Effect.protocol_SendMcpMessage reply.payload]
          else []) ∧
      (reply.send on_main_thread a).main_tasks_ =
        a.main_tasks_ ++
          (if a.st.protocol_ && !on_main_thread then [SendMcpMessage.task reply.payload]
          else []) := by
  unfold Reply.send SendMcpMessage
  cases hp : a.st.protocol_ <;> cases on_main_thread <;> simp [Schedule, App.onSt, emit]

/-- C29, as stated, fails for a property with a default value: the tool
`external.vnexpress.latest` declares `limit` with default 5 and bounds 1 to 20;
called with `limit` 500, every property without a default value is in order
(there is none), yet `set_value` throws, the error reply with the message of
the exception is sent, and the tool is not called when the queue is drained. -/
theorem DoToolCall_rejects_optional_argument :
    (∀ p ∈ tool_latest_news.properties,
        required_argument_ok sample_menv (some arguments_limit_500) p = true) ∧
      McpServer.DoToolCall sample_menv false [tool_latest_news] 1 "external.vnexpress.latest"
          (some arguments_limit_500)
          (sample_app (sample_st DeviceState.kDeviceStateIdle (fetched_at 0 0)) [] no_bits) =
        (Reply.ReplyError 1 "Value exceeds maximum allowed: 20").send false
          (sample_app (sample_st DeviceState.kDeviceStateIdle (fetched_at 0 0)) [] no_bits) ∧
      (MainEventLoop.drain
        (McpServer.DoToolCall sample_menv false [tool_latest_news] 1 "external.vnexpress.latest"
          (some arguments_limit_500)
          (sample_app (sample_st DeviceState.kDeviceStateIdle (fetched_at 0 0)) [] no_bits))).st.log =
        [Effect.protocol_SendMcpMessage
          (Reply.ReplyError 1 "Value exceeds maximum allowed: 20").payload] := by
  refine ⟨by decide, ?_, by decide⟩
  rfl

/-- C29 (amended): `DoToolCall` schedules the call of the tool if and only if
a tool of the given name is registered and every declared property is
satisfied: the value given for it in the arguments object, of the property's
type, is accepted by the property, or no such value is given and the property
has a default value.  Otherwise it sends exactly one error reply, `Unknown
tool`, `Missing valid argument` for a property without default and without
such a value, or the message of the exception for a value the property does
not accept, and does nothing else; sending a reply calls no tool. -/
theorem DoToolCall_schedules_iff_arguments_ok (menv : McpEnv) (on_main_thread : Bool)
    (tools_ : List McpTool) (id : Int) (tool_name : String) (tool_arguments : Option cJSON)
    (a : App) :
    ((tools_.find? fun tool => tool.name == tool_name) = none →
      McpServer.DoToolCall menv on_main_thread tools_ id tool_name tool_arguments a =
        (Reply.ReplyError id ("Unknown tool: " ++ tool_name)).send on_main_thread a) ∧
    (∀ tool, (tools_.find? fun tool => tool.name == tool_name) = some tool →
      ((∀ p ∈ tool.properties, argument_ok menv tool_arguments p = true) →
        ∃ arguments, arguments.length = tool.properties.length ∧
          McpServer.DoToolCall menv on_main_thread tools_ id tool_name tool_arguments a =
            Schedule (McpServer.DoToolCall.task tool id arguments) a) ∧
      ((¬ ∀ p ∈ tool.properties, argument_ok menv tool_arguments p = true) →
        ∃ message p, p ∈ tool.properties ∧ argument_ok menv tool_arguments p = false ∧
          McpServer.DoToolCall menv on_main_thread tools_ id tool_name tool_arguments a =
            (Reply.ReplyError id message).send on_main_thread a ∧
          ((argument_value tool_arguments p = none ∧
              message = "Missing valid argument: " ++ p.name) ∨
            ∃ v, argument_value tool_arguments p = some v ∧
              menv.set_value p v = Except.error message))) ∧
    (∀ reply : Reply,
      (reply.send on_main_thread a).st.log =
          a.st.log ++
            (if a.st.protocol_ && on_main_thread then
              [Effect.protocol_SendMcpMessage reply.payload]
            else []) ∧
        (reply.send on_main_thread a).main_tasks_ =
          a.main_tasks_ ++
            (if a.st.protocol_ && !on_main_thread then [SendMcpMessage.task reply.payload]
            else [])) := by
  refine ⟨?_, ?_, fun reply => Reply_send_spec on_main_thread reply a⟩
  · intro hfind
    unfold McpServer.DoToolCall
    rw [hfind]
  · intro tool hfind
    constructor
    · intro hall
      obtain ⟨arguments, hlen, hbind⟩ := bind_ok menv tool_arguments tool.properties hall
      refine ⟨arguments, hlen, ?_⟩
      unfold McpServer.DoToolCall
      rw [hfind]
      simp only [hbind]
    · intro hnot
      obtain ⟨message, p, hp, hpok, hbind, hmsg⟩ :=
        bind_error menv tool_arguments tool.properties hnot
      refine ⟨message, p, hp, hpok, ?_, hmsg⟩
      unfold McpServer.DoToolCall
      rw [hfind]
      simp only [hbind]

theorem DoToolCall_schedules_iff_arguments_ok_witness :
    ∃ arguments, arguments.length = tool_latest_news.properties.length ∧
      McpServer.DoToolCall sample_menv false [tool_latest_news] 1 "external.vnexpress.latest"
          (some arguments_limit_3)
          (sample_app (sample_st DeviceState.kDeviceStateIdle (fetched_at 0 0)) [] no_bits) =
        Schedule (McpServer.DoToolCall.task tool_latest_news 1 arguments)
          (sample_app (sample_st DeviceState.kDeviceStateIdle (fetched_at 0 0)) [] no_bits) :=
  ((DoToolCall_schedules_iff_arguments_ok sample_menv false [tool_latest_news] 1
    "external.vnexpress.latest" (some arguments_limit_3)
    (sample_app (sample_st DeviceState.kDeviceStateIdle (fetched_at 0 0)) [] no_bits)).2.1
    tool_latest_news rfl).1 (by decide)

/-- In the sample run with `limit` 3 the drained queue calls the tool and
sends its result. -/
theorem DoToolCall_sample_calls_tool :
    (MainEventLoop.drain
      (McpServer.DoToolCall sample_menv false [tool_latest_news] 1 "external.vnexpress.latest"
        (some arguments_limit_3)
        (sample_app (sample_st DeviceState.kDeviceStateIdle (fetched_at 0 0)) [] no_bits))).st.log =
      [Effect.mcp_tool_Call "external.vnexpress.latest",
        Effect.protocol_SendMcpMessage (Reply.ReplyResult 1 "true").payload] := by
  decide

/-! ## Wind direction on the idle card: claim C30 -/

theorem format_wind_dir_index (deg : Int) (h : 0 ≤ deg) :
    ((((deg.tmod 360) + 360).tmod 360 + 22).tdiv 45).tmod 8 = ((deg % 360 + 22) / 45) % 8 := by
  have h1 : deg.tmod 360 = deg % 360 := Int.tmod_eq_emod h (by norm_num)
  have h2 : (deg % 360 + 360).tmod 360 = (deg % 360 + 360) % 360 :=
    Int.tmod_eq_emod (by omega) (by norm_num)
  have h3 : ((deg % 360 + 360) % 360 + 22).tdiv 45 = ((deg % 360 + 360) % 360 + 22) / 45 :=
    Int.tdiv_eq_ediv (by omega) (by norm_num)
  have h4 : (((deg % 360 + 360) % 360 + 22) / 45).tmod 8 =
      (((deg % 360 + 360) % 360 + 22) / 45) % 8 :=
    Int.tmod_eq_emod (by omega) (by norm_num)
  rw [h1, h2, h3, h4]
  omega

/-- C30: `format_wind_dir` returns the empty string for every negative `deg`;
for every `deg ≥ 0` the index `((deg mod 360) + 22) / 45 mod 8` is one of
`0..7`, the read of the eight-entry table is in bounds, and the entry read is
the name of the sector whose centre `45 * k` is strictly nearer to `deg mod 360`
on the compass circle than the centre of any other sector. -/
theorem format_wind_dir_total_and_nearest (deg : Int) :
    (deg < 0 → UpdateIdleDisplay.format_wind_dir deg = some "") ∧
    (0 ≤ deg →
      ∃ k : Nat, k < 8 ∧ (k : Int) = ((deg % 360 + 22) / 45) % 8 ∧
        UpdateIdleDisplay.format_wind_dir deg = UpdateIdleDisplay.dirs.get? k ∧
        UpdateIdleDisplay.dirs.get? k = some (compass_sector k) ∧
        ∀ j : Nat, j < 8 → j ≠ k →
          compass_distance (deg % 360) (45 * k) < compass_distance (deg % 360) (45 * j)) := by
  constructor
  · intro h
    simp [UpdateIdleDisplay.format_wind_dir, h]
  · intro h
    refine ⟨(((deg % 360 + 22) / 45) % 8).toNat, by omega, by omega, ?_, ?_, ?_⟩
    · have hidx := format_wind_dir_index deg h
      unfold UpdateIdleDisplay.format_wind_dir
      rw [if_neg (by omega)]
      simp only []
      rw [hidx, if_pos (by omega)]
    · have hk : (((deg % 360 + 22) / 45) % 8).toNat < 8 := by omega
      generalize (((deg % 360 + 22) / 45) % 8).toNat = k at hk
      interval_cases k <;> rfl
    · intro j hj hne
      unfold compass_distance
      omega

theorem format_wind_dir_total_and_nearest_witness :
    UpdateIdleDisplay.format_wind_dir (-90) = some "" ∧
      UpdateIdleDisplay.format_wind_dir 350 = some "N" ∧
      UpdateIdleDisplay.format_wind_dir 68 = some "E" :=
  ⟨(format_wind_dir_total_and_nearest (-90)).1 (by decide), by decide, by decide⟩

end Application
